import Mathlib

/-!
# Aspia host: session agent, session launcher and base utilities

A shallow embedding of `source/host/desktop_session_agent.cc`,
`source/host/host_session_launcher.cc`, the write queue of
`source/ipc/ipc_channel.h`, `source/base/waitable_timer.cc` and
`source/base/win/scoped_variant.cc`.

Conventions of the embedding.

* A `std::unique_ptr` member is an `Option`; `reset()` and assignment are the
  corresponding updates, and the destruction of a held object is recorded.
* A method of the agent is a function from the agent's members to the new
  members together with the ordered list of calls (`Effect`) it makes on its
  collaborators: the owned subsystems, the channel, the task runner, the power
  controller and the logger.
* The collaborators themselves (capturer, scheduler, injector, clipboard
  monitor, task runner, channel, message parser) are not part of the embedded
  files. An owned subsystem is represented by the history of the calls made on
  it; what a collaborator computes (`parseMessage`, `nextCaptureDelay`) is a
  parameter, collected in `Env`.
-/

namespace base

/-- The byte buffers exchanged with the channel (`base::ByteArray`). -/
abbrev ByteArray := List Nat

end base

namespace proto

/-- Payload of a pointer event; its fields are not inspected by the agent. -/
structure PointerEvent where
  payload : List Nat
deriving DecidableEq, Repr, Inhabited

/-- Payload of a key event; its fields are not inspected by the agent. -/
structure KeyEvent where
  payload : List Nat
deriving DecidableEq, Repr, Inhabited

/-- Payload of a clipboard event; its fields are not inspected by the agent. -/
structure ClipboardEvent where
  payload : List Nat
deriving DecidableEq, Repr, Inhabited

/-- A screen entry: `set_id`, `set_title`. -/
structure Screen where
  id : Int
  title : String
deriving DecidableEq, Repr, Inhabited

/-- The list of screens sent by `onScreenListChanged`. -/
structure ScreenList where
  current_screen : Int
  screen : List Screen
deriving DecidableEq, Repr, Inhabited

/-- Serialized rectangle (filled by `codec::serializeRect`). -/
structure Rect where
  x : Int
  y : Int
  width : Int
  height : Int
deriving DecidableEq, Repr, Inhabited

/-- Serialized pixel format (filled by `codec::serializePixelFormat`). -/
structure PixelFormat where
  bits_per_pixel : Nat
  layout : List Nat
deriving DecidableEq, Repr, Inhabited

namespace internal

/-- Acknowledgement of an encoded frame; carries nothing the agent reads. -/
structure EncodeFrameResult where
  dummy : Nat
deriving DecidableEq, Repr, Inhabited

/-- Payload of `select_source`: `select_source().screen().id()`. -/
structure SelectSource where
  screen : Screen
deriving DecidableEq, Repr, Inhabited

/-- Payload of `set_features`. -/
structure SetFeatures where
  wallpaper : Bool
  effects : Bool
deriving DecidableEq, Repr, Inhabited

/-- Payload of `set_block_input`. -/
structure SetBlockInput where
  state : Bool
deriving DecidableEq, Repr, Inhabited

/-- Payload of `create_shared_buffer` and `release_shared_buffer`. -/
structure SharedBuffer where
  shared_buffer_id : Int
deriving DecidableEq, Repr, Inhabited

/-- The frame description written by `onScreenCaptured`. -/
structure SerializedDesktopFrame where
  shared_buffer_id : Int
  desktop_rect : Option Rect
  pixel_format : Option PixelFormat
  dirty_rect : List Rect
deriving DecidableEq, Repr, Inhabited

/-- Payload of `encode_frame`. -/
structure EncodeFrame where
  frame : Option SerializedDesktopFrame
deriving DecidableEq, Repr, Inhabited

/-- The message type of `incoming_message_`: the fields the dispatch of
`onMessageReceived` tests with `has_...()`. -/
structure ServiceToSession where
  encode_frame_result : Option EncodeFrameResult
  pointer_event : Option PointerEvent
  key_event : Option KeyEvent
  clipboard_event : Option ClipboardEvent
  start_session : Option Unit
  stop_session : Option Unit
  select_source : Option SelectSource
  set_features : Option SetFeatures
  set_block_input : Option SetBlockInput
  logoff_user_session : Option Unit
  lock_user_session : Option Unit
deriving DecidableEq, Repr

/-- The message type of `outgoing_message_`: the fields the agent writes with
`mutable_...()`. -/
structure SessionToService where
  create_shared_buffer : Option SharedBuffer
  release_shared_buffer : Option SharedBuffer
  screen_list : Option ScreenList
  encode_frame : Option EncodeFrame
  clipboard_event : Option ClipboardEvent
deriving DecidableEq, Repr

/-- A message after `Clear()`: no field present. -/
def ServiceToSession.cleared : ServiceToSession :=
  { encode_frame_result := none, pointer_event := none, key_event := none,
    clipboard_event := none, start_session := none, stop_session := none,
    select_source := none, set_features := none, set_block_input := none,
    logoff_user_session := none, lock_user_session := none }

/-- A message after `Clear()`: no field present. -/
def SessionToService.cleared : SessionToService :=
  { create_shared_buffer := none, release_shared_buffer := none, screen_list := none,
    encode_frame := none, clipboard_event := none }

instance : Inhabited ServiceToSession := ⟨ServiceToSession.cleared⟩

instance : Inhabited SessionToService := ⟨SessionToService.cleared⟩

end internal

end proto

namespace desktop

/-- A point of the desktop (`frame->topLeft()`). -/
structure Point where
  x : Int
  y : Int
deriving DecidableEq, Repr, Inhabited

/-- A size (`frame->size()`). -/
structure Size where
  width : Int
  height : Int
deriving DecidableEq, Repr, Inhabited

/-- A rectangle of the desktop. -/
structure Rect where
  x : Int
  y : Int
  width : Int
  height : Int
deriving DecidableEq, Repr, Inhabited

/-- Modelled from the spec: `desktop::Rect::makeXYWH(Point, Size)` is declared outside the embedded
files; it is the "bounding rectangle" with the given top-left corner and size. -/
def Rect.makeXYWH (p : Point) (s : Size) : Rect :=
  { x := p.x, y := p.y, width := s.width, height := s.height }

/-- A region, given by the rectangles `Region::Iterator` visits, in iteration
order. `isEmpty()` holds when the iteration visits nothing. -/
structure Region where
  rects : List Rect
deriving DecidableEq, Repr, Inhabited

/-- The test `constUpdatedRegion().isEmpty()`. -/
def Region.isEmpty (r : Region) : Bool := r.rects.isEmpty

/-- The pixel format of a frame (`frame->format()`). -/
structure PixelFormat where
  bits_per_pixel : Nat
  layout : List Nat
deriving DecidableEq, Repr, Inhabited

/-- The shared memory a frame lives in (`frame->sharedMemory()->id()`). -/
structure SharedMemory where
  id : Int
deriving DecidableEq, Repr, Inhabited

/-- A captured frame (`desktop::SharedFrame`), by the accessors the agent uses. -/
structure SharedFrame where
  updatedRegion : Region
  sharedMemory : SharedMemory
  topLeft : Point
  size : Size
  format : PixelFormat
deriving DecidableEq, Repr, Inhabited

/-- An entry of `ScreenCapturer::ScreenList`. -/
structure ScreenListItem where
  id : Int
  title : String
deriving DecidableEq, Repr, Inhabited

end desktop

namespace codec

/-- Modelled from the spec: `codec::serializeRect` (codec/video_util.h) is outside the embedded files;
it copies the rectangle into its serialized form. -/
def serializeRect (r : desktop.Rect) : proto.Rect :=
  { x := r.x, y := r.y, width := r.width, height := r.height }

/-- Modelled from the spec: `codec::serializePixelFormat` (codec/video_util.h) is outside the embedded
files; it copies the pixel format into its serialized form. -/
def serializePixelFormat (f : desktop.PixelFormat) : proto.PixelFormat :=
  { bits_per_pixel := f.bits_per_pixel, layout := f.layout }

end codec

namespace host

open proto.internal

/-- Calls the agent makes on its input injector. -/
inductive InputInjectorCall
  | injectPointerEvent (event : proto.PointerEvent)
  | injectKeyEvent (event : proto.KeyEvent)
  | setBlockInput (state : Bool)
deriving DecidableEq, Repr

/-- Calls the agent makes on its clipboard monitor. -/
inductive ClipboardMonitorCall
  | start
  | injectClipboardEvent (event : proto.ClipboardEvent)
deriving DecidableEq, Repr

/-- Calls the agent makes on its screen capturer. -/
inductive ScreenCapturerCall
  | setSharedMemoryFactory
  | selectScreen (id : Int)
  | enableWallpaper (enable : Bool)
  | enableEffects (enable : Bool)
  | captureFrame
deriving DecidableEq, Repr

/-- Calls the agent makes on its capture scheduler. -/
inductive CaptureSchedulerCall
  | beginCapture
  | endCapture
deriving DecidableEq, Repr

/-- The input injector, by the calls made on it since it was created. -/
structure InputInjectorWin where
  calls : List InputInjectorCall
deriving DecidableEq, Repr

/-- The clipboard monitor, by the calls made on it since it was created. -/
structure ClipboardMonitor where
  calls : List ClipboardMonitorCall
deriving DecidableEq, Repr

/-- The shared memory factory; the agent only creates and destroys it. -/
structure SharedMemoryFactory where
  delegateIsAgent : Bool
deriving DecidableEq, Repr

/-- The capture scheduler: its update interval in milliseconds and the calls
made on it since it was created. -/
structure CaptureScheduler where
  update_interval : Nat
  calls : List CaptureSchedulerCall
deriving DecidableEq, Repr

/-- The screen capturer, by the calls made on it since it was created. -/
structure ScreenCapturerWrapper where
  calls : List ScreenCapturerCall
deriving DecidableEq, Repr

/-- The five subsystems the agent owns through a `std::unique_ptr`. -/
inductive Subsystem
  | input_injector
  | clipboard_monitor
  | shared_memory_factory
  | capture_scheduler
  | screen_capturer
deriving DecidableEq, Repr

/-- The member function bound into a posted task. -/
inductive Task
  | captureBegin
deriving DecidableEq, Repr

/-- Severity of a `LOG(...)` line. -/
inductive Severity
  | LS_INFO
  | LS_ERROR
deriving DecidableEq, Repr

/-- One call of the agent on a collaborator, in the order of execution. -/
inductive Effect
  | log (severity : Severity) (text : String)
  | create (k : Subsystem)
  | destroy (k : Subsystem)
  | destroyFrame (frame : desktop.SharedFrame)
  | input_injector (c : InputInjectorCall)
  | clipboard_monitor (c : ClipboardMonitorCall)
  | screen_capturer (c : ScreenCapturerCall)
  | capture_scheduler (c : CaptureSchedulerCall)
  | send (message : SessionToService)
  | postTask (task : Task)
  | postDelayedTask (task : Task) (delay : Nat)
  | postQuit
  | logoff
  | lock
deriving DecidableEq, Repr

/-- What the collaborators outside the embedded files compute.
`parseMessage buffer` is `common::parseMessage` applied to a cleared message:
whether parsing succeeded and the content of `incoming_message_` afterwards.
`nextCaptureDelay` is `CaptureScheduler::nextCaptureDelay()` in milliseconds. -/
structure Env where
  parseMessage : base.ByteArray → Bool × ServiceToSession
  nextCaptureDelay : CaptureScheduler → Nat

/-- The data members of `DesktopSessionAgent`. The channel and the task runner
are collaborators; calls on them are effects. -/
structure DesktopSessionAgent where
  input_injector_ : Option InputInjectorWin
  clipboard_monitor_ : Option ClipboardMonitor
  shared_memory_factory_ : Option SharedMemoryFactory
  capture_scheduler_ : Option CaptureScheduler
  screen_capturer_ : Option ScreenCapturerWrapper
  last_frame_ : Option desktop.SharedFrame
  incoming_message_ : ServiceToSession
  outgoing_message_ : SessionToService
deriving DecidableEq, Repr

/-- The agent after construction: every pointer null, both messages empty. -/
def DesktopSessionAgent.initial : DesktopSessionAgent :=
  { input_injector_ := none, clipboard_monitor_ := none, shared_memory_factory_ := none,
    capture_scheduler_ := none, screen_capturer_ := none, last_frame_ := none,
    incoming_message_ := ServiceToSession.cleared,
    outgoing_message_ := SessionToService.cleared }

/-- Effects of `p = std::make_unique<T>(...)`: the new object is constructed,
then the object `p` held before, if any, is destroyed. -/
def assignEffects (k : Subsystem) (wasPresent : Bool) : List Effect :=
  Effect.create k :: (if wasPresent then [Effect.destroy k] else [])

/-- Effects of `p.reset()`: the held object, if any, is destroyed. -/
def resetEffects (k : Subsystem) (wasPresent : Bool) : List Effect :=
  if wasPresent then [Effect.destroy k] else []

/-- Effects of a `std::unique_ptr<SharedFrame>` giving up the frame it holds. -/
def releaseFrameEffects (held : Option desktop.SharedFrame) : List Effect :=
  match held with
  | some f => [Effect.destroyFrame f]
  | none => []

/-- `DesktopSessionAgent::startSession`. -/
def DesktopSessionAgent.startSession (s : DesktopSessionAgent) :
    DesktopSessionAgent × List Effect :=
  if s.input_injector_.isSome then
    (s, [Effect.log .LS_INFO "Session already started"])
  else
    ({ s with
        input_injector_ := some { calls := [] }
        clipboard_monitor_ := some { calls := [.start] }
        shared_memory_factory_ := some { delegateIsAgent := true }
        capture_scheduler_ := some { update_interval := 33, calls := [] }
        screen_capturer_ := some { calls := [.setSharedMemoryFactory] } },
     [Effect.log .LS_INFO "Session start..."]
       ++ assignEffects .input_injector s.input_injector_.isSome
       ++ assignEffects .clipboard_monitor s.clipboard_monitor_.isSome
       ++ [Effect.clipboard_monitor .start]
       ++ assignEffects .shared_memory_factory s.shared_memory_factory_.isSome
       ++ assignEffects .capture_scheduler s.capture_scheduler_.isSome
       ++ assignEffects .screen_capturer s.screen_capturer_.isSome
       ++ [Effect.screen_capturer .setSharedMemoryFactory,
           Effect.log .LS_INFO "Session successfully started",
           Effect.postTask .captureBegin])

/-- `DesktopSessionAgent::stopSession`. -/
def DesktopSessionAgent.stopSession (s : DesktopSessionAgent) :
    DesktopSessionAgent × List Effect :=
  ({ s with
      input_injector_ := none
      capture_scheduler_ := none
      screen_capturer_ := none
      shared_memory_factory_ := none
      clipboard_monitor_ := none },
   [Effect.log .LS_INFO "Session stop..."]
     ++ resetEffects .input_injector s.input_injector_.isSome
     ++ resetEffects .capture_scheduler s.capture_scheduler_.isSome
     ++ resetEffects .screen_capturer s.screen_capturer_.isSome
     ++ resetEffects .shared_memory_factory s.shared_memory_factory_.isSome
     ++ resetEffects .clipboard_monitor s.clipboard_monitor_.isSome
     ++ [Effect.log .LS_INFO "Session successfully stopped"])

/-- `DesktopSessionAgent::captureBegin`. -/
def DesktopSessionAgent.captureBegin (s : DesktopSessionAgent) :
    DesktopSessionAgent × List Effect :=
  match s.capture_scheduler_, s.screen_capturer_ with
  | some scheduler, some capturer =>
    ({ s with
        capture_scheduler_ := some { scheduler with calls := scheduler.calls ++ [.beginCapture] }
        screen_capturer_ := some { capturer with calls := capturer.calls ++ [.captureFrame] } },
     [Effect.capture_scheduler .beginCapture, Effect.screen_capturer .captureFrame])
  | _, _ => (s, [])

/-- `DesktopSessionAgent::captureEnd`. The delay is read from the scheduler
after its `endCapture()`. -/
def DesktopSessionAgent.captureEnd (env : Env) (s : DesktopSessionAgent) :
    DesktopSessionAgent × List Effect :=
  match s.capture_scheduler_ with
  | none => (s, [])
  | some scheduler =>
    let ended : CaptureScheduler := { scheduler with calls := scheduler.calls ++ [.endCapture] }
    ({ s with capture_scheduler_ := some ended },
     [Effect.capture_scheduler .endCapture,
      Effect.postDelayedTask .captureBegin (env.nextCaptureDelay ended)])

/-- `DesktopSessionAgent::onDisconnected`. -/
def DesktopSessionAgent.onDisconnected (s : DesktopSessionAgent) :
    DesktopSessionAgent × List Effect :=
  let stopped := s.stopSession
  (stopped.1, stopped.2 ++ [Effect.postQuit])

/-- Forwarding of one call to the input injector, `if (input_injector_)`. -/
def DesktopSessionAgent.toInputInjector (s : DesktopSessionAgent) (c : InputInjectorCall) :
    DesktopSessionAgent × List Effect :=
  match s.input_injector_ with
  | some injector =>
    ({ s with input_injector_ := some { injector with calls := injector.calls ++ [c] } },
     [Effect.input_injector c])
  | none => (s, [])

/-- Forwarding of one call to the clipboard monitor, `if (clipboard_monitor_)`. -/
def DesktopSessionAgent.toClipboardMonitor (s : DesktopSessionAgent) (c : ClipboardMonitorCall) :
    DesktopSessionAgent × List Effect :=
  match s.clipboard_monitor_ with
  | some monitor =>
    ({ s with clipboard_monitor_ := some { monitor with calls := monitor.calls ++ [c] } },
     [Effect.clipboard_monitor c])
  | none => (s, [])

/-- Forwarding of a sequence of calls to the screen capturer,
`if (screen_capturer_) { ... }`. -/
def DesktopSessionAgent.toScreenCapturer (s : DesktopSessionAgent)
    (cs : List ScreenCapturerCall) : DesktopSessionAgent × List Effect :=
  match s.screen_capturer_ with
  | some capturer =>
    ({ s with screen_capturer_ := some { capturer with calls := capturer.calls ++ cs } },
     cs.map Effect.screen_capturer)
  | none => (s, [])

/-- `DesktopSessionAgent::onMessageReceived`. -/
def DesktopSessionAgent.onMessageReceived (env : Env) (s : DesktopSessionAgent)
    (buffer : base.ByteArray) : DesktopSessionAgent × List Effect :=
  let parsed := env.parseMessage buffer
  let s : DesktopSessionAgent := { s with incoming_message_ := parsed.2 }
  let m := s.incoming_message_
  if !parsed.1 then
    (s, [Effect.log .LS_ERROR "Invalid message from service"])
  else if m.encode_frame_result.isSome then
    s.captureEnd env
  else if m.pointer_event.isSome then
    s.toInputInjector (.injectPointerEvent (m.pointer_event.getD default))
  else if m.key_event.isSome then
    s.toInputInjector (.injectKeyEvent (m.key_event.getD default))
  else if m.clipboard_event.isSome then
    s.toClipboardMonitor (.injectClipboardEvent (m.clipboard_event.getD default))
  else if m.start_session.isSome then
    s.startSession
  else if m.stop_session.isSome then
    s.stopSession
  else if m.select_source.isSome then
    s.toScreenCapturer [.selectScreen (m.select_source.getD default).screen.id]
  else if m.set_features.isSome then
    let set_features := m.set_features.getD default
    s.toScreenCapturer [.enableWallpaper set_features.wallpaper,
                        .enableEffects set_features.effects]
  else if m.set_block_input.isSome then
    s.toInputInjector (.setBlockInput (m.set_block_input.getD default).state)
  else if m.logoff_user_session.isSome then
    (s, [Effect.logoff])
  else if m.lock_user_session.isSome then
    (s, [Effect.lock])
  else
    (s, [Effect.log .LS_ERROR "Unhandled message from service"])

/-- `DesktopSessionAgent::onSharedMemoryCreate`. -/
def DesktopSessionAgent.onSharedMemoryCreate (s : DesktopSessionAgent) (id : Int) :
    DesktopSessionAgent × List Effect :=
  let out : SessionToService :=
    { SessionToService.cleared with create_shared_buffer := some { shared_buffer_id := id } }
  ({ s with outgoing_message_ := out }, [Effect.send out])

/-- `DesktopSessionAgent::onSharedMemoryDestroy`. -/
def DesktopSessionAgent.onSharedMemoryDestroy (s : DesktopSessionAgent) (id : Int) :
    DesktopSessionAgent × List Effect :=
  let out : SessionToService :=
    { SessionToService.cleared with release_shared_buffer := some { shared_buffer_id := id } }
  ({ s with outgoing_message_ := out }, [Effect.send out])

/-- `DesktopSessionAgent::onScreenListChanged`. -/
def DesktopSessionAgent.onScreenListChanged (s : DesktopSessionAgent)
    (list : List desktop.ScreenListItem) (current : Int) : DesktopSessionAgent × List Effect :=
  let out : SessionToService :=
    { SessionToService.cleared with
        screen_list := some
          { current_screen := current,
            screen := list.map (fun list_item => { id := list_item.id, title := list_item.title }) } }
  ({ s with outgoing_message_ := out }, [Effect.send out])

/-- `DesktopSessionAgent::onScreenCaptured`. The parameter owns the frame: it is
destroyed on return unless moved into `last_frame_`, and moving it there
destroys the frame `last_frame_` held before. -/
def DesktopSessionAgent.onScreenCaptured (env : Env) (s : DesktopSessionAgent)
    (frame : desktop.SharedFrame) : DesktopSessionAgent × List Effect :=
  if frame.updatedRegion.isEmpty then
    let ended := s.captureEnd env
    (ended.1, ended.2 ++ [Effect.destroyFrame frame])
  else
    let serialized_frame : SerializedDesktopFrame :=
      { shared_buffer_id := frame.sharedMemory.id,
        desktop_rect := some (codec.serializeRect (desktop.Rect.makeXYWH frame.topLeft frame.size)),
        pixel_format := some (codec.serializePixelFormat frame.format),
        dirty_rect := frame.updatedRegion.rects.map codec.serializeRect }
    let out : SessionToService :=
      { SessionToService.cleared with encode_frame := some { frame := some serialized_frame } }
    ({ s with outgoing_message_ := out, last_frame_ := some frame },
     releaseFrameEffects s.last_frame_ ++ [Effect.send out])

/-- `DesktopSessionAgent::onClipboardEvent`. -/
def DesktopSessionAgent.onClipboardEvent (s : DesktopSessionAgent)
    (event : proto.ClipboardEvent) : DesktopSessionAgent × List Effect :=
  let out : SessionToService := { SessionToService.cleared with clipboard_event := some event }
  ({ s with outgoing_message_ := out }, [Effect.send out])

/-! ## The agent in its environment

The task runner runs every posted `captureBegin` task once, the capturer
delivers one `onScreenCaptured` for every `captureFrame()`, and the peer's
messages, the disconnection and the delegate callbacks of the subsystems arrive
in any order. -/

/-- Session state Idle: none of the five owned subsystems is instantiated. -/
def DesktopSessionAgent.isIdle (s : DesktopSessionAgent) : Bool :=
  s.input_injector_.isNone && s.clipboard_monitor_.isNone && s.shared_memory_factory_.isNone
    && s.capture_scheduler_.isNone && s.screen_capturer_.isNone

/-- Session state Active: all five owned subsystems are instantiated. -/
def DesktopSessionAgent.isActive (s : DesktopSessionAgent) : Bool :=
  s.input_injector_.isSome && s.clipboard_monitor_.isSome && s.shared_memory_factory_.isSome
    && s.capture_scheduler_.isSome && s.screen_capturer_.isSome

/-- What can happen to the agent on its single sequential context. -/
inductive Event
  | messageReceived (buffer : base.ByteArray)
  | disconnected
  | runCaptureBegin
  | screenCaptured (frame : desktop.SharedFrame)
  | sharedMemoryCreate (id : Int)
  | sharedMemoryDestroy (id : Int)
  | screenListChanged (list : List desktop.ScreenListItem) (current : Int)
  | clipboardEvent (event : proto.ClipboardEvent)
deriving DecidableEq, Repr

/-- Number of `captureBegin` tasks posted by a list of effects. -/
def postedTasks (effects : List Effect) : Nat :=
  effects.countP (fun e =>
    match e with
    | .postTask .captureBegin => true
    | .postDelayedTask .captureBegin _ => true
    | _ => false)

/-- Number of `captureFrame()` calls in a list of effects. -/
def requestedCaptures (effects : List Effect) : Nat :=
  effects.countP (fun e =>
    match e with
    | .screen_capturer .captureFrame => true
    | _ => false)

/-- Whether an outgoing message is an `encode_frame` message. -/
def isEncodeFrame (m : SessionToService) : Bool := m.encode_frame.isSome

/-- Number of `encode_frame` messages sent by a list of effects. -/
def sentFrames (effects : List Effect) : Nat :=
  effects.countP (fun e =>
    match e with
    | .send m => isEncodeFrame m
    | _ => false)

/-- Number of quit requests posted by a list of effects. -/
def postedQuits (effects : List Effect) : Nat :=
  effects.countP (fun e => e = Effect.postQuit)

/-- Whether a buffer is dispatched as an `encode_frame_result` message. -/
def isEncodeFrameResult (env : Env) (buffer : base.ByteArray) : Bool :=
  (env.parseMessage buffer).1 && (env.parseMessage buffer).2.encode_frame_result.isSome

/-- The agent together with the part of its environment the capture pipeline
depends on. -/
structure World where
  agent : DesktopSessionAgent
  /-- every effect so far, oldest first -/
  trace : List Effect
  /-- `captureBegin` tasks posted and not yet run -/
  pendingTasks : Nat
  /-- `captureFrame()` calls whose `onScreenCaptured` was not yet delivered -/
  pendingCaptures : Nat
  /-- `encode_frame` messages sent and not yet matched by an `encode_frame_result` -/
  unacknowledged : Nat
deriving DecidableEq, Repr

/-- The world at start-up. -/
def World.initial : World :=
  { agent := DesktopSessionAgent.initial, trace := [], pendingTasks := 0,
    pendingCaptures := 0, unacknowledged := 0 }

/-- The world after a method of the agent returned `r`. -/
def World.absorb (w : World) (r : DesktopSessionAgent × List Effect) : World :=
  { agent := r.1,
    trace := w.trace ++ r.2,
    pendingTasks := w.pendingTasks + postedTasks r.2,
    pendingCaptures := w.pendingCaptures + requestedCaptures r.2,
    unacknowledged := w.unacknowledged + sentFrames r.2 }

/-- One event. `runCaptureBegin` needs a pending task and `screenCaptured` a
pending capture; an `encode_frame_result` message matches one unacknowledged
frame, if there is one. -/
def World.step (env : Env) (w : World) : Event → Option World
  | .messageReceived buffer =>
    let matched : World :=
      if isEncodeFrameResult env buffer then { w with unacknowledged := w.unacknowledged - 1 }
      else w
    some (matched.absorb (w.agent.onMessageReceived env buffer))
  | .disconnected => some (w.absorb w.agent.onDisconnected)
  | .runCaptureBegin =>
    if w.pendingTasks = 0 then none
    else some ({ w with pendingTasks := w.pendingTasks - 1 }.absorb w.agent.captureBegin)
  | .screenCaptured frame =>
    if w.pendingCaptures = 0 then none
    else some ({ w with pendingCaptures := w.pendingCaptures - 1 }.absorb
      (w.agent.onScreenCaptured env frame))
  | .sharedMemoryCreate id => some (w.absorb (w.agent.onSharedMemoryCreate id))
  | .sharedMemoryDestroy id => some (w.absorb (w.agent.onSharedMemoryDestroy id))
  | .screenListChanged list current => some (w.absorb (w.agent.onScreenListChanged list current))
  | .clipboardEvent event => some (w.absorb (w.agent.onClipboardEvent event))

/-- A sequence of events, oldest first. -/
def World.run (env : Env) (w : World) : List Event → Option World
  | [] => some w
  | e :: es => (w.step env e).bind (fun w1 => w1.run env es)

/-- The worlds reachable from start-up. -/
def World.Reachable (env : Env) (w : World) : Prop :=
  ∃ events : List Event, World.initial.run env events = some w

/-- The kinds of inbound buffer the dispatch of `onMessageReceived` tells apart. -/
inductive MessageKind
  | invalid
  | encode_frame_result
  | pointer_event
  | key_event
  | clipboard_event
  | start_session
  | stop_session
  | select_source
  | set_features
  | set_block_input
  | logoff_user_session
  | lock_user_session
  | unhandled
deriving DecidableEq, Repr

/-- The kind of a parsed message: the first field present, in the order in
which `onMessageReceived` tests them; `unhandled` when none is present. -/
def messageKindOf (m : ServiceToSession) : MessageKind :=
  if m.encode_frame_result.isSome then .encode_frame_result
  else if m.pointer_event.isSome then .pointer_event
  else if m.key_event.isSome then .key_event
  else if m.clipboard_event.isSome then .clipboard_event
  else if m.start_session.isSome then .start_session
  else if m.stop_session.isSome then .stop_session
  else if m.select_source.isSome then .select_source
  else if m.set_features.isSome then .set_features
  else if m.set_block_input.isSome then .set_block_input
  else if m.logoff_user_session.isSome then .logoff_user_session
  else if m.lock_user_session.isSome then .lock_user_session
  else .unhandled

/-- The kind of an inbound buffer: `invalid` when it does not parse. -/
def bufferKind (env : Env) (buffer : base.ByteArray) : MessageKind :=
  if (env.parseMessage buffer).1 then messageKindOf (env.parseMessage buffer).2 else .invalid

/-- The agent after a buffer was parsed into `incoming_message_`, before the
dispatch. -/
def DesktopSessionAgent.received (env : Env) (s : DesktopSessionAgent)
    (buffer : base.ByteArray) : DesktopSessionAgent :=
  { s with incoming_message_ := (env.parseMessage buffer).2 }

/-- Whether the agent holds the given subsystem. -/
def DesktopSessionAgent.holds (s : DesktopSessionAgent) : Subsystem → Bool
  | .input_injector => s.input_injector_.isSome
  | .clipboard_monitor => s.clipboard_monitor_.isSome
  | .shared_memory_factory => s.shared_memory_factory_.isSome
  | .capture_scheduler => s.capture_scheduler_.isSome
  | .screen_capturer => s.screen_capturer_.isSome

/-- Number of times a list of effects creates the given subsystem. -/
def createdCount (k : Subsystem) (effects : List Effect) : Nat :=
  effects.count (Effect.create k)

/-- Number of times a list of effects destroys the given subsystem. -/
def destroyedCount (k : Subsystem) (effects : List Effect) : Nat :=
  effects.count (Effect.destroy k)

/-- Whether an effect is a message sent on the channel. -/
def Effect.isSend : Effect → Bool
  | .send _ => true
  | _ => false

/-- The capture pipeline's outstanding work: posted `captureBegin` tasks,
captures in progress and unacknowledged frames. -/
def World.outstanding (w : World) : Nat :=
  w.pendingTasks + w.pendingCaptures + w.unacknowledged

/-- An event that keeps to the protocol of the capture pipeline: the peer
acknowledges only a frame that is unacknowledged, and a `start-session` that
finds no input injector arrives when nothing is outstanding. -/
def World.conforming (env : Env) (w : World) : Event → Bool
  | .messageReceived buffer =>
    match bufferKind env buffer with
    | .encode_frame_result => decide (1 ≤ w.unacknowledged)
    | .start_session => w.agent.input_injector_.isSome || decide (w.outstanding = 0)
    | _ => true
  | _ => true

/-- A sequence of events each of which is conforming when it happens. -/
def World.runConforming (env : Env) (w : World) : List Event → Option World
  | [] => some w
  | e :: es =>
    if w.conforming env e then (w.step env e).bind (fun w1 => w1.runConforming env es)
    else none

/-- A parser for examples: the first byte selects the kind of the message, an
empty buffer does not parse. -/
def exampleParse (buffer : base.ByteArray) : Bool × ServiceToSession :=
  match buffer with
  | [] => (false, ServiceToSession.cleared)
  | 1 :: _ => (true, { ServiceToSession.cleared with encode_frame_result := some ⟨0⟩ })
  | 2 :: rest => (true, { ServiceToSession.cleared with pointer_event := some ⟨rest⟩ })
  | 3 :: rest => (true, { ServiceToSession.cleared with key_event := some ⟨rest⟩ })
  | 4 :: rest => (true, { ServiceToSession.cleared with clipboard_event := some ⟨rest⟩ })
  | 5 :: _ => (true, { ServiceToSession.cleared with start_session := some () })
  | 6 :: _ => (true, { ServiceToSession.cleared with stop_session := some () })
  | _ => (true, ServiceToSession.cleared)

/-- An environment for examples: `exampleParse` and a scheduler that always
asks for its update interval. -/
def exampleEnv : Env :=
  { parseMessage := exampleParse, nextCaptureDelay := fun scheduler => scheduler.update_interval }

/-- A frame for examples with one updated rectangle. -/
def exampleFrame : desktop.SharedFrame :=
  { updatedRegion := { rects := [{ x := 0, y := 0, width := 8, height := 8 }] },
    sharedMemory := { id := 7 },
    topLeft := { x := 0, y := 0 },
    size := { width := 640, height := 480 },
    format := { bits_per_pixel := 32, layout := [] } }

/-- A frame for examples with an empty updated region. -/
def exampleEmptyFrame : desktop.SharedFrame :=
  { exampleFrame with updatedRegion := { rects := [] } }

/-- An Active agent for examples: the agent after its first `start-session`. -/
def exampleActive : DesktopSessionAgent :=
  (DesktopSessionAgent.initial.startSession).1

end host

namespace aspia

/-! ## The session launcher (`host_session_launcher.cc`)

Every Windows call the launcher makes is recorded, with its result and with the
impersonation state of the thread at the time of the call. Whether a call
succeeds is a parameter (`Os.succeeds`). `qWarning()` diagnostics are not
recorded, nor are the releases of token handles by the destructor of
`ScopedHandle` (base/win/scoped_object.h, outside the embedded files); `qFatal`
ends the process, so the function does not return. -/

/-- The values of `proto::auth::SessionType`; `other` stands for every value
without a `case` of its own. -/
inductive SessionType
  | SESSION_TYPE_DESKTOP_MANAGE
  | SESSION_TYPE_DESKTOP_VIEW
  | SESSION_TYPE_FILE_TRANSFER
  | other (value : Nat)
deriving DecidableEq, Repr

/-- Access right `TOKEN_ASSIGN_PRIMARY` (winnt.h). -/
def TOKEN_ASSIGN_PRIMARY : Nat := 0x0001

/-- Access right `TOKEN_DUPLICATE` (winnt.h). -/
def TOKEN_DUPLICATE : Nat := 0x0002

/-- Access right `TOKEN_IMPERSONATE` (winnt.h). -/
def TOKEN_IMPERSONATE : Nat := 0x0004

/-- Access right `TOKEN_QUERY` (winnt.h). -/
def TOKEN_QUERY : Nat := 0x0008

/-- Access right `TOKEN_ADJUST_PRIVILEGES` (winnt.h). -/
def TOKEN_ADJUST_PRIVILEGES : Nat := 0x0020

/-- Access right `TOKEN_ADJUST_DEFAULT` (winnt.h). -/
def TOKEN_ADJUST_DEFAULT : Nat := 0x0080

/-- Access right `TOKEN_ADJUST_SESSIONID` (winnt.h). -/
def TOKEN_ADJUST_SESSIONID : Nat := 0x0100

/-- The two information classes the launcher sets on a token. -/
inductive TOKEN_INFORMATION_CLASS
  | TokenSessionId
  | TokenUIAccess
deriving DecidableEq, Repr

/-- A token handle, by where it came from: a duplicate of the process token
made with the given access mask, or the token of the user logged on to a
session. -/
inductive Token
  | duplicate (desired_access : Nat)
  | user (session_id : Nat)
deriving DecidableEq, Repr

/-- A command line: the program and the switches appended to it, in order. -/
structure CommandLine where
  program : List Char
  switches : List (List Char × List Char)
deriving DecidableEq, Repr

/-- The constructor `CommandLine(program)`. -/
def CommandLine.ofProgram (program : List Char) : CommandLine :=
  { program := program, switches := [] }

/-- The method `CommandLine::AppendSwitch`. -/
def CommandLine.AppendSwitch (c : CommandLine) (name value : List Char) : CommandLine :=
  { c with switches := c.switches ++ [(name, value)] }

/-- The two handles of `PROCESS_INFORMATION` the launcher closes. -/
inductive ProcessInfoHandle
  | hThread
  | hProcess
deriving DecidableEq, Repr

/-- The Windows calls of the launcher, with the arguments that tell them apart. -/
inductive OsCall
  | GetModuleFileNameW
  | OpenProcessToken (desired_access : Nat)
  | DuplicateTokenEx (desired_access : Nat)
  | LookupPrivilegeValueW
  | AdjustTokenPrivileges (token : Token)
  | ImpersonateLoggedOnUser (token : Token)
  | SetTokenInformation (token : Token) (cls : TOKEN_INFORMATION_CLASS) (value : Nat)
  | WTSQueryUserToken (session_id : Nat)
  | RevertToSelf
  | CreateEnvironmentBlock (token : Token)
  | CreateProcessAsUserW (token : Token) (command_line : CommandLine)
  | DestroyEnvironmentBlock
  | CloseHandle (handle : ProcessInfoHandle)
deriving DecidableEq, Repr

/-- The operating system as the launcher sees it. `moduleFileName` is what
`GetModuleFileNameW` writes into the buffer; the call returns its length, so it
fails exactly when this is empty. `succeeds` gives the result of every other
call. -/
structure Os where
  moduleFileName : List Char
  succeeds : OsCall → Bool

/-- One recorded call: the call, its result, and whether the thread was
impersonating when it was made. -/
structure Record where
  call : OsCall
  ok : Bool
  impersonating : Bool
deriving DecidableEq, Repr

/-- The calling thread: whether it impersonates, and the calls made so far. -/
structure Thread where
  impersonating : Bool
  calls : List Record
deriving DecidableEq, Repr

/-- How a function ends: it returns a value, or the process is terminated by
`qFatal`. -/
inductive Outcome (α : Type)
  | returned (value : α)
  | fatal
deriving DecidableEq, Repr

/-- A computation of the launcher on the calling thread. -/
def Launch (α : Type) : Type := Thread → Outcome α × Thread

/-- Return of a value, the thread untouched. -/
def Launch.pure {α : Type} (a : α) : Launch α := fun t => (Outcome.returned a, t)

/-- Sequencing: nothing runs after `qFatal`. -/
def Launch.bind {α β : Type} (m : Launch α) (f : α → Launch β) : Launch β := fun t =>
  match m t with
  | (Outcome.returned a, t1) => f a t1
  | (Outcome.fatal, t1) => (Outcome.fatal, t1)

instance : Monad Launch where
  pure := Launch.pure
  bind := Launch.bind

/-- The impersonation state after a call: a successful
`ImpersonateLoggedOnUser` starts impersonating, a successful `RevertToSelf`
ends it, nothing else changes it. -/
def impersonatingAfter (c : OsCall) (ok : Bool) (before : Bool) : Bool :=
  match c with
  | .ImpersonateLoggedOnUser _ => if ok then true else before
  | .RevertToSelf => if ok then false else before
  | _ => before

/-- A call whose `BOOL` result is `ok`. -/
def recordCall (c : OsCall) (ok : Bool) : Launch Bool := fun t =>
  (Outcome.returned ok,
   { impersonating := impersonatingAfter c ok t.impersonating,
     calls := t.calls ++ [{ call := c, ok := ok, impersonating := t.impersonating }] })

/-- A Windows call with the result the operating system gives it. -/
def osCall (os : Os) (c : OsCall) : Launch Bool := recordCall c (os.succeeds c)

/-- The call `qFatal(...)`: the process ends here. -/
def qFatal {α : Type} : Launch α := fun t => (Outcome.fatal, t)

/-- The constant `kProcessNameHost`. -/
def kProcessNameHost : List Char := "aspia_host.exe".toList

/-- Modelled from the spec: `kSessionTypeSwitch` (host/host_switches.h) is outside the embedded files;
the command line carries `--session-type=...`. -/
def kSessionTypeSwitch : List Char := "session-type".toList

/-- Modelled from the spec: `kChannelIdSwitch` (host/host_switches.h) is outside the embedded files;
the command line carries `--channel-id=...`. -/
def kChannelIdSwitch : List Char := "channel-id".toList

/-- Modelled from the spec: `kSessionTypeDesktop` (host/host_switches.h) is outside the embedded
files; the session-type switch value `desktop`. -/
def kSessionTypeDesktop : List Char := "desktop".toList

/-- Modelled from the spec: `kSessionTypeFileTransfer` (host/host_switches.h) is outside the embedded
files; the session-type switch value `file-transfer`. -/
def kSessionTypeFileTransfer : List Char := "file-transfer".toList

/-- The path separators searched by `GetCurrentFolder`: backslash and slash. -/
def kPathSeparators : List Char := [Char.ofNat 92, Char.ofNat 47]

/-- The function `std::wstring_view::find_last_of`: the greatest position holding one of
`chars`, `none` for `npos`. -/
def find_last_of : List Char → List Char → Option Nat
  | [], _ => none
  | c :: cs, chars =>
    match find_last_of cs chars with
    | some pos => some (pos + 1)
    | none => if chars.contains c then some 0 else none

/-- `GetCurrentFolder`, on the text of the module path: the new value of
`*path`, or `none` when the function returns false (and leaves `*path`). -/
def currentFolderOf (temp : List Char) : Option (List Char) :=
  match find_last_of temp kPathSeparators with
  | none => none
  | some pos => some (temp.take pos)

/-- `GetCurrentFolder`. -/
def GetCurrentFolder (os : Os) : Launch (Option (List Char)) := do
  if !(← recordCall .GetModuleFileNameW (!os.moduleFileName.isEmpty)) then
    return none
  return currentFolderOf os.moduleFileName

/-- `CopyProcessToken`. -/
def CopyProcessToken (os : Os) (desired_access : Nat) : Launch (Option Token) := do
  if !(← osCall os (.OpenProcessToken (TOKEN_DUPLICATE ||| desired_access))) then
    return none
  if !(← osCall os (.DuplicateTokenEx desired_access)) then
    return none
  return some (Token.duplicate desired_access)

/-- `CreatePrivilegedToken`. -/
def CreatePrivilegedToken (os : Os) : Launch (Option Token) := do
  let desired_access := TOKEN_ADJUST_PRIVILEGES ||| TOKEN_IMPERSONATE ||| TOKEN_DUPLICATE
    ||| TOKEN_QUERY
  match (← CopyProcessToken os desired_access) with
  | none => return none
  | some privileged_token =>
    if !(← osCall os .LookupPrivilegeValueW) then
      return none
    if !(← osCall os (.AdjustTokenPrivileges privileged_token)) then
      return none
    return some privileged_token

/-- `CreateSessionToken`. -/
def CreateSessionToken (os : Os) (session_id : Nat) : Launch (Option Token) := do
  let desired_access := TOKEN_ADJUST_DEFAULT ||| TOKEN_ADJUST_SESSIONID ||| TOKEN_ASSIGN_PRIMARY
    ||| TOKEN_DUPLICATE ||| TOKEN_QUERY
  match (← CopyProcessToken os desired_access) with
  | none => return none
  | some session_token =>
    match (← CreatePrivilegedToken os) with
    | none => return none
    | some privileged_token =>
      if !(← osCall os (.ImpersonateLoggedOnUser privileged_token)) then
        return none
      let ret ← osCall os (.SetTokenInformation session_token .TokenSessionId session_id)
      let reverted ← osCall os .RevertToSelf
      if !reverted then
        qFatal
      else
        if !ret then
          return none
        let ui_access := 1
        if !(← osCall os (.SetTokenInformation session_token .TokenUIAccess ui_access)) then
          return none
        return some session_token

/-- `CreateProcessWithToken`. -/
def CreateProcessWithToken (os : Os) (user_token : Token) (command_line : CommandLine) :
    Launch Bool := do
  if !(← osCall os (.CreateEnvironmentBlock user_token)) then
    return false
  if !(← osCall os (.CreateProcessAsUserW user_token command_line)) then
    let _ ← osCall os .DestroyEnvironmentBlock
    return false
  let _ ← osCall os (.CloseHandle .hThread)
  let _ ← osCall os (.CloseHandle .hProcess)
  let _ ← osCall os .DestroyEnvironmentBlock
  return true

/-- The command line both launch paths build from the folder of the module. -/
def hostCommandLine (folder session_type channel_id : List Char) : CommandLine :=
  let program_path := folder ++ [Char.ofNat 92] ++ kProcessNameHost
  ((CommandLine.ofProgram program_path).AppendSwitch kSessionTypeSwitch session_type).AppendSwitch
    kChannelIdSwitch channel_id

/-- `LaunchSessionProcessAsUser`. -/
def LaunchSessionProcessAsUser (os : Os) (session_type : List Char) (session_id : Nat)
    (channel_id : List Char) : Launch Bool := do
  match (← CreatePrivilegedToken os) with
  | none => return false
  | some privileged_token =>
    if !(← osCall os (.ImpersonateLoggedOnUser privileged_token)) then
      return false
    let ret ← osCall os (.WTSQueryUserToken session_id)
    let reverted ← osCall os .RevertToSelf
    if !reverted then
      qFatal
    else
      if !ret then
        return false
      match (← GetCurrentFolder os) with
      | none => return false
      | some program_path =>
        CreateProcessWithToken os (Token.user session_id)
          (hostCommandLine program_path session_type channel_id)

/-- `LaunchSessionProcessAsSystem`. -/
def LaunchSessionProcessAsSystem (os : Os) (session_type : List Char) (session_id : Nat)
    (channel_id : List Char) : Launch Bool := do
  match (← GetCurrentFolder os) with
  | none => return false
  | some program_path =>
    let command_line := hostCommandLine program_path session_type channel_id
    match (← CreateSessionToken os session_id) with
    | none => return false
    | some session_token => CreateProcessWithToken os session_token command_line

/-- `LaunchSessionProcess`. -/
def LaunchSessionProcess (os : Os) (session_type : SessionType) (session_id : Nat)
    (channel_id : List Char) : Launch Bool :=
  match session_type with
  | .SESSION_TYPE_DESKTOP_MANAGE | .SESSION_TYPE_DESKTOP_VIEW =>
    LaunchSessionProcessAsSystem os kSessionTypeDesktop session_id channel_id
  | .SESSION_TYPE_FILE_TRANSFER =>
    LaunchSessionProcessAsUser os kSessionTypeFileTransfer session_id channel_id
  | .other _ => Launch.pure false

/-- The thread when `LaunchSessionProcess` is called: not impersonating. -/
def Thread.initial : Thread := { impersonating := false, calls := [] }

/-! ### Properties of a recorded launch -/

/-- The access mask `CreatePrivilegedToken` asks for. -/
def privilegedTokenAccess : Nat :=
  TOKEN_ADJUST_PRIVILEGES ||| TOKEN_IMPERSONATE ||| TOKEN_DUPLICATE ||| TOKEN_QUERY

/-- The access mask `CreateSessionToken` asks for. -/
def sessionTokenAccess : Nat :=
  TOKEN_ADJUST_DEFAULT ||| TOKEN_ADJUST_SESSIONID ||| TOKEN_ASSIGN_PRIMARY ||| TOKEN_DUPLICATE
    ||| TOKEN_QUERY

/-- Calls that undo or release something: the impersonation revert and the
releases of the environment block and of the process handles. -/
def OsCall.isCleanup : OsCall → Bool
  | .RevertToSelf => true
  | .DestroyEnvironmentBlock => true
  | .CloseHandle _ => true
  | _ => false

/-- Whether a call is `ImpersonateLoggedOnUser`. -/
def OsCall.isImpersonate : OsCall → Bool
  | .ImpersonateLoggedOnUser _ => true
  | _ => false

/-- After a failed call that is not a cleanup call, only cleanup calls follow. -/
def abortsAfterFailure : List Record → Bool
  | [] => true
  | r :: rest =>
    (r.ok || r.call.isCleanup || rest.all (fun q => q.call.isCleanup)) && abortsAfterFailure rest

/-- When the folder of the module was not located, nothing is called after
`GetModuleFileNameW`. -/
def stopsAfterFolderFailure (located : Bool) : List Record → Bool
  | [] => true
  | r :: rest =>
    (located || r.call != OsCall.GetModuleFileNameW || rest.isEmpty)
      && stopsAfterFolderFailure located rest

/-- Every successful `ImpersonateLoggedOnUser` is followed by a successful
`RevertToSelf`. -/
def revertsEveryImpersonation : List Record → Bool
  | [] => true
  | r :: rest =>
    (!(r.call.isImpersonate && r.ok)
        || rest.any (fun q => q.call = OsCall.RevertToSelf && q.ok))
      && revertsEveryImpersonation rest

/-- Every `SetTokenInformation` of class `TokenUIAccess` is made after a
successful `RevertToSelf`; the flag tells whether one was seen already. -/
def uiAccessAfterRevert : Bool → List Record → Bool
  | _, [] => true
  | reverted, r :: rest =>
    (match r.call with
      | .SetTokenInformation _ .TokenUIAccess _ => reverted
      | _ => true)
      && uiAccessAfterRevert (reverted || (r.call == OsCall.RevertToSelf && r.ok)) rest

/-- The steps of `CreatePrivilegedToken` that can fail, in order. -/
def privilegedTokenSteps : List OsCall :=
  [.OpenProcessToken (TOKEN_DUPLICATE ||| privilegedTokenAccess),
   .DuplicateTokenEx privilegedTokenAccess,
   .LookupPrivilegeValueW,
   .AdjustTokenPrivileges (Token.duplicate privilegedTokenAccess)]

/-- The launch sub-steps of the path selected by the session type, apart from
locating the folder of the executable: token duplication, privilege lookup and
adjustment, impersonation, token retargeting or user-token query,
environment-block creation and process creation. -/
def launchSubSteps (session_type : SessionType) (session_id : Nat)
    (command_line : CommandLine) : List OsCall :=
  match session_type with
  | .SESSION_TYPE_DESKTOP_MANAGE | .SESSION_TYPE_DESKTOP_VIEW =>
    [.OpenProcessToken (TOKEN_DUPLICATE ||| sessionTokenAccess),
     .DuplicateTokenEx sessionTokenAccess]
      ++ privilegedTokenSteps
      ++ [.ImpersonateLoggedOnUser (Token.duplicate privilegedTokenAccess),
          .SetTokenInformation (Token.duplicate sessionTokenAccess) .TokenSessionId session_id,
          .SetTokenInformation (Token.duplicate sessionTokenAccess) .TokenUIAccess 1,
          .CreateEnvironmentBlock (Token.duplicate sessionTokenAccess),
          .CreateProcessAsUserW (Token.duplicate sessionTokenAccess) command_line]
  | .SESSION_TYPE_FILE_TRANSFER =>
    privilegedTokenSteps
      ++ [.ImpersonateLoggedOnUser (Token.duplicate privilegedTokenAccess),
          .WTSQueryUserToken session_id,
          .CreateEnvironmentBlock (Token.user session_id),
          .CreateProcessAsUserW (Token.user session_id) command_line]
  | .other _ => []

/-- The session-type switch value `LaunchSessionProcess` passes on, for the
session types that select a launch path. -/
def sessionTypeSwitchValue : SessionType → Option (List Char)
  | .SESSION_TYPE_DESKTOP_MANAGE => some kSessionTypeDesktop
  | .SESSION_TYPE_DESKTOP_VIEW => some kSessionTypeDesktop
  | .SESSION_TYPE_FILE_TRANSFER => some kSessionTypeFileTransfer
  | .other _ => none

/-- Every launch sub-step of the selected path succeeds: the folder of the
executable is located and every call of `launchSubSteps` succeeds. -/
def subStepsSucceed (os : Os) (session_type : SessionType) (session_id : Nat)
    (channel_id : List Char) : Bool :=
  match currentFolderOf os.moduleFileName, sessionTypeSwitchValue session_type with
  | some folder, some value =>
    (launchSubSteps session_type session_id (hostCommandLine folder value channel_id)).all
      os.succeeds
  | _, _ => false

/-- An operating system for examples in which every call succeeds. -/
def exampleOs : Os :=
  { moduleFileName := [Char.ofNat 67, Char.ofNat 58, Char.ofNat 92, Char.ofNat 97],
    succeeds := fun _ => true }

/-- An operating system for examples in which only `WTSQueryUserToken` fails. -/
def exampleOsNoUserToken : Os :=
  { exampleOs with
      succeeds := fun c =>
        match c with
        | .WTSQueryUserToken _ => false
        | _ => true }

end aspia

namespace host

open proto.internal

/-! ## Shared buffers on the channel -/

/-- The shared buffer id an outgoing message refers to as the buffer of an
`encode_frame`, if it is one with a frame. -/
def frameBufferId (m : SessionToService) : Option Int :=
  match m.encode_frame with
  | some encode_frame =>
    match encode_frame.frame with
    | some frame => some frame.shared_buffer_id
    | none => none
  | none => none

/-- The ids released and not created again, after one more effect: a
`release_shared_buffer` message adds its id, a `create_shared_buffer` message
removes its id. -/
def releasedAfter (released : List Int) : Effect → List Int
  | .send m =>
    let kept :=
      match m.create_shared_buffer with
      | some created => released.filter (fun id => id != created.shared_buffer_id)
      | none => released
    match m.release_shared_buffer with
    | some gone => gone.shared_buffer_id :: kept
    | none => kept
  | _ => released

/-- The ids released and not created again after a list of effects, oldest
first. -/
def releasedIds (released : List Int) : List Effect → List Int
  | [] => released
  | e :: rest => releasedIds (releasedAfter released e) rest

/-- No `encode_frame` message of the list refers to a buffer id that was
released before it and not created again in between. -/
def framesAvoidReleased (released : List Int) : List Effect → Bool
  | [] => true
  | e :: rest =>
    (match e with
      | .send m =>
        match frameBufferId m with
        | some id => !released.contains id
        | none => true
      | _ => true)
      && framesAvoidReleased (releasedAfter released e) rest

/-- An event in which the capturer hands over a frame whose shared buffer has
not been released on the channel (or was created again since). -/
def World.deliversLiveFrame (w : World) : Event → Bool
  | .screenCaptured frame => !(releasedIds [] w.trace).contains frame.sharedMemory.id
  | _ => true

/-- A sequence of events in which every captured frame refers to a live
buffer when it is delivered. -/
def World.runLive (env : Env) (w : World) : List Event → Option World
  | [] => some w
  | e :: es =>
    if w.deliversLiveFrame e then (w.step env e).bind (fun w1 => w1.runLive env es)
    else none

/-- Whether an effect belongs to the capture loop: a call on the scheduler, a
`captureFrame()` on the capturer, or a posted task. -/
def Effect.isCaptureActivity : Effect → Bool
  | .capture_scheduler _ => true
  | .screen_capturer .captureFrame => true
  | .postTask _ => true
  | .postDelayedTask _ _ => true
  | _ => false

/-- Whether an event is the receipt of a `start-session` message. -/
def Event.isStartSession (env : Env) : Event → Bool
  | .messageReceived buffer => decide (bufferKind env buffer = .start_session)
  | _ => false

/-- A world for examples: `start-session` and then `stop-session` were
received, and the `captureBegin` task of the start is still pending. -/
def exampleStopped : World :=
  (World.initial.run exampleEnv [.messageReceived [5], .messageReceived [6]]).getD World.initial

/-- A world for examples: the session was started and the first frame was
captured and sent; it is not yet acknowledged. -/
def exampleInFlight : World :=
  (World.initial.run exampleEnv
    [.messageReceived [5], .runCaptureBegin, .screenCaptured exampleFrame]).getD World.initial

end host

namespace aspia

/-- Whether a call is `WTSQueryUserToken`, the step only the As-User path has. -/
def OsCall.isUserTokenQuery : OsCall → Bool
  | .WTSQueryUserToken _ => true
  | _ => false

/-- Whether a call is `SetTokenInformation`, the step only the As-System path
has. -/
def OsCall.isSetTokenInformation : OsCall → Bool
  | .SetTokenInformation _ _ _ => true
  | _ => false

end aspia

namespace ipc

/-! ## The write queues of the channel (`ipc_channel.h`) -/

/-- The class `Channel::WriteQueue`: a `std::queue` of byte arrays over a
`std::deque`; `c` is the underlying container, front first. -/
structure WriteQueue where
  c : List base.ByteArray
deriving DecidableEq, Repr

/-- The operation `std::queue::push`: the element goes to the back of the container. -/
def WriteQueue.push (q : WriteQueue) (buffer : base.ByteArray) : WriteQueue :=
  { c := q.c ++ [buffer] }

/-- The operation `std::queue::front`: the first element of the container. -/
def WriteQueue.front (q : WriteQueue) : Option base.ByteArray := q.c.head?

/-- The operation `std::queue::pop`: the first element of the container is removed. -/
def WriteQueue.pop (q : WriteQueue) : WriteQueue := { c := q.c.tail }

/-- The operation `std::queue::empty`. -/
def WriteQueue.empty (q : WriteQueue) : Bool := q.c.isEmpty

/-- `WriteQueue::fastSwap`: `c.swap(queue.c)` exchanges the two containers. The
result is the pair of `*this` and `queue` after the call. -/
def WriteQueue.fastSwap (self queue : WriteQueue) : WriteQueue × WriteQueue :=
  ({ self with c := queue.c }, { queue with c := self.c })

/-- The elements a queue yields when it is drained with `front()` and `pop()`
until it is `empty()`; the fuel bounds the number of rounds. -/
def WriteQueue.drain : Nat → WriteQueue → List base.ByteArray
  | 0, _ => []
  | fuel + 1, q =>
    if q.empty then []
    else
      match q.front with
      | some buffer => buffer :: WriteQueue.drain fuel q.pop
      | none => []

end ipc

namespace aspia

/-- `GetCurrentFolder` with its output parameter made explicit: the returned
`bool` together with the value of `*path` after the call, given the value of
`*path` before it. -/
def GetCurrentFolderInto (os : Os) (path : List Char) : Launch (Bool × List Char) := do
  if !(← recordCall .GetModuleFileNameW (!os.moduleFileName.isEmpty)) then
    return (false, path)
  let temp := os.moduleFileName
  match find_last_of temp kPathSeparators with
  | none => return (false, path)
  | some pos => return (true, temp.take pos)

/-- Whether a character is one of the two path separators. -/
def isPathSeparator (c : Char) : Bool := kPathSeparators.contains c

/-- An operating system for examples whose module path is `C:\a/b.exe`. -/
def exampleOsMixedPath : Os :=
  { exampleOs with
      moduleFileName :=
        [Char.ofNat 67, Char.ofNat 58, Char.ofNat 92, Char.ofNat 97, Char.ofNat 47,
         Char.ofNat 98, Char.ofNat 46, Char.ofNat 101, Char.ofNat 120, Char.ofNat 101] }

end aspia

namespace aspia

/-! ## The waitable timer (`base/waitable_timer.cc`)

`Q_ASSERT` is compiled out of release builds and ends the process in debug
builds when its condition is false. A function with an assertion at its head
returns the value of the asserted condition together with what it does when
execution continues past the assertion. -/

/-- A `TimeoutCallback`, by an identifier of the function it holds. -/
structure TimeoutCallback where
  id : Nat
deriving DecidableEq, Repr

/-- A handle of a timer-queue timer as `CreateTimerQueueTimer` returns it; it
is never null. -/
structure TimerHandle where
  value : Nat
deriving DecidableEq, Repr

/-- The data members of `WaitableTimer`: `timer_handle_` (`none` for
`nullptr`) and `signal_callback_` (`none` for an empty function). -/
structure WaitableTimer where
  timer_handle_ : Option TimerHandle
  signal_callback_ : Option TimeoutCallback
deriving DecidableEq, Repr

/-- The calls a timer makes: on the operating system and on its callback. -/
inductive TimerEffect
  | CreateTimerQueueTimer (due_time : Nat) (ok : Bool)
  | DeleteTimerQueueTimer (handle : TimerHandle)
  | signal_callback (callback : Option TimeoutCallback)
deriving DecidableEq, Repr

/-- The operating system as the timer sees it: the handle
`CreateTimerQueueTimer` returns for a due time, `none` when it fails. -/
structure TimerOs where
  CreateTimerQueueTimer : Nat → Option TimerHandle

/-- The result of a function with a `Q_ASSERT` at its head: the value of the
asserted condition, and the outcome and the effects of the rest of the body. -/
structure Asserted (α : Type) where
  assertion : Bool
  outcome : Outcome α
  effects : List TimerEffect

/-- The bound `std::numeric_limits<DWORD>::max()`. -/
def DWORD_MAX : Int := 4294967295

/-- The conversion `static_cast<DWORD>` of a 64-bit count. -/
def toDWORD (count : Int) : Nat := (count % 4294967296).toNat

/-- `WaitableTimer::Start`; `time_delta` is `time_delta.count()`. -/
def WaitableTimer.Start (os : TimerOs) (self : WaitableTimer) (time_delta : Int)
    (signal_callback : TimeoutCallback) : Asserted WaitableTimer :=
  let assertion := decide (time_delta < DWORD_MAX)
  if self.timer_handle_.isSome then
    { assertion := assertion, outcome := Outcome.returned self, effects := [] }
  else
    let self1 : WaitableTimer := { self with signal_callback_ := some signal_callback }
    match os.CreateTimerQueueTimer (toDWORD time_delta) with
    | some handle =>
      { assertion := assertion,
        outcome := Outcome.returned { self1 with timer_handle_ := some handle },
        effects := [TimerEffect.CreateTimerQueueTimer (toDWORD time_delta) true] }
    | none =>
      { assertion := assertion,
        outcome := Outcome.fatal,
        effects := [TimerEffect.CreateTimerQueueTimer (toDWORD time_delta) false] }

/-- `WaitableTimer::Stop`. -/
def WaitableTimer.Stop (self : WaitableTimer) : WaitableTimer × List TimerEffect :=
  match self.timer_handle_ with
  | some handle =>
    ({ self with timer_handle_ := none }, [TimerEffect.DeleteTimerQueueTimer handle])
  | none => (self, [])

/-- `WaitableTimer::IsActive`. -/
def WaitableTimer.IsActive (self : WaitableTimer) : Bool := self.timer_handle_.isSome

/-- `WaitableTimer::TimerProc` with the timer as its context: the stored
callback is called, no member is written. -/
def WaitableTimer.TimerProc (self : WaitableTimer) : WaitableTimer × List TimerEffect :=
  (self, [TimerEffect.signal_callback self.signal_callback_])

/-- A timer for examples: constructed, never started. -/
def exampleTimer : WaitableTimer := { timer_handle_ := none, signal_callback_ := none }

/-- An operating system for examples that always creates the timer. -/
def exampleTimerOs : TimerOs := { CreateTimerQueueTimer := fun due => some ⟨due + 1⟩ }

end aspia

namespace aspia

/-! ## The scoped variant (`base/win/scoped_variant.cc`)

`VARTYPE` is a 16-bit unsigned integer; the `VT_...` constants are those of
`wtypes.h`. -/

/-- Variant type `VT_EMPTY` (wtypes.h). -/
def VT_EMPTY : Nat := 0

/-- Variant type `VT_I2` (wtypes.h). -/
def VT_I2 : Nat := 2

/-- Variant type `VT_I4` (wtypes.h). -/
def VT_I4 : Nat := 3

/-- Variant type `VT_R4` (wtypes.h). -/
def VT_R4 : Nat := 4

/-- Variant type `VT_R8` (wtypes.h). -/
def VT_R8 : Nat := 5

/-- Variant type `VT_DATE` (wtypes.h). -/
def VT_DATE : Nat := 7

/-- Variant type `VT_BSTR` (wtypes.h). -/
def VT_BSTR : Nat := 8

/-- Variant type `VT_DISPATCH` (wtypes.h). -/
def VT_DISPATCH : Nat := 9

/-- Variant type `VT_BOOL` (wtypes.h). -/
def VT_BOOL : Nat := 11

/-- Variant type `VT_VARIANT` (wtypes.h). -/
def VT_VARIANT : Nat := 12

/-- Variant type `VT_UNKNOWN` (wtypes.h). -/
def VT_UNKNOWN : Nat := 13

/-- Variant type `VT_I1` (wtypes.h). -/
def VT_I1 : Nat := 16

/-- Variant type `VT_UI1` (wtypes.h). -/
def VT_UI1 : Nat := 17

/-- Variant type `VT_UI2` (wtypes.h). -/
def VT_UI2 : Nat := 18

/-- Variant type `VT_UI4` (wtypes.h). -/
def VT_UI4 : Nat := 19

/-- Variant type `VT_I8` (wtypes.h). -/
def VT_I8 : Nat := 20

/-- Variant type `VT_UI8` (wtypes.h). -/
def VT_UI8 : Nat := 21

/-- Variant type `VT_VOID` (wtypes.h). -/
def VT_VOID : Nat := 24

/-- Variant type `VT_PTR` (wtypes.h). -/
def VT_PTR : Nat := 26

/-- Variant type `VT_SAFEARRAY` (wtypes.h). -/
def VT_SAFEARRAY : Nat := 27

/-- Variant type `VT_CARRAY` (wtypes.h). -/
def VT_CARRAY : Nat := 28

/-- Variant type `VT_USERDEFINED` (wtypes.h). -/
def VT_USERDEFINED : Nat := 29

/-- Variant type `VT_LPSTR` (wtypes.h). -/
def VT_LPSTR : Nat := 30

/-- Variant type `VT_LPWSTR` (wtypes.h). -/
def VT_LPWSTR : Nat := 31

/-- Variant type `VT_RECORD` (wtypes.h). -/
def VT_RECORD : Nat := 36

/-- Variant type `VT_INT_PTR` (wtypes.h). -/
def VT_INT_PTR : Nat := 37

/-- Variant type `VT_UINT_PTR` (wtypes.h). -/
def VT_UINT_PTR : Nat := 38

/-- Variant type `VT_FILETIME` (wtypes.h). -/
def VT_FILETIME : Nat := 64

/-- Variant type `VT_BLOB` (wtypes.h). -/
def VT_BLOB : Nat := 65

/-- Variant type `VT_STREAM` (wtypes.h). -/
def VT_STREAM : Nat := 66

/-- Variant type `VT_STORAGE` (wtypes.h). -/
def VT_STORAGE : Nat := 67

/-- Variant type `VT_STREAMED_OBJECT` (wtypes.h). -/
def VT_STREAMED_OBJECT : Nat := 68

/-- Variant type `VT_STORED_OBJECT` (wtypes.h). -/
def VT_STORED_OBJECT : Nat := 69

/-- Variant type `VT_BLOB_OBJECT` (wtypes.h). -/
def VT_BLOB_OBJECT : Nat := 70

/-- Variant type `VT_VERSIONED_STREAM` (wtypes.h). -/
def VT_VERSIONED_STREAM : Nat := 73

/-- Variant type `VT_BSTR_BLOB` (wtypes.h). -/
def VT_BSTR_BLOB : Nat := 0xfff

/-- Flag `VT_ARRAY` (wtypes.h). -/
def VT_ARRAY : Nat := 0x2000

/-- Mask `VT_TYPEMASK` (wtypes.h). -/
def VT_TYPEMASK : Nat := 0xfff

/-- `ScopedVariant::IsLeakableVarType`. -/
def IsLeakableVarType (vt : Nat) : Bool :=
  let masked := vt &&& VT_TYPEMASK
  let leakable : Bool :=
    masked == VT_BSTR || masked == VT_DISPATCH || masked == VT_VARIANT || masked == VT_UNKNOWN
      || masked == VT_SAFEARRAY || masked == VT_VOID || masked == VT_PTR || masked == VT_CARRAY
      || masked == VT_USERDEFINED || masked == VT_LPSTR || masked == VT_LPWSTR
      || masked == VT_RECORD || masked == VT_INT_PTR || masked == VT_UINT_PTR
      || masked == VT_FILETIME || masked == VT_BLOB || masked == VT_STREAM
      || masked == VT_STORAGE || masked == VT_STREAMED_OBJECT || masked == VT_STORED_OBJECT
      || masked == VT_BLOB_OBJECT || masked == VT_VERSIONED_STREAM || masked == VT_BSTR_BLOB
  if !leakable && (vt &&& VT_ARRAY) != 0 then true else leakable

/-- The member of the `VARIANT` union written last, with what was written.
Pointers are `none` when null; floating-point values are kept as bit patterns. -/
inductive VariantValue
  | unset
  | bstrVal (text : Option (List Char))
  | cVal (value : Int)
  | bVal (value : Nat)
  | iVal (value : Int)
  | uiVal (value : Nat)
  | lVal (value : Int)
  | ulVal (value : Nat)
  | llVal (value : Int)
  | ullVal (value : Nat)
  | fltVal (bits : Nat)
  | dblVal (bits : Nat)
  | date (bits : Nat)
  | boolVal (value : Int)
  | pdispVal (object : Option Nat)
  | punkVal (object : Option Nat)
  | parray (array : Option Nat)
deriving DecidableEq, Repr

/-- A `VARIANT`: its type tag `vt` and the union member written last. -/
structure VARIANT where
  vt : Nat
  value : VariantValue
deriving DecidableEq, Repr

/-- The member `var_` of a `ScopedVariant`. -/
structure ScopedVariant where
  var_ : VARIANT
deriving DecidableEq, Repr

/-- The result of a setter: the value of the condition of the `Q_ASSERT` at
its head, and the variant when execution continues past the assertion. -/
structure SetResult where
  assertion : Bool
  variant : ScopedVariant
deriving DecidableEq, Repr

/-- The constant `VARIANT_TRUE` (wtypes.h). -/
def VARIANT_TRUE : Int := -1

/-- The constant `VARIANT_FALSE` (wtypes.h). -/
def VARIANT_FALSE : Int := 0

/-- The part of the operating system the setters of arrays and variants use:
`SafeArrayGetVartype` (the element type on success) and `VariantCopy` (the
destination on success). -/
structure VariantOs where
  SafeArrayGetVartype : Option Nat → Option Nat
  VariantCopy : VARIANT → VARIANT → Option VARIANT

/-- `ScopedVariant::Release`: the variant afterwards; the released `VARIANT`
is the value of `var_` before. -/
def ScopedVariant.Release (self : ScopedVariant) : ScopedVariant × VARIANT :=
  ({ var_ := { self.var_ with vt := VT_EMPTY } }, self.var_)

/-- The setters of `ScopedVariant`, with their arguments: the overloads of
`Set` by parameter type, and `SetDate`. -/
inductive Setter
  | wchar_t (str : Option (List Char))
  | qint8 (i8 : Int)
  | quint8 (ui8 : Nat)
  | qint16 (i16 : Int)
  | quint16 (ui16 : Nat)
  | qint32 (i32 : Int)
  | quint32 (ui32 : Nat)
  | qint64 (i64 : Int)
  | quint64 (ui64 : Nat)
  | float (r32 : Nat)
  | double (r64 : Nat)
  | SetDate (date : Nat)
  | IDispatch (disp : Option Nat)
  | bool (b : Bool)
  | IUnknown (unk : Option Nat)
  | SAFEARRAY (array : Option Nat)
  | VARIANT (var : VARIANT)
deriving DecidableEq, Repr

/-- What a setter writes into `var_` after its assertion. The `AddRef()` on a
non-null interface pointer and the second assertion `Q_ASSERT(!array)` in the
failure branch of `Set(SAFEARRAY*)` are not recorded. -/
def ScopedVariant.written (os : VariantOs) (self : ScopedVariant) : Setter → VARIANT
  | .wchar_t str => { vt := VT_BSTR, value := .bstrVal str }
  | .qint8 i8 => { vt := VT_I1, value := .cVal i8 }
  | .quint8 ui8 => { vt := VT_UI1, value := .bVal ui8 }
  | .qint16 i16 => { vt := VT_I2, value := .iVal i16 }
  | .quint16 ui16 => { vt := VT_UI2, value := .uiVal ui16 }
  | .qint32 i32 => { vt := VT_I4, value := .lVal i32 }
  | .quint32 ui32 => { vt := VT_UI4, value := .ulVal ui32 }
  | .qint64 i64 => { vt := VT_I8, value := .llVal i64 }
  | .quint64 ui64 => { vt := VT_UI8, value := .ullVal ui64 }
  | .float r32 => { vt := VT_R4, value := .fltVal r32 }
  | .double r64 => { vt := VT_R8, value := .dblVal r64 }
  | .SetDate date => { vt := VT_DATE, value := .date date }
  | .IDispatch disp => { vt := VT_DISPATCH, value := .pdispVal disp }
  | .bool b => { vt := VT_BOOL, value := .boolVal (if b then VARIANT_TRUE else VARIANT_FALSE) }
  | .IUnknown unk => { vt := VT_UNKNOWN, value := .punkVal unk }
  | .SAFEARRAY array =>
    match os.SafeArrayGetVartype array with
    | some element => { vt := element ||| VT_ARRAY, value := .parray array }
    | none => { self.var_ with vt := VT_EMPTY }
  | .VARIANT var =>
    match os.VariantCopy self.var_ var with
    | some copied => copied
    | none => { self.var_ with vt := VT_EMPTY }

/-- `ScopedVariant::Set` and `SetDate`: every one of them starts with
`Q_ASSERT(!IsLeakableVarType(var_.vt))` and then writes `var_`. -/
def ScopedVariant.Set (os : VariantOs) (self : ScopedVariant) (setter : Setter) : SetResult :=
  { assertion := !IsLeakableVarType self.var_.vt,
    variant := { var_ := self.written os setter } }

/-- The setters that write a scalar: the integer, floating-point, date and
boolean ones. -/
def Setter.isScalar : Setter → Bool
  | .qint8 _ => true
  | .quint8 _ => true
  | .qint16 _ => true
  | .quint16 _ => true
  | .qint32 _ => true
  | .quint32 _ => true
  | .qint64 _ => true
  | .quint64 _ => true
  | .float _ => true
  | .double _ => true
  | .SetDate _ => true
  | .bool _ => true
  | _ => false

/-- The setters that write a string or an interface pointer. -/
def Setter.isOwning : Setter → Bool
  | .wchar_t _ => true
  | .IDispatch _ => true
  | .IUnknown _ => true
  | _ => false

/-- The base types a scalar setter or `Release()` leaves in `vt`. -/
def scalarTypes : List Nat :=
  [VT_EMPTY, VT_I1, VT_UI1, VT_I2, VT_UI2, VT_I4, VT_UI4, VT_I8, VT_UI8, VT_R4, VT_R8, VT_DATE,
   VT_BOOL]

/-- An operating system for examples on which both calls fail. -/
def exampleVariantOs : VariantOs :=
  { SafeArrayGetVartype := fun _ => none, VariantCopy := fun _ _ => none }

end aspia

namespace host

open proto.internal

/-! ## Theorems: desktop session agent -/

/-- The dispatch of `onMessageReceived`, by the kind of the buffer. -/
theorem onMessageReceived_eq (env : Env) (s : DesktopSessionAgent) (buffer : base.ByteArray) :
    s.onMessageReceived env buffer =
      match bufferKind env buffer with
      | .invalid => (s.received env buffer, [Effect.log .LS_ERROR "Invalid message from service"])
      | .encode_frame_result => (s.received env buffer).captureEnd env
      | .pointer_event =>
        (s.received env buffer).toInputInjector
          (.injectPointerEvent ((env.parseMessage buffer).2.pointer_event.getD default))
      | .key_event =>
        (s.received env buffer).toInputInjector
          (.injectKeyEvent ((env.parseMessage buffer).2.key_event.getD default))
      | .clipboard_event =>
        (s.received env buffer).toClipboardMonitor
          (.injectClipboardEvent ((env.parseMessage buffer).2.clipboard_event.getD default))
      | .start_session => (s.received env buffer).startSession
      | .stop_session => (s.received env buffer).stopSession
      | .select_source =>
        (s.received env buffer).toScreenCapturer
          [.selectScreen ((env.parseMessage buffer).2.select_source.getD default).screen.id]
      | .set_features =>
        (s.received env buffer).toScreenCapturer
          [.enableWallpaper ((env.parseMessage buffer).2.set_features.getD default).wallpaper,
           .enableEffects ((env.parseMessage buffer).2.set_features.getD default).effects]
      | .set_block_input =>
        (s.received env buffer).toInputInjector
          (.setBlockInput ((env.parseMessage buffer).2.set_block_input.getD default).state)
      | .logoff_user_session => (s.received env buffer, [Effect.logoff])
      | .lock_user_session => (s.received env buffer, [Effect.lock])
      | .unhandled =>
        (s.received env buffer, [Effect.log .LS_ERROR "Unhandled message from service"]) := by
  unfold DesktopSessionAgent.onMessageReceived bufferKind messageKindOf
    DesktopSessionAgent.received
  generalize env.parseMessage buffer = p
  obtain ⟨ok, m⟩ := p
  obtain ⟨f1, f2, f3, f4, f5, f6, f7, f8, f9, f10, f11⟩ := m
  cases ok
  · simp
  cases f1 <;> first | (simp; done) | skip
  cases f2 <;> first | (simp; done) | skip
  cases f3 <;> first | (simp; done) | skip
  cases f4 <;> first | (simp; done) | skip
  cases f5 <;> first | (simp; done) | skip
  cases f6 <;> first | (simp; done) | skip
  cases f7 <;> first | (simp; done) | skip
  cases f8 <;> first | (simp; done) | skip
  cases f9 <;> first | (simp; done) | skip
  cases f10 <;> first | (simp; done) | skip
  cases f11 <;> simp

/-- C1: when the input injector is present (the session is Active), a
`start-session` message changes nothing but the receive buffer
`incoming_message_`: every subsystem, the retained frame and the outgoing message
stay as they are, and the only effect is the log line, so nothing is created,
replaced or destroyed and no `captureBegin` task is posted. Consequently two
consecutive `start-session` messages from Idle leave the agent Active, create
each subsystem exactly once, destroy none, and post exactly one `captureBegin`
task. -/
theorem start_session_idempotent (env : Env) (s : DesktopSessionAgent)
    (buffer second : base.ByteArray)
    (hfirst : bufferKind env buffer = .start_session)
    (hsecond : bufferKind env second = .start_session) :
    (s.input_injector_.isSome = true →
      s.onMessageReceived env buffer =
        (s.received env buffer, [Effect.log .LS_INFO "Session already started"]))
    ∧ (s.isIdle = true →
        (s.onMessageReceived env buffer).1.isActive = true
        ∧ ((s.onMessageReceived env buffer).1.onMessageReceived env second).1 =
            (s.onMessageReceived env buffer).1.received env second
        ∧ (∀ k : Subsystem,
            createdCount k ((s.onMessageReceived env buffer).2
              ++ ((s.onMessageReceived env buffer).1.onMessageReceived env second).2) = 1
            ∧ destroyedCount k ((s.onMessageReceived env buffer).2
              ++ ((s.onMessageReceived env buffer).1.onMessageReceived env second).2) = 0)
        ∧ postedTasks ((s.onMessageReceived env buffer).2
            ++ ((s.onMessageReceived env buffer).1.onMessageReceived env second).2) = 1) := by
  constructor
  · intro h
    rw [onMessageReceived_eq, hfirst]
    simp [DesktopSessionAgent.startSession, DesktopSessionAgent.received, h]
  · intro h
    simp only [DesktopSessionAgent.isIdle, Bool.and_eq_true, Option.isNone_iff_eq_none] at h
    obtain ⟨⟨⟨⟨h1, h2⟩, h3⟩, h4⟩, h5⟩ := h
    rw [onMessageReceived_eq env s buffer, hfirst]
    simp only [DesktopSessionAgent.startSession, DesktopSessionAgent.received, h1, h2, h3, h4, h5,
      Option.isSome_none, Bool.false_eq_true, if_false]
    rw [onMessageReceived_eq, hsecond]
    refine ⟨by simp [DesktopSessionAgent.isActive], by
      simp [DesktopSessionAgent.startSession, DesktopSessionAgent.received], ?_, by
      simp [DesktopSessionAgent.startSession, DesktopSessionAgent.received, postedTasks,
        assignEffects, List.countP_cons]⟩
    intro k
    cases k <;>
      simp [DesktopSessionAgent.startSession, DesktopSessionAgent.received, createdCount,
        destroyedCount, assignEffects, List.count_cons]

/-- C1, at a concrete input: the example agent after its first `start-session`
receives a second one. -/
theorem start_session_idempotent_witness :
    exampleActive.onMessageReceived exampleEnv [5] =
      (exampleActive.received exampleEnv [5],
        [Effect.log .LS_INFO "Session already started"]) :=
  (start_session_idempotent exampleEnv exampleActive [5] [5] (by decide) (by decide)).1
    (by decide)

/-- C2: for every agent state, `onDisconnected` leaves the agent Idle (all five
subsystems absent, the other members untouched), and its effects are a teardown
followed by the quit request: the teardown destroys exactly the subsystems that
were held, each once, and posts no quit, and the quit request is the last
effect, posted exactly once. The same holds in every world, whatever tasks,
captures or unacknowledged frames are outstanding, and these are left as they
are. -/
theorem onDisconnected_idle_then_quit (env : Env) (w : World) (s : DesktopSessionAgent) :
    s.onDisconnected.1.isIdle = true
    ∧ s.onDisconnected.1.last_frame_ = s.last_frame_
    ∧ (∃ teardown : List Effect,
        s.onDisconnected.2 = teardown ++ [Effect.postQuit]
        ∧ teardown = s.stopSession.2
        ∧ s.stopSession.1 = s.onDisconnected.1
        ∧ postedQuits teardown = 0
        ∧ ∀ k : Subsystem, destroyedCount k teardown = (if s.holds k then 1 else 0))
    ∧ postedQuits s.onDisconnected.2 = 1
    ∧ (∃ w1 : World,
        w.step env .disconnected = some w1
        ∧ w1.agent.isIdle = true
        ∧ w1.trace = w.trace ++ w.agent.stopSession.2 ++ [Effect.postQuit]
        ∧ w1.pendingTasks = w.pendingTasks
        ∧ w1.pendingCaptures = w.pendingCaptures
        ∧ w1.unacknowledged = w.unacknowledged) := by
  have hq : postedQuits s.stopSession.2 = 0 := by
    cases h1 : s.input_injector_.isSome <;> cases h2 : s.capture_scheduler_.isSome <;>
    cases h3 : s.screen_capturer_.isSome <;> cases h4 : s.shared_memory_factory_.isSome <;>
    cases h5 : s.clipboard_monitor_.isSome <;>
    simp [DesktopSessionAgent.stopSession, postedQuits, resetEffects, h1, h2, h3, h4, h5]
  have hw : ∀ a : DesktopSessionAgent,
      postedTasks a.onDisconnected.2 = 0 ∧ requestedCaptures a.onDisconnected.2 = 0
        ∧ sentFrames a.onDisconnected.2 = 0 := by
    intro a
    cases h1 : a.input_injector_.isSome <;> cases h2 : a.capture_scheduler_.isSome <;>
    cases h3 : a.screen_capturer_.isSome <;> cases h4 : a.shared_memory_factory_.isSome <;>
    cases h5 : a.clipboard_monitor_.isSome <;>
    simp [DesktopSessionAgent.onDisconnected, DesktopSessionAgent.stopSession, postedTasks,
      requestedCaptures, sentFrames, resetEffects, h1, h2, h3, h4, h5]
  refine ⟨by simp [DesktopSessionAgent.onDisconnected, DesktopSessionAgent.stopSession,
      DesktopSessionAgent.isIdle], by
      simp [DesktopSessionAgent.onDisconnected, DesktopSessionAgent.stopSession],
    ⟨s.stopSession.2, by simp [DesktopSessionAgent.onDisconnected], rfl, by
      simp [DesktopSessionAgent.onDisconnected], hq, ?_⟩, ?_, ?_⟩
  · intro k
    cases k <;>
    cases h1 : s.input_injector_.isSome <;> cases h2 : s.capture_scheduler_.isSome <;>
    cases h3 : s.screen_capturer_.isSome <;> cases h4 : s.shared_memory_factory_.isSome <;>
    cases h5 : s.clipboard_monitor_.isSome <;>
    simp [DesktopSessionAgent.stopSession, destroyedCount, resetEffects,
      DesktopSessionAgent.holds, h1, h2, h3, h4, h5]
  · have : s.onDisconnected.2 = s.stopSession.2 ++ [Effect.postQuit] := by
      simp [DesktopSessionAgent.onDisconnected]
    rw [this]
    unfold postedQuits at hq ⊢
    rw [List.countP_append, hq]
    simp
  · obtain ⟨ht, hc, hf⟩ := hw w.agent
    refine ⟨w.absorb w.agent.onDisconnected, rfl, ?_, ?_, ?_, ?_, ?_⟩
    · simp [World.absorb, DesktopSessionAgent.onDisconnected, DesktopSessionAgent.stopSession,
        DesktopSessionAgent.isIdle]
    · simp [World.absorb, DesktopSessionAgent.onDisconnected]
    · simp [World.absorb, ht]
    · simp [World.absorb, hc]
    · simp [World.absorb, hf]

/-- `stopSession` posts no task, requests no capture and sends no frame. -/
theorem stopSession_counts (s : DesktopSessionAgent) :
    postedTasks s.stopSession.2 = 0 ∧ requestedCaptures s.stopSession.2 = 0
      ∧ sentFrames s.stopSession.2 = 0 := by
  cases h1 : s.input_injector_.isSome <;> cases h2 : s.capture_scheduler_.isSome <;>
  cases h3 : s.screen_capturer_.isSome <;> cases h4 : s.shared_memory_factory_.isSome <;>
  cases h5 : s.clipboard_monitor_.isSome <;>
  simp [DesktopSessionAgent.stopSession, postedTasks, requestedCaptures, sentFrames,
    resetEffects, h1, h2, h3, h4, h5]

/-- `startSession` posts one task when it starts the session and none when the
session is already started; it requests no capture and sends no frame. -/
theorem startSession_counts (s : DesktopSessionAgent) :
    postedTasks s.startSession.2 = (if s.input_injector_.isSome then 0 else 1)
      ∧ requestedCaptures s.startSession.2 = 0 ∧ sentFrames s.startSession.2 = 0 := by
  cases h1 : s.input_injector_.isSome <;> cases h2 : s.capture_scheduler_.isSome <;>
  cases h3 : s.screen_capturer_.isSome <;> cases h4 : s.shared_memory_factory_.isSome <;>
  cases h5 : s.clipboard_monitor_.isSome <;>
  simp [DesktopSessionAgent.startSession, postedTasks, requestedCaptures, sentFrames,
    assignEffects, h1, h2, h3, h4, h5, List.countP_cons]

/-- `captureEnd` posts at most one task, requests no capture and sends no frame. -/
theorem captureEnd_counts (env : Env) (s : DesktopSessionAgent) :
    postedTasks (s.captureEnd env).2 = (if s.capture_scheduler_.isSome then 1 else 0)
      ∧ requestedCaptures (s.captureEnd env).2 = 0 ∧ sentFrames (s.captureEnd env).2 = 0 := by
  cases h : s.capture_scheduler_ <;>
  simp [DesktopSessionAgent.captureEnd, postedTasks, requestedCaptures, sentFrames, h,
    List.countP_cons]

/-- `captureBegin` requests at most one capture, posts no task and sends no frame. -/
theorem captureBegin_counts (s : DesktopSessionAgent) :
    postedTasks s.captureBegin.2 = 0
      ∧ requestedCaptures s.captureBegin.2 =
          (if s.capture_scheduler_.isSome && s.screen_capturer_.isSome then 1 else 0)
      ∧ sentFrames s.captureBegin.2 = 0 := by
  cases h : s.capture_scheduler_ <;> cases h1 : s.screen_capturer_ <;>
  simp [DesktopSessionAgent.captureBegin, postedTasks, requestedCaptures, sentFrames, h, h1,
    List.countP_cons]

/-- `onScreenCaptured` either sends one frame or behaves as `captureEnd`. -/
theorem onScreenCaptured_counts (env : Env) (s : DesktopSessionAgent)
    (frame : desktop.SharedFrame) :
    postedTasks (s.onScreenCaptured env frame).2
        + requestedCaptures (s.onScreenCaptured env frame).2
        + sentFrames (s.onScreenCaptured env frame).2 ≤ 1 := by
  cases he : frame.updatedRegion.isEmpty
  · cases hl : s.last_frame_ <;>
    simp [DesktopSessionAgent.onScreenCaptured, he, hl, postedTasks, requestedCaptures,
      sentFrames, releaseFrameEffects, isEncodeFrame, SessionToService.cleared, List.countP_cons]
  · cases h : s.capture_scheduler_ <;>
    simp [DesktopSessionAgent.onScreenCaptured, DesktopSessionAgent.captureEnd, he, h,
      postedTasks, requestedCaptures, sentFrames, List.countP_cons]

/-- The forwarding helpers post no task, request no capture and send no frame. -/
theorem forward_counts (s : DesktopSessionAgent) :
    (∀ c, postedTasks (s.toInputInjector c).2 = 0 ∧ requestedCaptures (s.toInputInjector c).2 = 0
      ∧ sentFrames (s.toInputInjector c).2 = 0)
    ∧ (∀ c, postedTasks (s.toClipboardMonitor c).2 = 0
      ∧ requestedCaptures (s.toClipboardMonitor c).2 = 0
      ∧ sentFrames (s.toClipboardMonitor c).2 = 0)
    ∧ (∀ cs, ScreenCapturerCall.captureFrame ∉ cs →
      postedTasks (s.toScreenCapturer cs).2 = 0
      ∧ requestedCaptures (s.toScreenCapturer cs).2 = 0
      ∧ sentFrames (s.toScreenCapturer cs).2 = 0) := by
  refine ⟨?_, ?_, ?_⟩
  · intro c
    cases h : s.input_injector_ <;>
    simp [DesktopSessionAgent.toInputInjector, h, postedTasks, requestedCaptures, sentFrames,
      List.countP_cons]
  · intro c
    cases h : s.clipboard_monitor_ <;>
    simp [DesktopSessionAgent.toClipboardMonitor, h, postedTasks, requestedCaptures, sentFrames,
      List.countP_cons]
  · intro cs hcs
    cases h : s.screen_capturer_
    · simp [DesktopSessionAgent.toScreenCapturer, h, postedTasks, requestedCaptures, sentFrames]
    · simp only [DesktopSessionAgent.toScreenCapturer, h, postedTasks, requestedCaptures,
        sentFrames]
      refine ⟨?_, ?_, ?_⟩
      · rw [List.countP_eq_zero]
        intro e he
        simp only [List.mem_map] at he
        obtain ⟨c, _, rfl⟩ := he
        simp
      · rw [List.countP_eq_zero]
        intro e he
        simp only [List.mem_map] at he
        obtain ⟨c, hc, rfl⟩ := he
        cases c <;> simp_all
      · rw [List.countP_eq_zero]
        intro e he
        simp only [List.mem_map] at he
        obtain ⟨c, _, rfl⟩ := he
        simp

/-- What a message adds to the capture pipeline: an `encode-frame-result` at
most one task, a `start-session` one task when no input injector is present,
every other buffer nothing. -/
theorem onMessageReceived_counts (env : Env) (s : DesktopSessionAgent)
    (buffer : base.ByteArray) :
    postedTasks (s.onMessageReceived env buffer).2
        + requestedCaptures (s.onMessageReceived env buffer).2
        + sentFrames (s.onMessageReceived env buffer).2
      ≤ (match bufferKind env buffer with
          | .encode_frame_result => 1
          | .start_session => if s.input_injector_.isSome then 0 else 1
          | _ => 0) := by
  rw [onMessageReceived_eq]
  obtain ⟨hi, hc, hs⟩ := forward_counts (s.received env buffer)
  cases hk : bufferKind env buffer <;> simp only []
  · simp [postedTasks, requestedCaptures, sentFrames, List.countP_cons]
  · obtain ⟨h1, h2, h3⟩ := captureEnd_counts env (s.received env buffer)
    rw [h1, h2, h3]
    split_ifs <;> simp
  · obtain ⟨h1, h2, h3⟩ := hi (.injectPointerEvent ((env.parseMessage buffer).2.pointer_event.getD default))
    rw [h1, h2, h3]
  · obtain ⟨h1, h2, h3⟩ := hi (.injectKeyEvent ((env.parseMessage buffer).2.key_event.getD default))
    rw [h1, h2, h3]
  · obtain ⟨h1, h2, h3⟩ :=
      hc (.injectClipboardEvent ((env.parseMessage buffer).2.clipboard_event.getD default))
    rw [h1, h2, h3]
  · obtain ⟨h1, h2, h3⟩ := startSession_counts (s.received env buffer)
    rw [h1, h2, h3]
    simp [DesktopSessionAgent.received]
  · obtain ⟨h1, h2, h3⟩ := stopSession_counts (s.received env buffer)
    rw [h1, h2, h3]
  · obtain ⟨h1, h2, h3⟩ :=
      hs [.selectScreen ((env.parseMessage buffer).2.select_source.getD default).screen.id]
        (by simp)
    rw [h1, h2, h3]
  · obtain ⟨h1, h2, h3⟩ :=
      hs [.enableWallpaper ((env.parseMessage buffer).2.set_features.getD default).wallpaper,
          .enableEffects ((env.parseMessage buffer).2.set_features.getD default).effects]
        (by simp)
    rw [h1, h2, h3]
  · obtain ⟨h1, h2, h3⟩ :=
      hi (.setBlockInput ((env.parseMessage buffer).2.set_block_input.getD default).state)
    rw [h1, h2, h3]
  · simp [postedTasks, requestedCaptures, sentFrames, List.countP_cons]
  · simp [postedTasks, requestedCaptures, sentFrames, List.countP_cons]
  · simp [postedTasks, requestedCaptures, sentFrames, List.countP_cons]

/-- A message has kind `encode_frame_result` exactly when that field is present. -/
theorem messageKindOf_encode_frame_result (m : ServiceToSession) :
    messageKindOf m = .encode_frame_result ↔ m.encode_frame_result.isSome = true := by
  unfold messageKindOf
  obtain ⟨f1, f2, f3, f4, f5, f6, f7, f8, f9, f10, f11⟩ := m
  cases f1 <;> first | (simp; done) | skip
  cases f2 <;> first | (simp; done) | skip
  cases f3 <;> first | (simp; done) | skip
  cases f4 <;> first | (simp; done) | skip
  cases f5 <;> first | (simp; done) | skip
  cases f6 <;> first | (simp; done) | skip
  cases f7 <;> first | (simp; done) | skip
  cases f8 <;> first | (simp; done) | skip
  cases f9 <;> first | (simp; done) | skip
  cases f10 <;> first | (simp; done) | skip
  cases f11 <;> simp

/-- A buffer matches an unacknowledged frame exactly when it is dispatched as an
`encode-frame-result`. -/
theorem isEncodeFrameResult_iff (env : Env) (buffer : base.ByteArray) :
    isEncodeFrameResult env buffer = true ↔ bufferKind env buffer = .encode_frame_result := by
  unfold isEncodeFrameResult bufferKind
  cases h : (env.parseMessage buffer).1
  · simp
  · simp only [Bool.true_and, if_true]
    exact (messageKindOf_encode_frame_result _).symm

/-- `onDisconnected` posts no task, requests no capture and sends no frame. -/
theorem onDisconnected_counts (s : DesktopSessionAgent) :
    postedTasks s.onDisconnected.2 + requestedCaptures s.onDisconnected.2
      + sentFrames s.onDisconnected.2 = 0 := by
  cases h1 : s.input_injector_.isSome <;> cases h2 : s.capture_scheduler_.isSome <;>
  cases h3 : s.screen_capturer_.isSome <;> cases h4 : s.shared_memory_factory_.isSome <;>
  cases h5 : s.clipboard_monitor_.isSome <;>
  simp [DesktopSessionAgent.onDisconnected, DesktopSessionAgent.stopSession, postedTasks,
    requestedCaptures, sentFrames, resetEffects, h1, h2, h3, h4, h5]

/-- The outstanding work after a method returned. -/
theorem outstanding_absorb (w : World) (r : DesktopSessionAgent × List Effect) :
    (w.absorb r).outstanding
      = w.outstanding + (postedTasks r.2 + requestedCaptures r.2 + sentFrames r.2) := by
  simp only [World.absorb, World.outstanding]
  omega

/-- The delegate callbacks of the shared memory factory, the capturer's screen
list and the clipboard monitor add nothing to the capture pipeline. -/
theorem callback_counts (s : DesktopSessionAgent) :
    (∀ id, postedTasks (s.onSharedMemoryCreate id).2 + requestedCaptures (s.onSharedMemoryCreate id).2
      + sentFrames (s.onSharedMemoryCreate id).2 = 0)
    ∧ (∀ id, postedTasks (s.onSharedMemoryDestroy id).2
      + requestedCaptures (s.onSharedMemoryDestroy id).2
      + sentFrames (s.onSharedMemoryDestroy id).2 = 0)
    ∧ (∀ list current, postedTasks (s.onScreenListChanged list current).2
      + requestedCaptures (s.onScreenListChanged list current).2
      + sentFrames (s.onScreenListChanged list current).2 = 0)
    ∧ (∀ event, postedTasks (s.onClipboardEvent event).2
      + requestedCaptures (s.onClipboardEvent event).2
      + sentFrames (s.onClipboardEvent event).2 = 0) := by
  refine ⟨?_, ?_, ?_, ?_⟩ <;> intros <;>
  simp [DesktopSessionAgent.onSharedMemoryCreate, DesktopSessionAgent.onSharedMemoryDestroy,
    DesktopSessionAgent.onScreenListChanged, DesktopSessionAgent.onClipboardEvent, postedTasks,
    requestedCaptures, sentFrames, isEncodeFrame, SessionToService.cleared, List.countP_cons]

/-- A conforming event keeps the outstanding work of the pipeline at most one. -/
theorem step_outstanding (env : Env) (w w1 : World) (e : Event)
    (hinv : w.outstanding ≤ 1) (hc : w.conforming env e = true)
    (hs : w.step env e = some w1) : w1.outstanding ≤ 1 := by
  obtain ⟨hcr, hds, hsl, hcl⟩ := callback_counts w.agent
  cases e with
  | messageReceived buffer =>
    simp only [World.step, Option.some.injEq] at hs
    subst hs
    rw [outstanding_absorb]
    have hm := onMessageReceived_counts env w.agent buffer
    by_cases hk : bufferKind env buffer = .encode_frame_result
    · have hr := (isEncodeFrameResult_iff env buffer).2 hk
      simp only [World.conforming, hk, decide_eq_true_eq] at hc
      simp only [hk] at hm
      simp only [hr, if_true, World.outstanding] at hinv ⊢
      omega
    · have hr : isEncodeFrameResult env buffer = false := by
        cases hx : isEncodeFrameResult env buffer
        · rfl
        · exact absurd ((isEncodeFrameResult_iff env buffer).1 hx) hk
      simp only [hr, Bool.false_eq_true, if_false]
      by_cases hk2 : bufferKind env buffer = .start_session
      · simp only [World.conforming, hk2, Bool.or_eq_true, decide_eq_true_eq] at hc
        simp only [hk2] at hm
        rcases hc with hc | hc
        · simp only [hc, if_true] at hm
          omega
        · split_ifs at hm <;> omega
      · have : postedTasks (w.agent.onMessageReceived env buffer).2
            + requestedCaptures (w.agent.onMessageReceived env buffer).2
            + sentFrames (w.agent.onMessageReceived env buffer).2 ≤ 0 := by
          revert hm
          cases hk3 : bufferKind env buffer <;> simp_all
        omega
  | disconnected =>
    simp only [World.step, Option.some.injEq] at hs
    subst hs
    rw [outstanding_absorb]
    have := onDisconnected_counts w.agent
    omega
  | runCaptureBegin =>
    simp only [World.step] at hs
    split_ifs at hs with h0
    simp only [Option.some.injEq] at hs
    subst hs
    rw [outstanding_absorb]
    obtain ⟨h1, h2, h3⟩ := captureBegin_counts w.agent
    rw [h1, h2, h3]
    simp only [World.outstanding] at hinv ⊢
    split_ifs <;> omega
  | screenCaptured frame =>
    simp only [World.step] at hs
    split_ifs at hs with h0
    simp only [Option.some.injEq] at hs
    subst hs
    rw [outstanding_absorb]
    have := onScreenCaptured_counts env w.agent frame
    simp only [World.outstanding] at hinv ⊢
    omega
  | sharedMemoryCreate id =>
    simp only [World.step, Option.some.injEq] at hs
    subst hs
    rw [outstanding_absorb, hcr id]
    omega
  | sharedMemoryDestroy id =>
    simp only [World.step, Option.some.injEq] at hs
    subst hs
    rw [outstanding_absorb, hds id]
    omega
  | screenListChanged list current =>
    simp only [World.step, Option.some.injEq] at hs
    subst hs
    rw [outstanding_absorb, hsl list current]
    omega
  | clipboardEvent event =>
    simp only [World.step, Option.some.injEq] at hs
    subst hs
    rw [outstanding_absorb, hcl event]
    omega

/-- Along a conforming run the outstanding work stays at most one. -/
theorem runConforming_outstanding (env : Env) (events : List Event) :
    ∀ w w1 : World, w.outstanding ≤ 1 → w.runConforming env events = some w1 →
      w1.outstanding ≤ 1 := by
  induction events with
  | nil =>
    intro w w1 hinv hrun
    simp only [World.runConforming, Option.some.injEq] at hrun
    subst hrun
    exact hinv
  | cons e es ih =>
    intro w w1 hinv hrun
    simp only [World.runConforming] at hrun
    split_ifs at hrun with hc
    cases hs : w.step env e with
    | none => simp [hs] at hrun
    | some w2 =>
      simp only [hs, Option.some_bind] at hrun
      exact ih w2 w1 (step_outstanding env w w2 e hinv hc hs) hrun

/-- A conforming run is a run. -/
theorem runConforming_run (env : Env) (events : List Event) :
    ∀ w w1 : World, w.runConforming env events = some w1 → w.run env events = some w1 := by
  induction events with
  | nil =>
    intro w w1 hrun
    simpa [World.runConforming, World.run] using hrun
  | cons e es ih =>
    intro w w1 hrun
    simp only [World.runConforming] at hrun
    split_ifs at hrun with hc
    cases hs : w.step env e with
    | none => simp [hs] at hrun
    | some w2 =>
      simp only [hs, Option.some_bind] at hrun
      simp only [World.run, hs, Option.some_bind]
      exact ih w2 w1 hrun

/-- C3, as stated, fails: `start-session`, `stop-session`, `start-session`
leaves two posted `captureBegin` tasks; both run, both captures complete with a
non-empty region, and two `encode-frame` messages are sent with no
`encode-frame-result` in between. -/
theorem one_frame_in_flight_counterexample :
    (World.initial.run exampleEnv
      [.messageReceived [5], .messageReceived [6], .messageReceived [5],
       .runCaptureBegin, .runCaptureBegin,
       .screenCaptured exampleFrame, .screenCaptured exampleFrame]).map
        World.unacknowledged = some 2 := by
  decide

/-- A second run with two frames in flight, within one session: the peer
acknowledges the only frame twice, each acknowledgement posts a `captureBegin`
task, and both tasks lead to a frame. -/
theorem one_frame_in_flight_spurious_result :
    (World.initial.run exampleEnv
      [.messageReceived [5], .runCaptureBegin, .screenCaptured exampleFrame,
       .messageReceived [1], .messageReceived [1],
       .runCaptureBegin, .runCaptureBegin,
       .screenCaptured exampleFrame, .screenCaptured exampleFrame]).map
        World.unacknowledged = some 2 := by
  decide

/-- C3 (amended): in every world reached from start-up by events in which the
peer acknowledges only a frame that is unacknowledged and a `start-session`
that finds no input injector arrives when nothing is outstanding, the posted
`captureBegin` tasks, the captures in progress and the unacknowledged frames
together number at most one; in particular at most one `encode-frame` message
is unacknowledged. Such a world is reachable. -/
theorem one_frame_in_flight_conforming (env : Env) (events : List Event) (w : World)
    (h : World.initial.runConforming env events = some w) :
    w.unacknowledged ≤ 1 ∧ w.outstanding ≤ 1 ∧ World.Reachable env w := by
  have hout := runConforming_outstanding env events World.initial w (by decide) h
  refine ⟨?_, hout, events, runConforming_run env events _ _ h⟩
  simp only [World.outstanding] at hout
  omega

/-- C3 (amended), at a concrete run: a session with one frame sent and
acknowledged and the next capture under way. -/
theorem one_frame_in_flight_conforming_witness :
    ∃ w : World,
      World.initial.runConforming exampleEnv
          [.messageReceived [5], .runCaptureBegin, .screenCaptured exampleFrame,
           .messageReceived [1], .runCaptureBegin] = some w
      ∧ w.unacknowledged ≤ 1 ∧ w.outstanding ≤ 1 ∧ World.Reachable exampleEnv w := by
  cases h : World.initial.runConforming exampleEnv
      [.messageReceived [5], .runCaptureBegin, .screenCaptured exampleFrame,
       .messageReceived [1], .runCaptureBegin] with
  | none => exact absurd h (by decide)
  | some w => exact ⟨w, rfl, one_frame_in_flight_conforming exampleEnv _ w h⟩

/-- C4: in an Active agent, a captured frame whose updated region is empty
makes `onScreenCaptured` call the scheduler's `endCapture()` and then post one
delayed `captureBegin` task whose delay is the scheduler's `nextCaptureDelay()`;
the frame is dropped, nothing is sent on the channel, and `last_frame_` and all
other members apart from the scheduler are unchanged. -/
theorem onScreenCaptured_empty_region (env : Env) (s : DesktopSessionAgent)
    (frame : desktop.SharedFrame) (hactive : s.isActive = true)
    (hempty : frame.updatedRegion.isEmpty = true) :
    ∃ scheduler : CaptureScheduler, s.capture_scheduler_ = some scheduler
      ∧ (s.onScreenCaptured env frame).1 =
          { s with
              capture_scheduler_ :=
                some { scheduler with calls := scheduler.calls ++ [.endCapture] } }
      ∧ (s.onScreenCaptured env frame).2 =
          [Effect.capture_scheduler .endCapture,
           Effect.postDelayedTask .captureBegin
             (env.nextCaptureDelay { scheduler with calls := scheduler.calls ++ [.endCapture] }),
           Effect.destroyFrame frame]
      ∧ (s.onScreenCaptured env frame).1.last_frame_ = s.last_frame_
      ∧ (∀ e ∈ (s.onScreenCaptured env frame).2, e.isSend = false)
      ∧ postedTasks (s.onScreenCaptured env frame).2 = 1 := by
  simp only [DesktopSessionAgent.isActive, Bool.and_eq_true] at hactive
  obtain ⟨⟨⟨⟨_, _⟩, _⟩, hsch⟩, _⟩ := hactive
  obtain ⟨scheduler, hs⟩ := Option.isSome_iff_exists.1 hsch
  refine ⟨scheduler, hs, ?_⟩
  simp [DesktopSessionAgent.onScreenCaptured, DesktopSessionAgent.captureEnd, hempty, hs,
    Effect.isSend, postedTasks, List.countP_cons]

/-- C4, at a concrete input: the example agent after `start-session` receives
an unchanged frame. -/
theorem onScreenCaptured_empty_region_witness :
    ∃ scheduler : CaptureScheduler, exampleActive.capture_scheduler_ = some scheduler
      ∧ (exampleActive.onScreenCaptured exampleEnv exampleEmptyFrame).1 =
          { exampleActive with
              capture_scheduler_ :=
                some { scheduler with calls := scheduler.calls ++ [.endCapture] } }
      ∧ (exampleActive.onScreenCaptured exampleEnv exampleEmptyFrame).2 =
          [Effect.capture_scheduler .endCapture,
           Effect.postDelayedTask .captureBegin
             (exampleEnv.nextCaptureDelay
               { scheduler with calls := scheduler.calls ++ [.endCapture] }),
           Effect.destroyFrame exampleEmptyFrame]
      ∧ (exampleActive.onScreenCaptured exampleEnv exampleEmptyFrame).1.last_frame_ =
          exampleActive.last_frame_
      ∧ (∀ e ∈ (exampleActive.onScreenCaptured exampleEnv exampleEmptyFrame).2,
          e.isSend = false)
      ∧ postedTasks (exampleActive.onScreenCaptured exampleEnv exampleEmptyFrame).2 = 1 :=
  onScreenCaptured_empty_region exampleEnv exampleActive exampleEmptyFrame (by decide)
    (by decide)

/-- C8: a buffer that fails to parse, or that parses to a message with none of
the recognized fields, is discarded: apart from the receive buffer
`incoming_message_` every member of the agent is unchanged, and the only effect
is one error log line, so no subsystem or power-control operation is invoked,
nothing is sent on the channel, no task is posted and nothing is done to the
channel. -/
theorem onMessageReceived_discards (env : Env) (s : DesktopSessionAgent)
    (buffer : base.ByteArray)
    (h : (env.parseMessage buffer).1 = false
      ∨ ((env.parseMessage buffer).1 = true
          ∧ (env.parseMessage buffer).2 = ServiceToSession.cleared)) :
    (s.onMessageReceived env buffer).1 = { s with incoming_message_ := (env.parseMessage buffer).2 }
    ∧ (∃ text : String, (s.onMessageReceived env buffer).2 = [Effect.log .LS_ERROR text])
    ∧ (s.onMessageReceived env buffer).1.isIdle = s.isIdle
    ∧ (s.onMessageReceived env buffer).1.isActive = s.isActive := by
  rw [onMessageReceived_eq]
  rcases h with h | ⟨h, hm⟩
  · have hk : bufferKind env buffer = .invalid := by simp [bufferKind, h]
    simp [hk, DesktopSessionAgent.received, DesktopSessionAgent.isIdle,
      DesktopSessionAgent.isActive]
  · have hk : bufferKind env buffer = .unhandled := by
      simp [bufferKind, h, hm, messageKindOf, ServiceToSession.cleared]
    simp [hk, DesktopSessionAgent.received, DesktopSessionAgent.isIdle,
      DesktopSessionAgent.isActive]

/-- C8, at concrete inputs: the Active example agent receives an empty buffer,
which does not parse. -/
theorem onMessageReceived_discards_witness :
    (exampleActive.onMessageReceived exampleEnv []).1 =
        { exampleActive with incoming_message_ := (exampleEnv.parseMessage []).2 }
    ∧ (∃ text : String,
        (exampleActive.onMessageReceived exampleEnv []).2 = [Effect.log .LS_ERROR text])
    ∧ (exampleActive.onMessageReceived exampleEnv []).1.isIdle = exampleActive.isIdle
    ∧ (exampleActive.onMessageReceived exampleEnv []).1.isActive = exampleActive.isActive :=
  onMessageReceived_discards exampleEnv exampleActive [] (Or.inl (by decide))

/-- A message of one of the six input kinds carries the field of that kind. -/
theorem messageKindOf_present (m : ServiceToSession) :
    (messageKindOf m = .pointer_event → m.pointer_event.isSome = true)
    ∧ (messageKindOf m = .key_event → m.key_event.isSome = true)
    ∧ (messageKindOf m = .clipboard_event → m.clipboard_event.isSome = true)
    ∧ (messageKindOf m = .select_source → m.select_source.isSome = true)
    ∧ (messageKindOf m = .set_features → m.set_features.isSome = true)
    ∧ (messageKindOf m = .set_block_input → m.set_block_input.isSome = true) := by
  unfold messageKindOf
  obtain ⟨f1, f2, f3, f4, f5, f6, f7, f8, f9, f10, f11⟩ := m
  cases f1 <;> first | (simp; done) | skip
  cases f2 <;> first | (simp; done) | skip
  cases f3 <;> first | (simp; done) | skip
  cases f4 <;> first | (simp; done) | skip
  cases f5 <;> first | (simp; done) | skip
  cases f6 <;> first | (simp; done) | skip
  cases f7 <;> first | (simp; done) | skip
  cases f8 <;> first | (simp; done) | skip
  cases f9 <;> first | (simp; done) | skip
  cases f10 <;> first | (simp; done) | skip
  cases f11 <;> simp

/-- A buffer of a kind other than `invalid` parsed, and its kind is the kind of
the parsed message. -/
theorem bufferKind_parsed (env : Env) (buffer : base.ByteArray) (k : MessageKind)
    (hk : bufferKind env buffer = k) (hne : k ≠ .invalid) :
    (env.parseMessage buffer).1 = true ∧ messageKindOf (env.parseMessage buffer).2 = k := by
  unfold bufferKind at hk
  cases h : (env.parseMessage buffer).1
  · rw [h] at hk
    exact absurd hk.symm hne
  · rw [h] at hk
    exact ⟨rfl, hk⟩

/-- C9: for an Idle agent a message of kind pointer-event, key-event,
clipboard-event, select-capture-source, set-features or set-block-input changes
only the receive buffer `incoming_message_` and has no effect at all: the agent
stays Idle, nothing is created, called or sent. For an Active agent the message
carries the field of its kind and is forwarded to exactly the named subsystem:
pointer, key and set-block-input to the input injector, clipboard to the
clipboard monitor, select-source and then both set-features flags (wallpaper,
effects) to the screen capturer; that call is the only effect and only that
subsystem and the receive buffer change. -/
theorem input_messages_routing (env : Env) (s : DesktopSessionAgent)
    (buffer : base.ByteArray) :
    (s.isIdle = true →
      bufferKind env buffer ∈ [MessageKind.pointer_event, MessageKind.key_event,
        MessageKind.clipboard_event, MessageKind.select_source, MessageKind.set_features,
        MessageKind.set_block_input] →
      s.onMessageReceived env buffer =
          ({ s with incoming_message_ := (env.parseMessage buffer).2 }, [])
        ∧ (s.onMessageReceived env buffer).1.isIdle = true)
    ∧ (s.isActive = true →
      ∃ (injector : InputInjectorWin) (monitor : ClipboardMonitor)
        (capturer : ScreenCapturerWrapper),
        s.input_injector_ = some injector ∧ s.clipboard_monitor_ = some monitor
        ∧ s.screen_capturer_ = some capturer
        ∧ (bufferKind env buffer = .pointer_event →
            ∃ event, (env.parseMessage buffer).2.pointer_event = some event
              ∧ s.onMessageReceived env buffer =
                ({ s with
                    incoming_message_ := (env.parseMessage buffer).2
                    input_injector_ :=
                      some { calls := injector.calls ++ [.injectPointerEvent event] } },
                 [Effect.input_injector (.injectPointerEvent event)]))
        ∧ (bufferKind env buffer = .key_event →
            ∃ event, (env.parseMessage buffer).2.key_event = some event
              ∧ s.onMessageReceived env buffer =
                ({ s with
                    incoming_message_ := (env.parseMessage buffer).2
                    input_injector_ :=
                      some { calls := injector.calls ++ [.injectKeyEvent event] } },
                 [Effect.input_injector (.injectKeyEvent event)]))
        ∧ (bufferKind env buffer = .set_block_input →
            ∃ block, (env.parseMessage buffer).2.set_block_input = some block
              ∧ s.onMessageReceived env buffer =
                ({ s with
                    incoming_message_ := (env.parseMessage buffer).2
                    input_injector_ :=
                      some { calls := injector.calls ++ [.setBlockInput block.state] } },
                 [Effect.input_injector (.setBlockInput block.state)]))
        ∧ (bufferKind env buffer = .clipboard_event →
            ∃ event, (env.parseMessage buffer).2.clipboard_event = some event
              ∧ s.onMessageReceived env buffer =
                ({ s with
                    incoming_message_ := (env.parseMessage buffer).2
                    clipboard_monitor_ :=
                      some { calls := monitor.calls ++ [.injectClipboardEvent event] } },
                 [Effect.clipboard_monitor (.injectClipboardEvent event)]))
        ∧ (bufferKind env buffer = .select_source →
            ∃ source, (env.parseMessage buffer).2.select_source = some source
              ∧ s.onMessageReceived env buffer =
                ({ s with
                    incoming_message_ := (env.parseMessage buffer).2
                    screen_capturer_ :=
                      some { calls := capturer.calls ++ [.selectScreen source.screen.id] } },
                 [Effect.screen_capturer (.selectScreen source.screen.id)]))
        ∧ (bufferKind env buffer = .set_features →
            ∃ features, (env.parseMessage buffer).2.set_features = some features
              ∧ s.onMessageReceived env buffer =
                ({ s with
                    incoming_message_ := (env.parseMessage buffer).2
                    screen_capturer_ :=
                      some { calls := capturer.calls
                        ++ [.enableWallpaper features.wallpaper,
                            .enableEffects features.effects] } },
                 [Effect.screen_capturer (.enableWallpaper features.wallpaper),
                  Effect.screen_capturer (.enableEffects features.effects)]))) := by
  constructor
  · intro hidle hk
    simp only [DesktopSessionAgent.isIdle, Bool.and_eq_true, Option.isNone_iff_eq_none] at hidle
    obtain ⟨⟨⟨⟨h1, h2⟩, h3⟩, h4⟩, h5⟩ := hidle
    rw [onMessageReceived_eq]
    simp only [List.mem_cons, List.mem_singleton, List.not_mem_nil, or_false] at hk
    rcases hk with hk | hk | hk | hk | hk | hk <;>
    simp [hk, DesktopSessionAgent.toInputInjector, DesktopSessionAgent.toClipboardMonitor,
      DesktopSessionAgent.toScreenCapturer, DesktopSessionAgent.received,
      DesktopSessionAgent.isIdle, h1, h2, h3, h4, h5]
  · intro hactive
    simp only [DesktopSessionAgent.isActive, Bool.and_eq_true] at hactive
    obtain ⟨⟨⟨⟨h1, h2⟩, _⟩, _⟩, h5⟩ := hactive
    obtain ⟨injector, hi⟩ := Option.isSome_iff_exists.1 h1
    obtain ⟨monitor, hm⟩ := Option.isSome_iff_exists.1 h2
    obtain ⟨capturer, hc⟩ := Option.isSome_iff_exists.1 h5
    refine ⟨injector, monitor, capturer, hi, hm, hc, ?_, ?_, ?_, ?_, ?_, ?_⟩
    all_goals
      intro hk
      obtain ⟨_, hkind⟩ := bufferKind_parsed env buffer _ hk (by simp)
      obtain ⟨p1, p2, p3, p4, p5, p6⟩ := messageKindOf_present (env.parseMessage buffer).2
    · obtain ⟨event, he⟩ := Option.isSome_iff_exists.1 (p1 hkind)
      refine ⟨event, he, ?_⟩
      rw [onMessageReceived_eq, hk]
      simp [DesktopSessionAgent.toInputInjector, DesktopSessionAgent.received, hi, he]
    · obtain ⟨event, he⟩ := Option.isSome_iff_exists.1 (p2 hkind)
      refine ⟨event, he, ?_⟩
      rw [onMessageReceived_eq, hk]
      simp [DesktopSessionAgent.toInputInjector, DesktopSessionAgent.received, hi, he]
    · obtain ⟨event, he⟩ := Option.isSome_iff_exists.1 (p6 hkind)
      refine ⟨event, he, ?_⟩
      rw [onMessageReceived_eq, hk]
      simp [DesktopSessionAgent.toInputInjector, DesktopSessionAgent.received, hi, he]
    · obtain ⟨event, he⟩ := Option.isSome_iff_exists.1 (p3 hkind)
      refine ⟨event, he, ?_⟩
      rw [onMessageReceived_eq, hk]
      simp [DesktopSessionAgent.toClipboardMonitor, DesktopSessionAgent.received, hm, he]
    · obtain ⟨event, he⟩ := Option.isSome_iff_exists.1 (p4 hkind)
      refine ⟨event, he, ?_⟩
      rw [onMessageReceived_eq, hk]
      simp [DesktopSessionAgent.toScreenCapturer, DesktopSessionAgent.received, hc, he]
    · obtain ⟨event, he⟩ := Option.isSome_iff_exists.1 (p5 hkind)
      refine ⟨event, he, ?_⟩
      rw [onMessageReceived_eq, hk]
      simp [DesktopSessionAgent.toScreenCapturer, DesktopSessionAgent.received, hc, he]

/-- C9, at concrete inputs: a pointer event received by the agent before any
`start-session` is dropped without effect, and the same buffer received by the
example agent after `start-session` finds the three subsystems it may be
forwarded to. -/
theorem input_messages_routing_witness :
    (DesktopSessionAgent.initial.onMessageReceived exampleEnv [2, 9] =
        ({ DesktopSessionAgent.initial with
            incoming_message_ := (exampleEnv.parseMessage [2, 9]).2 }, [])
      ∧ (DesktopSessionAgent.initial.onMessageReceived exampleEnv [2, 9]).1.isIdle = true)
    ∧ (exampleActive.onMessageReceived exampleEnv [2, 9]).2 =
        [Effect.input_injector (.injectPointerEvent ⟨[9]⟩)] :=
  ⟨(input_messages_routing exampleEnv DesktopSessionAgent.initial [2, 9]).1 (by decide)
      (by decide), by
    obtain ⟨injector, monitor, capturer, _, _, _, h, _⟩ :=
      (input_messages_routing exampleEnv exampleActive [2, 9]).2 (by decide)
    obtain ⟨event, he, hr⟩ := h (by decide)
    have : event = ⟨[9]⟩ := by
      have h2 : (exampleEnv.parseMessage [2, 9]).2.pointer_event = some ⟨[9]⟩ := by decide
      rw [h2] at he
      exact (Option.some.inj he).symm
    rw [hr, this]⟩

/-- A message leaves an agent that is Idle or Active Idle or Active. -/
theorem onMessageReceived_idle_or_active (env : Env) (s : DesktopSessionAgent)
    (buffer : base.ByteArray) (h : s.isIdle = true ∨ s.isActive = true) :
    (s.onMessageReceived env buffer).1.isIdle = true
      ∨ (s.onMessageReceived env buffer).1.isActive = true := by
  rw [onMessageReceived_eq]
  obtain ⟨i, c, f, sch, cap, lf, im, om⟩ := s
  cases hk : bufferKind env buffer <;>
  cases i <;> cases c <;> cases f <;> cases sch <;> cases cap <;>
  simp [DesktopSessionAgent.isIdle, DesktopSessionAgent.isActive, DesktopSessionAgent.received,
    DesktopSessionAgent.captureEnd, DesktopSessionAgent.toInputInjector,
    DesktopSessionAgent.toClipboardMonitor, DesktopSessionAgent.toScreenCapturer,
    DesktopSessionAgent.startSession, DesktopSessionAgent.stopSession] at h ⊢

/-- Every event leaves an agent that is Idle or Active Idle or Active. -/
theorem step_idle_or_active (env : Env) (w w1 : World) (e : Event)
    (h : w.agent.isIdle = true ∨ w.agent.isActive = true) (hs : w.step env e = some w1) :
    w1.agent.isIdle = true ∨ w1.agent.isActive = true := by
  cases e with
  | messageReceived buffer =>
    simp only [World.step, Option.some.injEq] at hs
    subst hs
    exact onMessageReceived_idle_or_active env w.agent buffer h
  | disconnected =>
    simp only [World.step, Option.some.injEq] at hs
    subst hs
    left
    simp [World.absorb, DesktopSessionAgent.onDisconnected, DesktopSessionAgent.stopSession,
      DesktopSessionAgent.isIdle]
  | runCaptureBegin =>
    simp only [World.step] at hs
    split_ifs at hs with h0
    simp only [Option.some.injEq] at hs
    subst hs
    obtain ⟨a, t, pt, pc, u⟩ := w
    obtain ⟨i, c, f, sch, cap, lf, im, om⟩ := a
    cases i <;> cases c <;> cases f <;> cases sch <;> cases cap <;>
    simp [World.absorb, DesktopSessionAgent.isIdle, DesktopSessionAgent.isActive,
      DesktopSessionAgent.captureBegin] at h ⊢
  | screenCaptured frame =>
    simp only [World.step] at hs
    split_ifs at hs with h0
    simp only [Option.some.injEq] at hs
    subst hs
    obtain ⟨a, t, pt, pc, u⟩ := w
    obtain ⟨i, c, f, sch, cap, lf, im, om⟩ := a
    cases he : frame.updatedRegion.isEmpty <;>
    cases i <;> cases c <;> cases f <;> cases sch <;> cases cap <;>
    simp [World.absorb, DesktopSessionAgent.isIdle, DesktopSessionAgent.isActive,
      DesktopSessionAgent.onScreenCaptured, DesktopSessionAgent.captureEnd, he] at h ⊢
  | sharedMemoryCreate id =>
    simp only [World.step, Option.some.injEq] at hs
    subst hs
    simpa [World.absorb, DesktopSessionAgent.isIdle, DesktopSessionAgent.isActive,
      DesktopSessionAgent.onSharedMemoryCreate] using h
  | sharedMemoryDestroy id =>
    simp only [World.step, Option.some.injEq] at hs
    subst hs
    simpa [World.absorb, DesktopSessionAgent.isIdle, DesktopSessionAgent.isActive,
      DesktopSessionAgent.onSharedMemoryDestroy] using h
  | screenListChanged list current =>
    simp only [World.step, Option.some.injEq] at hs
    subst hs
    simpa [World.absorb, DesktopSessionAgent.isIdle, DesktopSessionAgent.isActive,
      DesktopSessionAgent.onScreenListChanged] using h
  | clipboardEvent event =>
    simp only [World.step, Option.some.injEq] at hs
    subst hs
    simpa [World.absorb, DesktopSessionAgent.isIdle, DesktopSessionAgent.isActive,
      DesktopSessionAgent.onClipboardEvent] using h

/-- Every run leaves an agent that is Idle or Active Idle or Active. -/
theorem run_idle_or_active (env : Env) (events : List Event) :
    ∀ w w1 : World, (w.agent.isIdle = true ∨ w.agent.isActive = true) →
      w.run env events = some w1 → (w1.agent.isIdle = true ∨ w1.agent.isActive = true) := by
  induction events with
  | nil =>
    intro w w1 h hrun
    simp only [World.run, Option.some.injEq] at hrun
    subst hrun
    exact h
  | cons e es ih =>
    intro w w1 h hrun
    simp only [World.run] at hrun
    cases hs : w.step env e with
    | none => simp [hs] at hrun
    | some w2 =>
      simp only [hs, Option.some_bind] at hrun
      exact ih w2 w1 (step_idle_or_active env w w2 e h hs) hrun

/-- C10: in every world reachable from start-up by inbound messages,
disconnections, task runs, capture completions and subsystem callbacks, the
five owned subsystems (input injector, clipboard monitor, shared memory factory,
capture scheduler, screen capturer) are all absent (Idle) or all present
(Active); a `start-session` received while Idle makes all of them present, and
a `stop-session` received in any state makes all of them absent. -/
theorem session_state_invariant (env : Env) :
    (∀ w : World, World.Reachable env w →
      w.agent.isIdle = true ∨ w.agent.isActive = true)
    ∧ (∀ (s : DesktopSessionAgent) (buffer : base.ByteArray),
        bufferKind env buffer = .start_session → s.isIdle = true →
        (s.onMessageReceived env buffer).1.isActive = true)
    ∧ (∀ (s : DesktopSessionAgent) (buffer : base.ByteArray),
        bufferKind env buffer = .stop_session →
        (s.onMessageReceived env buffer).1.isIdle = true) := by
  refine ⟨?_, ?_, ?_⟩
  · rintro w ⟨events, hrun⟩
    exact run_idle_or_active env events World.initial w (Or.inl (by decide)) hrun
  · intro s buffer hk hidle
    simp only [DesktopSessionAgent.isIdle, Bool.and_eq_true, Option.isNone_iff_eq_none] at hidle
    obtain ⟨⟨⟨⟨h1, h2⟩, h3⟩, h4⟩, h5⟩ := hidle
    rw [onMessageReceived_eq, hk]
    simp [DesktopSessionAgent.startSession, DesktopSessionAgent.received,
      DesktopSessionAgent.isActive, h1]
  · intro s buffer hk
    rw [onMessageReceived_eq, hk]
    simp [DesktopSessionAgent.stopSession, DesktopSessionAgent.isIdle]

/-- C10, at concrete inputs: the world after `start-session`, a capture and a
`stop-session` is reachable and its agent is Idle or Active; `start-session`
makes the initial agent Active; `stop-session` makes the example agent Idle. -/
theorem session_state_invariant_witness :
    (∃ w : World,
      World.initial.run exampleEnv
        [.messageReceived [5], .runCaptureBegin, .screenCaptured exampleFrame,
         .messageReceived [6]] = some w
      ∧ (w.agent.isIdle = true ∨ w.agent.isActive = true))
    ∧ (DesktopSessionAgent.initial.onMessageReceived exampleEnv [5]).1.isActive = true
    ∧ (exampleActive.onMessageReceived exampleEnv [6]).1.isIdle = true := by
  refine ⟨?_,
    (session_state_invariant exampleEnv).2.1 DesktopSessionAgent.initial [5] (by decide)
      (by decide),
    (session_state_invariant exampleEnv).2.2 exampleActive [6] (by decide)⟩
  cases h : World.initial.run exampleEnv
      [.messageReceived [5], .runCaptureBegin, .screenCaptured exampleFrame,
       .messageReceived [6]] with
  | none => exact absurd h (by decide)
  | some w => exact ⟨w, rfl, (session_state_invariant exampleEnv).1 w ⟨_, h⟩⟩

end host

namespace aspia

/-! ## Theorems: session launcher -/

set_option maxHeartbeats 4000000 in
/-- The As-System launch never returns while impersonating, and it is fatal
exactly when `RevertToSelf` failed. -/
theorem asSystem_reverts (os : Os) (session_type : List Char) (session_id : Nat)
    (channel_id : List Char) (P : Outcome Bool × Thread → Prop)
    (hP : (fun r : Outcome Bool × Thread =>
      (∀ b : Bool, r.1 = Outcome.returned b →
          r.2.impersonating = false ∧ revertsEveryImpersonation r.2.calls = true)
      ∧ (r.1 = Outcome.fatal ↔
          ∃ q ∈ r.2.calls, q.call = OsCall.RevertToSelf ∧ q.ok = false)) = P) :
    P (LaunchSessionProcessAsSystem os session_type session_id channel_id Thread.initial) := by
  cases hf : currentFolderOf os.moduleFileName <;>
  cases hm : os.moduleFileName.isEmpty <;>
  simp [LaunchSessionProcessAsSystem, GetCurrentFolder, CreateSessionToken,
    CreatePrivilegedToken, CopyProcessToken, CreateProcessWithToken, osCall, recordCall, bind,
    Launch.bind, pure, Launch.pure, qFatal, Thread.initial, hf, hm, impersonatingAfter] <;>
  repeat' (split_ifs <;>
    simp [impersonatingAfter, Launch.bind, Launch.pure, recordCall, qFatal, hf, hm])
  all_goals subst hP
  all_goals simp_all [revertsEveryImpersonation, OsCall.isImpersonate]

set_option maxHeartbeats 4000000 in
/-- The As-User launch never returns while impersonating, and it is fatal
exactly when `RevertToSelf` failed. -/
theorem asUser_reverts (os : Os) (session_type : List Char) (session_id : Nat)
    (channel_id : List Char) (P : Outcome Bool × Thread → Prop)
    (hP : (fun r : Outcome Bool × Thread =>
      (∀ b : Bool, r.1 = Outcome.returned b →
          r.2.impersonating = false ∧ revertsEveryImpersonation r.2.calls = true)
      ∧ (r.1 = Outcome.fatal ↔
          ∃ q ∈ r.2.calls, q.call = OsCall.RevertToSelf ∧ q.ok = false)) = P) :
    P (LaunchSessionProcessAsUser os session_type session_id channel_id Thread.initial) := by
  cases hf : currentFolderOf os.moduleFileName <;>
  cases hm : os.moduleFileName.isEmpty <;>
  simp [LaunchSessionProcessAsUser, GetCurrentFolder, CreatePrivilegedToken, CopyProcessToken,
    CreateProcessWithToken, osCall, recordCall, bind, Launch.bind, pure, Launch.pure, qFatal,
    Thread.initial, hf, hm, impersonatingAfter] <;>
  repeat' (split_ifs <;>
    simp [impersonatingAfter, Launch.bind, Launch.pure, recordCall, qFatal, hf, hm])
  all_goals subst hP
  all_goals simp_all [revertsEveryImpersonation, OsCall.isImpersonate]

/-- C5: for every session type, session id and channel id and every assignment
of results to the Windows calls, when `LaunchSessionProcess` returns (true or
false) the thread is not impersonating and every successful
`ImpersonateLoggedOnUser` was followed by a successful `RevertToSelf`; and the
call does not return (it ends in `qFatal`) exactly when a `RevertToSelf`
failed. -/
theorem launch_reverts_impersonation (os : Os) (session_type : SessionType)
    (session_id : Nat) (channel_id : List Char) :
    (∀ b : Bool,
      (LaunchSessionProcess os session_type session_id channel_id Thread.initial).1
          = Outcome.returned b →
        (LaunchSessionProcess os session_type session_id channel_id
            Thread.initial).2.impersonating = false
        ∧ revertsEveryImpersonation
            (LaunchSessionProcess os session_type session_id channel_id
              Thread.initial).2.calls = true)
    ∧ ((LaunchSessionProcess os session_type session_id channel_id Thread.initial).1
          = Outcome.fatal ↔
        ∃ q ∈ (LaunchSessionProcess os session_type session_id channel_id
            Thread.initial).2.calls,
          q.call = OsCall.RevertToSelf ∧ q.ok = false) := by
  cases session_type with
  | SESSION_TYPE_DESKTOP_MANAGE =>
    exact asSystem_reverts os kSessionTypeDesktop session_id channel_id _ rfl
  | SESSION_TYPE_DESKTOP_VIEW =>
    exact asSystem_reverts os kSessionTypeDesktop session_id channel_id _ rfl
  | SESSION_TYPE_FILE_TRANSFER =>
    exact asUser_reverts os kSessionTypeFileTransfer session_id channel_id _ rfl
  | other value =>
    simp [LaunchSessionProcess, Launch.pure, Thread.initial, revertsEveryImpersonation]

/-- C5, at a concrete input: a file-transfer launch in which the user-token
query fails under impersonation returns false with the impersonation reverted. -/
theorem launch_reverts_impersonation_witness :
    (LaunchSessionProcess exampleOsNoUserToken .SESSION_TYPE_FILE_TRANSFER 2 [] Thread.initial).1
        = Outcome.returned false
    ∧ (LaunchSessionProcess exampleOsNoUserToken .SESSION_TYPE_FILE_TRANSFER 2 []
        Thread.initial).2.impersonating = false
    ∧ revertsEveryImpersonation
        (LaunchSessionProcess exampleOsNoUserToken .SESSION_TYPE_FILE_TRANSFER 2 []
          Thread.initial).2.calls = true :=
  ⟨by decide,
    (launch_reverts_impersonation exampleOsNoUserToken .SESSION_TYPE_FILE_TRANSFER 2 []).1 false
      (by decide)⟩

/-- C6, as stated, fails: when every call succeeds, `CreateSessionToken` ends
with `ImpersonateLoggedOnUser`, `SetTokenInformation(TokenSessionId)` made under
impersonation, `RevertToSelf`, and only then
`SetTokenInformation(TokenUIAccess)`, made when the thread no longer
impersonates. -/
theorem ui_access_outside_impersonation :
    (CreateSessionToken exampleOs 2 Thread.initial).2.calls.drop 6 =
      [{ call := .ImpersonateLoggedOnUser (Token.duplicate privilegedTokenAccess),
         ok := true, impersonating := false },
       { call := .SetTokenInformation (Token.duplicate sessionTokenAccess) .TokenSessionId 2,
         ok := true, impersonating := true },
       { call := .RevertToSelf, ok := true, impersonating := true },
       { call := .SetTokenInformation (Token.duplicate sessionTokenAccess) .TokenUIAccess 1,
         ok := true, impersonating := false }] := by
  decide

set_option maxHeartbeats 4000000 in
/-- The impersonation window of `CreateSessionToken`. -/
theorem createSessionToken_window (os : Os) (session_id : Nat)
    (P : Outcome (Option Token) × Thread → Prop)
    (hP : (fun r : Outcome (Option Token) × Thread =>
      (∀ q ∈ r.2.calls, q.impersonating = true ↔
        (q.call = OsCall.SetTokenInformation (Token.duplicate sessionTokenAccess)
            .TokenSessionId session_id
          ∨ q.call = OsCall.RevertToSelf))
      ∧ uiAccessAfterRevert false r.2.calls = true) = P) :
    P (CreateSessionToken os session_id Thread.initial) := by
  simp [CreateSessionToken, CreatePrivilegedToken, CopyProcessToken, osCall, recordCall, bind,
    Launch.bind, pure, Launch.pure, qFatal, Thread.initial, impersonatingAfter]
  repeat' (split_ifs <;>
    simp [impersonatingAfter, Launch.bind, Launch.pure, recordCall, qFatal])
  all_goals subst hP
  all_goals simp_all [uiAccessAfterRevert, sessionTokenAccess]

set_option maxHeartbeats 4000000 in
/-- The impersonation window of the As-System launch. -/
theorem asSystem_window (os : Os) (session_type : List Char) (session_id : Nat)
    (channel_id : List Char) (P : Outcome Bool × Thread → Prop)
    (hP : (fun r : Outcome Bool × Thread =>
      (∀ q ∈ r.2.calls, q.impersonating = true ↔
        (q.call = OsCall.SetTokenInformation (Token.duplicate sessionTokenAccess)
            .TokenSessionId session_id
          ∨ q.call = OsCall.RevertToSelf))
      ∧ uiAccessAfterRevert false r.2.calls = true) = P) :
    P (LaunchSessionProcessAsSystem os session_type session_id channel_id Thread.initial) := by
  cases hf : currentFolderOf os.moduleFileName <;>
  cases hm : os.moduleFileName.isEmpty <;>
  simp [LaunchSessionProcessAsSystem, GetCurrentFolder, CreateSessionToken,
    CreatePrivilegedToken, CopyProcessToken, CreateProcessWithToken, osCall, recordCall, bind,
    Launch.bind, pure, Launch.pure, qFatal, Thread.initial, hf, hm, impersonatingAfter] <;>
  repeat' (split_ifs <;>
    simp [impersonatingAfter, Launch.bind, Launch.pure, recordCall, qFatal, hf, hm])
  all_goals subst hP
  all_goals simp_all [uiAccessAfterRevert, sessionTokenAccess]

/-- C6 (amended): in `CreateSessionToken`, and in the whole As-System launch,
for every assignment of results to the Windows calls, the calls made while the
thread impersonates the privileged identity are exactly the session-id
retargeting `SetTokenInformation(TokenSessionId)` on the duplicated token and
the `RevertToSelf` that closes the window; the UI-access enabling
`SetTokenInformation(TokenUIAccess)` is made after a successful `RevertToSelf`,
when the thread no longer impersonates, and no other call runs inside the
window. -/
theorem session_id_retargeting_window (os : Os) (session_type : List Char)
    (session_id : Nat) (channel_id : List Char) :
    ((∀ q ∈ (CreateSessionToken os session_id Thread.initial).2.calls,
        q.impersonating = true ↔
          (q.call = OsCall.SetTokenInformation (Token.duplicate sessionTokenAccess)
              .TokenSessionId session_id
            ∨ q.call = OsCall.RevertToSelf))
      ∧ uiAccessAfterRevert false (CreateSessionToken os session_id Thread.initial).2.calls
          = true)
    ∧ ((∀ q ∈ (LaunchSessionProcessAsSystem os session_type session_id channel_id
          Thread.initial).2.calls,
        q.impersonating = true ↔
          (q.call = OsCall.SetTokenInformation (Token.duplicate sessionTokenAccess)
              .TokenSessionId session_id
            ∨ q.call = OsCall.RevertToSelf))
      ∧ uiAccessAfterRevert false
          (LaunchSessionProcessAsSystem os session_type session_id channel_id
            Thread.initial).2.calls = true) :=
  ⟨createSessionToken_window os session_id _ rfl,
    asSystem_window os session_type session_id channel_id _ rfl⟩

/-- The three ways `GetCurrentFolder` can go: the module path is empty, it has
no separator, or the folder is found. -/
theorem moduleFileName_cases (os : Os) :
    (currentFolderOf os.moduleFileName = none ∧ os.moduleFileName.isEmpty = true)
    ∨ (currentFolderOf os.moduleFileName = none ∧ os.moduleFileName.isEmpty = false)
    ∨ (∃ folder, currentFolderOf os.moduleFileName = some folder
        ∧ os.moduleFileName.isEmpty = false) := by
  cases hm : os.moduleFileName with
  | nil => left; simp [currentFolderOf, find_last_of]
  | cons c cs =>
    right
    cases hf : currentFolderOf (c :: cs) with
    | none => left; simp
    | some folder => right; exact ⟨folder, rfl, by simp⟩

set_option maxHeartbeats 8000000 in
/-- Result and abort behaviour of the As-System launch. -/
theorem asSystem_result (os : Os) (session_type : SessionType) (session_id : Nat)
    (channel_id : List Char)
    (ht : session_type = .SESSION_TYPE_DESKTOP_MANAGE
      ∨ session_type = .SESSION_TYPE_DESKTOP_VIEW)
    (P : Outcome Bool × Thread → Prop)
    (hP : (fun r : Outcome Bool × Thread =>
      (r.1 = Outcome.returned true ↔
        (subStepsSucceed os session_type session_id channel_id = true
          ∧ os.succeeds .RevertToSelf = true))
      ∧ (r.1 ≠ Outcome.fatal →
        (r.1 = Outcome.returned true ↔
          subStepsSucceed os session_type session_id channel_id = true))
      ∧ abortsAfterFailure r.2.calls = true
      ∧ stopsAfterFolderFailure (currentFolderOf os.moduleFileName).isSome r.2.calls = true
      ∧ (r.1 = Outcome.returned true →
          ∀ folder value, currentFolderOf os.moduleFileName = some folder →
            sessionTypeSwitchValue session_type = some value →
            (r.2.calls.map Record.call).filter
                (fun c => !c.isCleanup && c != OsCall.GetModuleFileNameW)
              = launchSubSteps session_type session_id
                  (hostCommandLine folder value channel_id))) = P) :
    P (LaunchSessionProcessAsSystem os kSessionTypeDesktop session_id channel_id
      Thread.initial) := by
  rcases moduleFileName_cases os with ⟨hf, hm⟩ | ⟨hf, hm⟩ | ⟨folder, hf, hm⟩ <;>
  simp [LaunchSessionProcessAsSystem, GetCurrentFolder, CreateSessionToken,
    CreatePrivilegedToken, CopyProcessToken, CreateProcessWithToken, osCall, recordCall, bind,
    Launch.bind, pure, Launch.pure, qFatal, Thread.initial, hf, hm, impersonatingAfter] <;>
  repeat' (split_ifs <;>
    simp [impersonatingAfter, Launch.bind, Launch.pure, recordCall, qFatal, hf, hm])
  all_goals subst hP
  all_goals rcases ht with ht | ht
  all_goals subst ht
  all_goals
    simp_all [abortsAfterFailure, stopsAfterFolderFailure, OsCall.isCleanup, subStepsSucceed,
      sessionTypeSwitchValue, launchSubSteps, privilegedTokenSteps, sessionTokenAccess,
      privilegedTokenAccess]

set_option maxHeartbeats 8000000 in
/-- Result and abort behaviour of the As-User launch. -/
theorem asUser_result (os : Os) (session_id : Nat) (channel_id : List Char)
    (P : Outcome Bool × Thread → Prop)
    (hP : (fun r : Outcome Bool × Thread =>
      (r.1 = Outcome.returned true ↔
        (subStepsSucceed os .SESSION_TYPE_FILE_TRANSFER session_id channel_id = true
          ∧ os.succeeds .RevertToSelf = true))
      ∧ (r.1 ≠ Outcome.fatal →
        (r.1 = Outcome.returned true ↔
          subStepsSucceed os .SESSION_TYPE_FILE_TRANSFER session_id channel_id = true))
      ∧ abortsAfterFailure r.2.calls = true
      ∧ stopsAfterFolderFailure (currentFolderOf os.moduleFileName).isSome r.2.calls = true
      ∧ (r.1 = Outcome.returned true →
          ∀ folder value, currentFolderOf os.moduleFileName = some folder →
            sessionTypeSwitchValue .SESSION_TYPE_FILE_TRANSFER = some value →
            (r.2.calls.map Record.call).filter
                (fun c => !c.isCleanup && c != OsCall.GetModuleFileNameW)
              = launchSubSteps .SESSION_TYPE_FILE_TRANSFER session_id
                  (hostCommandLine folder value channel_id))) = P) :
    P (LaunchSessionProcessAsUser os kSessionTypeFileTransfer session_id channel_id
      Thread.initial) := by
  rcases moduleFileName_cases os with ⟨hf, hm⟩ | ⟨hf, hm⟩ | ⟨folder, hf, hm⟩ <;>
  simp [LaunchSessionProcessAsUser, GetCurrentFolder, CreatePrivilegedToken, CopyProcessToken,
    CreateProcessWithToken, osCall, recordCall, bind, Launch.bind, pure, Launch.pure, qFatal,
    Thread.initial, hf, hm, impersonatingAfter] <;>
  repeat' (split_ifs <;>
    simp [impersonatingAfter, Launch.bind, Launch.pure, recordCall, qFatal, hf, hm])
  all_goals subst hP
  all_goals
    simp_all [abortsAfterFailure, stopsAfterFolderFailure, OsCall.isCleanup, subStepsSucceed,
      sessionTypeSwitchValue, launchSubSteps, privilegedTokenSteps, sessionTokenAccess,
      privilegedTokenAccess]

/-- C7: for every assignment of results to the launch sub-steps,
`LaunchSessionProcess` returns true exactly when the folder of the executable
was located, every sub-step of the selected path succeeded and the
impersonation revert succeeded (a failed revert is fatal, so whenever the
function returns at all, it returns true exactly when every sub-step
succeeded); after a failed sub-step only the revert and the releases of the
environment block and of the process handles are called, and nothing is called
after a failure to locate the folder; on success the calls made, the folder
lookup and the cleanup calls aside, are exactly the sub-steps of the path, in
order. -/
theorem launch_succeeds_iff_all_steps (os : Os) (session_type : SessionType)
    (session_id : Nat) (channel_id : List Char) :
    ((LaunchSessionProcess os session_type session_id channel_id Thread.initial).1
        = Outcome.returned true ↔
      (subStepsSucceed os session_type session_id channel_id = true
        ∧ os.succeeds .RevertToSelf = true))
    ∧ ((LaunchSessionProcess os session_type session_id channel_id Thread.initial).1
        ≠ Outcome.fatal →
      ((LaunchSessionProcess os session_type session_id channel_id Thread.initial).1
          = Outcome.returned true ↔
        subStepsSucceed os session_type session_id channel_id = true))
    ∧ abortsAfterFailure
        (LaunchSessionProcess os session_type session_id channel_id Thread.initial).2.calls
        = true
    ∧ stopsAfterFolderFailure (currentFolderOf os.moduleFileName).isSome
        (LaunchSessionProcess os session_type session_id channel_id Thread.initial).2.calls
        = true
    ∧ ((LaunchSessionProcess os session_type session_id channel_id Thread.initial).1
        = Outcome.returned true →
      ∀ folder value, currentFolderOf os.moduleFileName = some folder →
        sessionTypeSwitchValue session_type = some value →
        ((LaunchSessionProcess os session_type session_id channel_id
            Thread.initial).2.calls.map Record.call).filter
            (fun c => !c.isCleanup && c != OsCall.GetModuleFileNameW)
          = launchSubSteps session_type session_id
              (hostCommandLine folder value channel_id)) := by
  cases session_type with
  | SESSION_TYPE_DESKTOP_MANAGE =>
    exact asSystem_result os .SESSION_TYPE_DESKTOP_MANAGE session_id channel_id (Or.inl rfl) _
      rfl
  | SESSION_TYPE_DESKTOP_VIEW =>
    exact asSystem_result os .SESSION_TYPE_DESKTOP_VIEW session_id channel_id (Or.inr rfl) _
      rfl
  | SESSION_TYPE_FILE_TRANSFER =>
    exact asUser_result os session_id channel_id _ rfl
  | other value =>
    cases hf : currentFolderOf os.moduleFileName <;>
    simp [LaunchSessionProcess, Launch.pure, Thread.initial, subStepsSucceed,
      sessionTypeSwitchValue, abortsAfterFailure, stopsAfterFolderFailure, hf]

/-- C7, at concrete inputs: a desktop launch in which every call succeeds
returns true, and a file-transfer launch in which the user-token query fails
does not. -/
theorem launch_succeeds_iff_all_steps_witness :
    (LaunchSessionProcess exampleOs .SESSION_TYPE_DESKTOP_VIEW 2 [] Thread.initial).1
        = Outcome.returned true
    ∧ (LaunchSessionProcess exampleOsNoUserToken .SESSION_TYPE_FILE_TRANSFER 2 []
        Thread.initial).1 ≠ Outcome.returned true :=
  ⟨(launch_succeeds_iff_all_steps exampleOs .SESSION_TYPE_DESKTOP_VIEW 2 []).1.2
      ⟨by decide, by decide⟩,
    fun h =>
      absurd ((launch_succeeds_iff_all_steps exampleOsNoUserToken .SESSION_TYPE_FILE_TRANSFER
        2 []).1.1 h).1 (by decide)⟩

end aspia

namespace host

open proto.internal

/-! ## Theorems: shared buffers and the capture loop -/

/-- C11, as stated, fails: a capture is requested, `stop-session` arrives, the
buffer 7 is released (`onSharedMemoryDestroy`), and the capture then completes
with a frame in buffer 7. `onScreenCaptured` checks neither the session state
nor the buffer, so the channel carries create 7, release 7 and then an
`encode_frame` referring to buffer 7. -/
theorem frame_after_release_counterexample :
    (World.initial.run exampleEnv
      [.messageReceived [5], .sharedMemoryCreate 7, .runCaptureBegin, .messageReceived [6],
       .sharedMemoryDestroy 7, .screenCaptured exampleFrame]).map
      (fun w => (w.trace.filter Effect.isSend, framesAvoidReleased [] w.trace)) =
    some ([Effect.send
            { SessionToService.cleared with
                create_shared_buffer := some { shared_buffer_id := 7 } },
           Effect.send
            { SessionToService.cleared with
                release_shared_buffer := some { shared_buffer_id := 7 } },
           Effect.send
            { SessionToService.cleared with
                encode_frame :=
                  some
                    { frame :=
                        some
                          { shared_buffer_id := 7,
                            desktop_rect := some { x := 0, y := 0, width := 640, height := 480 },
                            pixel_format := some { bits_per_pixel := 32, layout := [] },
                            dirty_rect := [{ x := 0, y := 0, width := 8, height := 8 }] } } }],
          false) := by
  decide

/-- The released ids after two lists of effects in a row. -/
theorem releasedIds_append (a b : List Effect) :
    ∀ released : List Int,
      releasedIds released (a ++ b) = releasedIds (releasedIds released a) b := by
  induction a with
  | nil => intro released; rfl
  | cons e rest ih =>
    intro released
    simp only [List.cons_append, releasedIds]
    exact ih _

/-- The frames of two lists of effects in a row avoid released buffers when
those of each list do. -/
theorem framesAvoidReleased_append (a b : List Effect) :
    ∀ released : List Int,
      framesAvoidReleased released (a ++ b)
        = (framesAvoidReleased released a && framesAvoidReleased (releasedIds released a) b) := by
  induction a with
  | nil => intro released; simp [framesAvoidReleased, releasedIds]
  | cons e rest ih =>
    intro released
    change (_ && framesAvoidReleased (releasedAfter released e) (rest ++ b)) = _
    rw [ih]
    simp only [framesAvoidReleased, releasedIds, Bool.and_assoc]

/-- Effects that send nothing avoid released buffers. -/
theorem framesAvoidReleased_of_no_send (effects : List Effect)
    (h : ∀ e ∈ effects, e.isSend = false) :
    ∀ released : List Int, framesAvoidReleased released effects = true := by
  induction effects with
  | nil => intro released; rfl
  | cons e rest ih =>
    intro released
    have he := h e (List.mem_cons_self _ _)
    have hrest := ih (fun x hx => h x (List.mem_cons_of_mem _ hx))
    cases e <;> simp_all [framesAvoidReleased, Effect.isSend]

/-- Starting, stopping, ending a capture and forwarding never send on the
channel. -/
theorem session_methods_no_send (env : Env) (s : DesktopSessionAgent) :
    (∀ e ∈ s.startSession.2, e.isSend = false)
    ∧ (∀ e ∈ s.stopSession.2, e.isSend = false)
    ∧ (∀ e ∈ (s.captureEnd env).2, e.isSend = false)
    ∧ (∀ c, ∀ e ∈ (s.toInputInjector c).2, e.isSend = false)
    ∧ (∀ c, ∀ e ∈ (s.toClipboardMonitor c).2, e.isSend = false)
    ∧ (∀ cs, ∀ e ∈ (s.toScreenCapturer cs).2, e.isSend = false) := by
  obtain ⟨i, c, f, sch, cap, lf, im, om⟩ := s
  refine ⟨?_, ?_, ?_, ?_, ?_, ?_⟩
  · cases i <;> cases c <;> cases f <;> cases sch <;> cases cap <;>
    simp [DesktopSessionAgent.startSession, assignEffects, Effect.isSend]
  · cases i <;> cases c <;> cases f <;> cases sch <;> cases cap <;>
    simp [DesktopSessionAgent.stopSession, resetEffects, Effect.isSend]
  · cases sch <;> simp [DesktopSessionAgent.captureEnd, Effect.isSend]
  · intro x
    cases i <;> simp [DesktopSessionAgent.toInputInjector, Effect.isSend]
  · intro x
    cases c <;> simp [DesktopSessionAgent.toClipboardMonitor, Effect.isSend]
  · intro cs
    cases cap <;> simp [DesktopSessionAgent.toScreenCapturer, Effect.isSend]

/-- A message never sends on the channel. -/
theorem onMessageReceived_no_send (env : Env) (s : DesktopSessionAgent)
    (buffer : base.ByteArray) :
    ∀ e ∈ (s.onMessageReceived env buffer).2, e.isSend = false := by
  rw [onMessageReceived_eq]
  obtain ⟨h1, h2, h3, h4, h5, h6⟩ := session_methods_no_send env (s.received env buffer)
  cases hk : bufferKind env buffer <;> simp only []
  · simp [Effect.isSend]
  · exact h3
  · exact h4 _
  · exact h4 _
  · exact h5 _
  · exact h1
  · exact h2
  · exact h6 _
  · exact h6 _
  · exact h4 _
  · simp [Effect.isSend]
  · simp [Effect.isSend]
  · simp [Effect.isSend]

/-- The teardown on disconnection never sends on the channel. -/
theorem onDisconnected_no_send (s : DesktopSessionAgent) :
    ∀ e ∈ s.onDisconnected.2, e.isSend = false := by
  obtain ⟨i, c, f, sch, cap, lf, im, om⟩ := s
  cases i <;> cases c <;> cases f <;> cases sch <;> cases cap <;>
  simp [DesktopSessionAgent.onDisconnected, DesktopSessionAgent.stopSession, resetEffects,
    Effect.isSend]

/-- A `captureBegin` task never sends on the channel. -/
theorem captureBegin_no_send (s : DesktopSessionAgent) :
    ∀ e ∈ s.captureBegin.2, e.isSend = false := by
  obtain ⟨i, c, f, sch, cap, lf, im, om⟩ := s
  cases sch <;> cases cap <;> simp [DesktopSessionAgent.captureBegin, Effect.isSend]

/-- The messages of the delegate callbacks, and that of a captured frame with
an empty region, carry no frame; a captured frame with a non-empty region sends
one message that refers to the buffer of the frame. -/
theorem callbacks_avoid_released (env : Env) (s : DesktopSessionAgent)
    (released : List Int) :
    (∀ id, framesAvoidReleased released (s.onSharedMemoryCreate id).2 = true)
    ∧ (∀ id, framesAvoidReleased released (s.onSharedMemoryDestroy id).2 = true)
    ∧ (∀ list current, framesAvoidReleased released (s.onScreenListChanged list current).2 = true)
    ∧ (∀ event, framesAvoidReleased released (s.onClipboardEvent event).2 = true)
    ∧ (∀ frame, released.contains frame.sharedMemory.id = false →
        framesAvoidReleased released (s.onScreenCaptured env frame).2 = true) := by
  refine ⟨?_, ?_, ?_, ?_, ?_⟩
  · intro id
    simp [DesktopSessionAgent.onSharedMemoryCreate, framesAvoidReleased, frameBufferId,
      SessionToService.cleared]
  · intro id
    simp [DesktopSessionAgent.onSharedMemoryDestroy, framesAvoidReleased, frameBufferId,
      SessionToService.cleared]
  · intro list current
    simp [DesktopSessionAgent.onScreenListChanged, framesAvoidReleased, frameBufferId,
      SessionToService.cleared]
  · intro event
    simp [DesktopSessionAgent.onClipboardEvent, framesAvoidReleased, frameBufferId,
      SessionToService.cleared]
  · intro frame hlive
    have hmem : frame.sharedMemory.id ∉ released := by simpa using hlive
    cases he : frame.updatedRegion.isEmpty
    · cases hl : s.last_frame_ <;>
      simp [DesktopSessionAgent.onScreenCaptured, he, hl, releaseFrameEffects,
        framesAvoidReleased, frameBufferId, SessionToService.cleared, releasedAfter, hmem]
    · cases hsch : s.capture_scheduler_ <;>
      simp [DesktopSessionAgent.onScreenCaptured, DesktopSessionAgent.captureEnd, he, hsch,
        framesAvoidReleased, releasedAfter]

/-- An event that delivers only live frames keeps the frames on the channel
away from released buffers. -/
theorem step_framesAvoidReleased (env : Env) (w w1 : World) (e : Event)
    (hinv : framesAvoidReleased [] w.trace = true) (hlive : w.deliversLiveFrame e = true)
    (hs : w.step env e = some w1) : framesAvoidReleased [] w1.trace = true := by
  obtain ⟨hcr, hds, hsl, hcl, hfr⟩ :=
    callbacks_avoid_released env w.agent (releasedIds [] w.trace)
  cases e with
  | messageReceived buffer =>
    simp only [World.step, Option.some.injEq] at hs
    subst hs
    have := framesAvoidReleased_of_no_send _ (onMessageReceived_no_send env w.agent buffer)
      (releasedIds [] w.trace)
    split_ifs <;> simp [World.absorb, framesAvoidReleased_append, hinv, this]
  | disconnected =>
    simp only [World.step, Option.some.injEq] at hs
    subst hs
    have := framesAvoidReleased_of_no_send _ (onDisconnected_no_send w.agent)
      (releasedIds [] w.trace)
    simp [World.absorb, framesAvoidReleased_append, hinv, this]
  | runCaptureBegin =>
    simp only [World.step] at hs
    split_ifs at hs with h0
    simp only [Option.some.injEq] at hs
    subst hs
    have := framesAvoidReleased_of_no_send _ (captureBegin_no_send w.agent)
      (releasedIds [] w.trace)
    simp [World.absorb, framesAvoidReleased_append, hinv, this]
  | screenCaptured frame =>
    simp only [World.step] at hs
    split_ifs at hs with h0
    simp only [Option.some.injEq] at hs
    subst hs
    simp only [World.deliversLiveFrame, Bool.not_eq_true'] at hlive
    simp [World.absorb, framesAvoidReleased_append, hinv, hfr frame hlive]
  | sharedMemoryCreate id =>
    simp only [World.step, Option.some.injEq] at hs
    subst hs
    simp [World.absorb, framesAvoidReleased_append, hinv, hcr id]
  | sharedMemoryDestroy id =>
    simp only [World.step, Option.some.injEq] at hs
    subst hs
    simp [World.absorb, framesAvoidReleased_append, hinv, hds id]
  | screenListChanged list current =>
    simp only [World.step, Option.some.injEq] at hs
    subst hs
    simp [World.absorb, framesAvoidReleased_append, hinv, hsl list current]
  | clipboardEvent event =>
    simp only [World.step, Option.some.injEq] at hs
    subst hs
    simp [World.absorb, framesAvoidReleased_append, hinv, hcl event]

/-- Along a run that delivers only live frames, the frames on the channel stay
away from released buffers; such a run is a run. -/
theorem runLive_framesAvoidReleased (env : Env) (events : List Event) :
    ∀ w w1 : World, framesAvoidReleased [] w.trace = true →
      w.runLive env events = some w1 →
      framesAvoidReleased [] w1.trace = true ∧ w.run env events = some w1 := by
  induction events with
  | nil =>
    intro w w1 hinv hrun
    simp only [World.runLive, Option.some.injEq] at hrun
    subst hrun
    exact ⟨hinv, rfl⟩
  | cons e es ih =>
    intro w w1 hinv hrun
    simp only [World.runLive] at hrun
    split_ifs at hrun with hc
    cases hs : w.step env e with
    | none => simp [hs] at hrun
    | some w2 =>
      simp only [hs, Option.some_bind] at hrun
      obtain ⟨h1, h2⟩ := ih w2 w1 (step_framesAvoidReleased env w w2 e hinv hc hs) hrun
      exact ⟨h1, by simp only [World.run, hs, Option.some_bind]; exact h2⟩

/-- C11 (amended): in every world reached from start-up by events in which
each frame handed to `onScreenCaptured` lives in a shared buffer that has not
been released on the channel (or was created again since), no `encode_frame`
message is sent after a `release_shared_buffer` message for its buffer id
unless a `create_shared_buffer` message for that id was sent in between. Such a
world is reachable. -/
theorem frames_avoid_released_buffers (env : Env) (events : List Event) (w : World)
    (h : World.initial.runLive env events = some w) :
    framesAvoidReleased [] w.trace = true ∧ World.Reachable env w := by
  obtain ⟨h1, h2⟩ := runLive_framesAvoidReleased env events World.initial w (by decide) h
  exact ⟨h1, events, h2⟩

/-- C11 (amended), at a concrete run: a buffer is created, a frame in it is
captured and sent, and the buffer is released after `stop-session`. -/
theorem frames_avoid_released_buffers_witness :
    ∃ w : World,
      World.initial.runLive exampleEnv
          [.messageReceived [5], .sharedMemoryCreate 7, .runCaptureBegin,
           .screenCaptured exampleFrame, .messageReceived [6], .sharedMemoryDestroy 7] = some w
      ∧ framesAvoidReleased [] w.trace = true ∧ World.Reachable exampleEnv w := by
  cases h : World.initial.runLive exampleEnv
      [.messageReceived [5], .sharedMemoryCreate 7, .runCaptureBegin,
       .screenCaptured exampleFrame, .messageReceived [6], .sharedMemoryDestroy 7] with
  | none => exact absurd h (by decide)
  | some w => exact ⟨w, rfl, frames_avoid_released_buffers exampleEnv _ w h⟩

end host

namespace host

open proto.internal

/-- C12, as stated, fails. First run: the `captureBegin` task posted by the
first `start-session` is still pending when `stop-session` and a second
`start-session` arrive; both pending tasks then run and both call
`beginCapture()` and `captureFrame()`. Second run: a frame is acknowledged, so
a delayed `captureBegin` task is pending when `stop-session` and a new
`start-session` arrive; the delayed task and the task of the new session both
run and both capture. In each run a task posted before `stopSession` fires a
capture after it. -/
theorem stale_task_fires_after_restart :
    (World.initial.run exampleEnv
      [.messageReceived [5], .messageReceived [6], .messageReceived [5],
       .runCaptureBegin, .runCaptureBegin]).map
      (fun w => (w.trace.filter Effect.isCaptureActivity, w.pendingTasks)) =
    some ([Effect.postTask .captureBegin,
           Effect.postTask .captureBegin,
           Effect.capture_scheduler .beginCapture,
           Effect.screen_capturer .captureFrame,
           Effect.capture_scheduler .beginCapture,
           Effect.screen_capturer .captureFrame], 0)
    ∧ (World.initial.run exampleEnv
      [.messageReceived [5], .runCaptureBegin, .screenCaptured exampleFrame,
       .messageReceived [1], .messageReceived [6], .messageReceived [5],
       .runCaptureBegin, .runCaptureBegin]).map
      (fun w => (w.trace.filter Effect.isCaptureActivity, w.pendingTasks)) =
    some ([Effect.postTask .captureBegin,
           Effect.capture_scheduler .beginCapture,
           Effect.screen_capturer .captureFrame,
           Effect.capture_scheduler .endCapture,
           Effect.postDelayedTask .captureBegin 33,
           Effect.postTask .captureBegin,
           Effect.capture_scheduler .beginCapture,
           Effect.screen_capturer .captureFrame,
           Effect.capture_scheduler .beginCapture,
           Effect.screen_capturer .captureFrame], 0) := by
  decide

/-- While the agent is Idle, an event other than a `start-session` leaves it
Idle and adds nothing of the capture loop to the trace. -/
theorem step_idle_quiet (env : Env) (w w1 : World) (e : Event)
    (hidle : w.agent.isIdle = true) (hne : e.isStartSession env = false)
    (hs : w.step env e = some w1) :
    w1.agent.isIdle = true
      ∧ ∃ added : List Effect, w1.trace = w.trace ++ added
          ∧ ∀ x ∈ added, x.isCaptureActivity = false := by
  obtain ⟨a, t, pt, pc, u⟩ := w
  obtain ⟨i, c, f, sch, cap, lf, im, om⟩ := a
  simp only [DesktopSessionAgent.isIdle, Bool.and_eq_true, Option.isNone_iff_eq_none] at hidle
  obtain ⟨⟨⟨⟨rfl, rfl⟩, rfl⟩, rfl⟩, rfl⟩ := hidle
  cases e with
  | messageReceived buffer =>
    simp only [World.step, Option.some.injEq] at hs
    subst hs
    simp only [Event.isStartSession, decide_eq_false_iff_not] at hne
    simp only [World.absorb]
    rw [onMessageReceived_eq]
    refine ⟨?_, _, by split_ifs <;> rfl, ?_⟩ <;>
    cases hk : bufferKind env buffer <;>
    first
      | exact absurd hk hne
      | simp [DesktopSessionAgent.received, DesktopSessionAgent.captureEnd,
          DesktopSessionAgent.toInputInjector, DesktopSessionAgent.toClipboardMonitor,
          DesktopSessionAgent.toScreenCapturer, DesktopSessionAgent.stopSession,
          DesktopSessionAgent.isIdle, resetEffects, Effect.isCaptureActivity]
  | disconnected =>
    simp only [World.step, Option.some.injEq] at hs
    subst hs
    refine ⟨?_, _, rfl, ?_⟩ <;>
    simp [World.absorb, DesktopSessionAgent.onDisconnected, DesktopSessionAgent.stopSession,
      DesktopSessionAgent.isIdle, resetEffects, Effect.isCaptureActivity]
  | runCaptureBegin =>
    simp only [World.step] at hs
    split_ifs at hs with h0
    simp only [Option.some.injEq] at hs
    subst hs
    refine ⟨?_, _, rfl, ?_⟩ <;>
    simp [World.absorb, DesktopSessionAgent.captureBegin, DesktopSessionAgent.isIdle]
  | screenCaptured frame =>
    simp only [World.step] at hs
    split_ifs at hs with h0
    simp only [Option.some.injEq] at hs
    subst hs
    refine ⟨?_, _, rfl, ?_⟩ <;>
    cases he : frame.updatedRegion.isEmpty <;> cases lf <;>
    simp [World.absorb, DesktopSessionAgent.onScreenCaptured, DesktopSessionAgent.captureEnd,
      DesktopSessionAgent.isIdle, releaseFrameEffects, he, Effect.isCaptureActivity]
  | sharedMemoryCreate id =>
    simp only [World.step, Option.some.injEq] at hs
    subst hs
    refine ⟨?_, _, rfl, ?_⟩ <;>
    simp [World.absorb, DesktopSessionAgent.onSharedMemoryCreate, DesktopSessionAgent.isIdle,
      Effect.isCaptureActivity]
  | sharedMemoryDestroy id =>
    simp only [World.step, Option.some.injEq] at hs
    subst hs
    refine ⟨?_, _, rfl, ?_⟩ <;>
    simp [World.absorb, DesktopSessionAgent.onSharedMemoryDestroy, DesktopSessionAgent.isIdle,
      Effect.isCaptureActivity]
  | screenListChanged list current =>
    simp only [World.step, Option.some.injEq] at hs
    subst hs
    refine ⟨?_, _, rfl, ?_⟩ <;>
    simp [World.absorb, DesktopSessionAgent.onScreenListChanged, DesktopSessionAgent.isIdle,
      Effect.isCaptureActivity]
  | clipboardEvent event =>
    simp only [World.step, Option.some.injEq] at hs
    subst hs
    refine ⟨?_, _, rfl, ?_⟩ <;>
    simp [World.absorb, DesktopSessionAgent.onClipboardEvent, DesktopSessionAgent.isIdle,
      Effect.isCaptureActivity]

/-- While the agent is Idle, a run without `start-session` leaves it Idle and
adds nothing of the capture loop to the trace. -/
theorem run_idle_quiet (env : Env) (events : List Event) :
    ∀ w w1 : World, w.agent.isIdle = true →
      (∀ e ∈ events, e.isStartSession env = false) →
      w.run env events = some w1 →
      w1.agent.isIdle = true
        ∧ ∃ added : List Effect, w1.trace = w.trace ++ added
            ∧ ∀ x ∈ added, x.isCaptureActivity = false := by
  induction events with
  | nil =>
    intro w w1 hidle _ hrun
    simp only [World.run, Option.some.injEq] at hrun
    subst hrun
    exact ⟨hidle, [], by simp, by simp⟩
  | cons e es ih =>
    intro w w1 hidle hne hrun
    simp only [World.run] at hrun
    cases hs : w.step env e with
    | none => simp [hs] at hrun
    | some w2 =>
      simp only [hs, Option.some_bind] at hrun
      obtain ⟨h2, a2, ht2, hq2⟩ :=
        step_idle_quiet env w w2 e hidle (hne e (List.mem_cons_self _ _)) hs
      obtain ⟨h1, a1, ht1, hq1⟩ :=
        ih w2 w1 h2 (fun x hx => hne x (List.mem_cons_of_mem _ hx)) hrun
      refine ⟨h1, a2 ++ a1, by rw [ht1, ht2, List.append_assoc], ?_⟩
      intro x hx
      rcases List.mem_append.1 hx with hx | hx
      · exact hq2 x hx
      · exact hq1 x hx

/-- C12 (amended): `stop-session` and disconnection leave the agent Idle, and
as long as it stays Idle nothing of the capture loop happens: a `captureBegin`
task (immediate or delayed, whenever it was posted) that runs while the agent
is Idle calls neither `beginCapture()` nor `captureFrame()`, posts no task and
changes nothing; an `encode-frame-result` received while Idle changes only the
receive buffer and schedules nothing; and along every run from an Idle world
that contains no `start-session`, the agent stays Idle and the trace gains no
scheduler call, no `captureFrame()` and no posted task. -/
theorem idle_agent_schedules_nothing (env : Env) :
    (∀ s : DesktopSessionAgent, s.stopSession.1.isIdle = true ∧ s.onDisconnected.1.isIdle = true)
    ∧ (∀ s : DesktopSessionAgent, s.isIdle = true → s.captureBegin = (s, []))
    ∧ (∀ (s : DesktopSessionAgent) (buffer : base.ByteArray), s.isIdle = true →
        bufferKind env buffer = .encode_frame_result →
        s.onMessageReceived env buffer =
          ({ s with incoming_message_ := (env.parseMessage buffer).2 }, []))
    ∧ (∀ (w w1 : World) (events : List Event), w.agent.isIdle = true →
        (∀ e ∈ events, e.isStartSession env = false) →
        w.run env events = some w1 →
        w1.agent.isIdle = true
          ∧ ∃ added : List Effect, w1.trace = w.trace ++ added
              ∧ ∀ x ∈ added, x.isCaptureActivity = false) := by
  refine ⟨?_, ?_, ?_, ?_⟩
  · intro s
    simp [DesktopSessionAgent.onDisconnected, DesktopSessionAgent.stopSession,
      DesktopSessionAgent.isIdle]
  · intro s hidle
    simp only [DesktopSessionAgent.isIdle, Bool.and_eq_true, Option.isNone_iff_eq_none] at hidle
    obtain ⟨⟨⟨⟨_, _⟩, _⟩, h4⟩, h5⟩ := hidle
    simp [DesktopSessionAgent.captureBegin, h4, h5]
  · intro s buffer hidle hk
    simp only [DesktopSessionAgent.isIdle, Bool.and_eq_true, Option.isNone_iff_eq_none] at hidle
    obtain ⟨⟨⟨⟨_, _⟩, _⟩, h4⟩, _⟩ := hidle
    rw [onMessageReceived_eq, hk]
    simp [DesktopSessionAgent.captureEnd, DesktopSessionAgent.received, h4]
  · intro w w1 events hidle hne hrun
    exact run_idle_quiet env events w w1 hidle hne hrun

/-- C12 (amended), at a concrete run: after `start-session` and
`stop-session` the pending task runs and an `encode-frame-result` arrives;
neither does anything of the capture loop. -/
theorem idle_agent_schedules_nothing_witness :
    exampleStopped.pendingTasks = 1
    ∧ ∃ w1 : World,
        exampleStopped.run exampleEnv [.runCaptureBegin, .messageReceived [1]] = some w1
        ∧ w1.agent.isIdle = true
        ∧ ∃ added : List Effect, w1.trace = exampleStopped.trace ++ added
            ∧ ∀ x ∈ added, x.isCaptureActivity = false := by
  refine ⟨by decide, ?_⟩
  cases h : exampleStopped.run exampleEnv [.runCaptureBegin, .messageReceived [1]] with
  | none => exact absurd h (by decide)
  | some w1 =>
    exact ⟨w1, rfl,
      (idle_agent_schedules_nothing exampleEnv).2.2.2 exampleStopped w1 _ (by decide)
        (by decide) h⟩

/-- A message leaves the retained frame as it is. -/
theorem onMessageReceived_last_frame (env : Env) (s : DesktopSessionAgent)
    (buffer : base.ByteArray) :
    (s.onMessageReceived env buffer).1.last_frame_ = s.last_frame_ := by
  rw [onMessageReceived_eq]
  obtain ⟨i, c, f, sch, cap, lf, im, om⟩ := s
  cases hk : bufferKind env buffer <;> cases i <;> cases c <;> cases sch <;> cases cap <;>
  simp [DesktopSessionAgent.received, DesktopSessionAgent.captureEnd,
    DesktopSessionAgent.toInputInjector, DesktopSessionAgent.toClipboardMonitor,
    DesktopSessionAgent.toScreenCapturer, DesktopSessionAgent.startSession,
    DesktopSessionAgent.stopSession]

/-- An event changes `last_frame_` only when it delivers a capture with a
non-empty updated region, and then `last_frame_` holds that frame. -/
theorem step_last_frame (env : Env) (w w1 : World) (e : Event)
    (hs : w.step env e = some w1) (hne : w1.agent.last_frame_ ≠ w.agent.last_frame_) :
    ∃ frame : desktop.SharedFrame, e = .screenCaptured frame
      ∧ frame.updatedRegion.isEmpty = false ∧ w1.agent.last_frame_ = some frame := by
  cases e with
  | messageReceived buffer =>
    simp only [World.step, Option.some.injEq] at hs
    subst hs
    exact absurd (onMessageReceived_last_frame env w.agent buffer) hne
  | disconnected =>
    simp only [World.step, Option.some.injEq] at hs
    subst hs
    exact absurd (by simp [World.absorb, DesktopSessionAgent.onDisconnected,
      DesktopSessionAgent.stopSession]) hne
  | runCaptureBegin =>
    simp only [World.step] at hs
    split_ifs at hs with h0
    simp only [Option.some.injEq] at hs
    subst hs
    refine absurd ?_ hne
    cases h1 : w.agent.capture_scheduler_ <;> cases h2 : w.agent.screen_capturer_ <;>
    simp [World.absorb, DesktopSessionAgent.captureBegin, h1, h2]
  | screenCaptured frame =>
    simp only [World.step] at hs
    split_ifs at hs with h0
    simp only [Option.some.injEq] at hs
    subst hs
    cases he : frame.updatedRegion.isEmpty
    · exact ⟨frame, rfl, he, by
        simp [World.absorb, DesktopSessionAgent.onScreenCaptured, he]⟩
    · refine absurd ?_ hne
      cases h1 : w.agent.capture_scheduler_ <;>
      simp [World.absorb, DesktopSessionAgent.onScreenCaptured,
        DesktopSessionAgent.captureEnd, he, h1]
  | sharedMemoryCreate id =>
    simp only [World.step, Option.some.injEq] at hs
    subst hs
    exact absurd (by simp [World.absorb, DesktopSessionAgent.onSharedMemoryCreate]) hne
  | sharedMemoryDestroy id =>
    simp only [World.step, Option.some.injEq] at hs
    subst hs
    exact absurd (by simp [World.absorb, DesktopSessionAgent.onSharedMemoryDestroy]) hne
  | screenListChanged list current =>
    simp only [World.step, Option.some.injEq] at hs
    subst hs
    exact absurd (by simp [World.absorb, DesktopSessionAgent.onScreenListChanged]) hne
  | clipboardEvent event =>
    simp only [World.step, Option.some.injEq] at hs
    subst hs
    exact absurd (by simp [World.absorb, DesktopSessionAgent.onClipboardEvent]) hne

/-- A run that delivers no capture with a non-empty updated region leaves
`last_frame_` as it is. -/
theorem run_last_frame (env : Env) (events : List Event) :
    ∀ w w1 : World,
      (∀ e ∈ events, ∀ frame, e = Event.screenCaptured frame →
        frame.updatedRegion.isEmpty = true) →
      w.run env events = some w1 → w1.agent.last_frame_ = w.agent.last_frame_ := by
  induction events with
  | nil =>
    intro w w1 _ hrun
    simp only [World.run, Option.some.injEq] at hrun
    subst hrun
    rfl
  | cons e es ih =>
    intro w w1 hall hrun
    simp only [World.run] at hrun
    cases hs : w.step env e with
    | none => simp [hs] at hrun
    | some w2 =>
      simp only [hs, Option.some_bind] at hrun
      have h2 : w2.agent.last_frame_ = w.agent.last_frame_ := by
        by_contra hne
        obtain ⟨frame, he, hnonempty, _⟩ := step_last_frame env w w2 e hs hne
        have := hall e (List.mem_cons_self _ _) frame he
        rw [this] at hnonempty
        exact absurd hnonempty (by simp)
      rw [ih w2 w1 (fun x hx => hall x (List.mem_cons_of_mem _ hx)) hrun, h2]

/-- C13: in an Active agent that holds a sent frame in `last_frame_`, an
`encode-frame-result` message calls the scheduler's `endCapture()` and then
posts exactly one delayed `captureBegin` task whose delay is the scheduler's
`nextCaptureDelay()`; the retained frame is still held, unchanged, after the
acknowledgement. Whatever happens to the agent, `last_frame_` changes only when
a capture with a non-empty updated region is delivered, and then it holds that
frame; along every run without such a capture, in particular from the sending
of a frame up to its acknowledgement, `last_frame_` is unchanged. -/
theorem encode_frame_result_schedules_next (env : Env) :
    (∀ (s : DesktopSessionAgent) (buffer : base.ByteArray) (frame : desktop.SharedFrame),
      s.isActive = true → s.last_frame_ = some frame →
      bufferKind env buffer = .encode_frame_result →
      ∃ scheduler : CaptureScheduler, s.capture_scheduler_ = some scheduler
        ∧ s.onMessageReceived env buffer =
            ({ s with
                incoming_message_ := (env.parseMessage buffer).2
                capture_scheduler_ :=
                  some { scheduler with calls := scheduler.calls ++ [.endCapture] } },
             [Effect.capture_scheduler .endCapture,
              Effect.postDelayedTask .captureBegin
                (env.nextCaptureDelay
                  { scheduler with calls := scheduler.calls ++ [.endCapture] })])
        ∧ (s.onMessageReceived env buffer).1.last_frame_ = some frame
        ∧ postedTasks (s.onMessageReceived env buffer).2 = 1)
    ∧ (∀ (w w1 : World) (e : Event), w.step env e = some w1 →
        w1.agent.last_frame_ ≠ w.agent.last_frame_ →
        ∃ frame : desktop.SharedFrame, e = .screenCaptured frame
          ∧ frame.updatedRegion.isEmpty = false ∧ w1.agent.last_frame_ = some frame)
    ∧ (∀ (w w1 : World) (events : List Event),
        (∀ e ∈ events, ∀ frame, e = Event.screenCaptured frame →
          frame.updatedRegion.isEmpty = true) →
        w.run env events = some w1 → w1.agent.last_frame_ = w.agent.last_frame_) := by
  refine ⟨?_, fun w w1 e hs hne => step_last_frame env w w1 e hs hne,
    fun w w1 events hall hrun => run_last_frame env events w w1 hall hrun⟩
  intro s buffer frame hactive hframe hk
  simp only [DesktopSessionAgent.isActive, Bool.and_eq_true] at hactive
  obtain ⟨⟨⟨⟨_, _⟩, _⟩, hsch⟩, _⟩ := hactive
  obtain ⟨scheduler, hs⟩ := Option.isSome_iff_exists.1 hsch
  refine ⟨scheduler, hs, ?_, ?_, ?_⟩
  · rw [onMessageReceived_eq, hk]
    simp [DesktopSessionAgent.captureEnd, DesktopSessionAgent.received, hs]
  · rw [onMessageReceived_last_frame, hframe]
  · rw [onMessageReceived_eq, hk]
    simp [DesktopSessionAgent.captureEnd, DesktopSessionAgent.received, hs, postedTasks,
      List.countP_cons]

/-- C13, at a concrete input: the example agent with its first frame in flight
receives the acknowledgement. -/
theorem encode_frame_result_schedules_next_witness :
    ∃ scheduler : CaptureScheduler, exampleInFlight.agent.capture_scheduler_ = some scheduler
      ∧ exampleInFlight.agent.onMessageReceived exampleEnv [1] =
          ({ exampleInFlight.agent with
              incoming_message_ := (exampleEnv.parseMessage [1]).2
              capture_scheduler_ :=
                some { scheduler with calls := scheduler.calls ++ [.endCapture] } },
           [Effect.capture_scheduler .endCapture,
            Effect.postDelayedTask .captureBegin
              (exampleEnv.nextCaptureDelay
                { scheduler with calls := scheduler.calls ++ [.endCapture] })])
      ∧ (exampleInFlight.agent.onMessageReceived exampleEnv [1]).1.last_frame_
          = some exampleFrame
      ∧ postedTasks (exampleInFlight.agent.onMessageReceived exampleEnv [1]).2 = 1 :=
  (encode_frame_result_schedules_next exampleEnv).1 exampleInFlight.agent [1] exampleFrame
    (by decide) (by decide) (by decide)

/-- C14: for every agent state and every captured frame with a non-empty
updated region, `onScreenCaptured` sends exactly one message on the channel. It
is an `encode_frame` message and nothing else: every other field is absent,
whatever `outgoing_message_` held before. Its frame carries the shared buffer
id of the frame, the serialized rectangle made of the frame's top-left corner
and size, the serialized pixel format of the frame, and the serialized
rectangles of the updated region, one for each and in iteration order. The
frame is then retained in `last_frame_`. -/
theorem onScreenCaptured_sends_frame (env : Env) (s : DesktopSessionAgent)
    (frame : desktop.SharedFrame) (hne : frame.updatedRegion.isEmpty = false) :
    (s.onScreenCaptured env frame).2.filter Effect.isSend =
        [Effect.send
          { create_shared_buffer := none,
            release_shared_buffer := none,
            screen_list := none,
            clipboard_event := none,
            encode_frame :=
              some
                { frame :=
                    some
                      { shared_buffer_id := frame.sharedMemory.id,
                        desktop_rect :=
                          some (codec.serializeRect
                            (desktop.Rect.makeXYWH frame.topLeft frame.size)),
                        pixel_format := some (codec.serializePixelFormat frame.format),
                        dirty_rect := frame.updatedRegion.rects.map codec.serializeRect } } }]
    ∧ (frame.updatedRegion.rects.map codec.serializeRect).length
        = frame.updatedRegion.rects.length
    ∧ (∀ e ∈ (s.onScreenCaptured env frame).2,
        e.isSend = false → e.isCaptureActivity = false)
    ∧ (s.onScreenCaptured env frame).1.last_frame_ = some frame
    ∧ (∀ out : SessionToService,
        ({ s with outgoing_message_ := out }.onScreenCaptured env frame).2
          = (s.onScreenCaptured env frame).2) := by
  refine ⟨?_, by simp, ?_, ?_, ?_⟩
  · cases hl : s.last_frame_ <;>
    simp [DesktopSessionAgent.onScreenCaptured, hne, hl, releaseFrameEffects, Effect.isSend,
      SessionToService.cleared]
  · cases hl : s.last_frame_ <;>
    simp [DesktopSessionAgent.onScreenCaptured, hne, hl, releaseFrameEffects, Effect.isSend,
      Effect.isCaptureActivity]
  · simp [DesktopSessionAgent.onScreenCaptured, hne]
  · intro out
    simp [DesktopSessionAgent.onScreenCaptured, hne]

/-- C14, at a concrete input: the example agent, whose `outgoing_message_`
still holds the `create_shared_buffer` message of buffer 7, receives a frame
with one updated rectangle. -/
theorem onScreenCaptured_sends_frame_witness :
    ((exampleActive.onSharedMemoryCreate 7).1.onScreenCaptured exampleEnv exampleFrame).2.filter
        Effect.isSend =
        [Effect.send
          { create_shared_buffer := none,
            release_shared_buffer := none,
            screen_list := none,
            clipboard_event := none,
            encode_frame :=
              some
                { frame :=
                    some
                      { shared_buffer_id := 7,
                        desktop_rect := some { x := 0, y := 0, width := 640, height := 480 },
                        pixel_format := some { bits_per_pixel := 32, layout := [] },
                        dirty_rect := [{ x := 0, y := 0, width := 8, height := 8 }] } } }] :=
  (onScreenCaptured_sends_frame exampleEnv (exampleActive.onSharedMemoryCreate 7).1 exampleFrame
    (by decide)).1

/-- C15: for every agent state and every id, `onSharedMemoryCreate(id)` sends
exactly one message, whose only field is `create_shared_buffer` with that id,
and `onSharedMemoryDestroy(id)` sends exactly one message, whose only field is
`release_shared_buffer` with that id; neither message depends on what
`outgoing_message_` held before, neither call has any other effect, and neither
changes a member of the agent other than `outgoing_message_`, so the session
state (Idle or Active, and every subsystem) and the retained frame stay as they
are. -/
theorem shared_memory_callbacks_mirror_id (s : DesktopSessionAgent) (id : Int) :
    (s.onSharedMemoryCreate id).2 =
        [Effect.send
          { create_shared_buffer := some { shared_buffer_id := id },
            release_shared_buffer := none,
            screen_list := none,
            encode_frame := none,
            clipboard_event := none }]
    ∧ (s.onSharedMemoryDestroy id).2 =
        [Effect.send
          { create_shared_buffer := none,
            release_shared_buffer := some { shared_buffer_id := id },
            screen_list := none,
            encode_frame := none,
            clipboard_event := none }]
    ∧ (∀ out : SessionToService,
        ({ s with outgoing_message_ := out }.onSharedMemoryCreate id).2
            = (s.onSharedMemoryCreate id).2
        ∧ ({ s with outgoing_message_ := out }.onSharedMemoryDestroy id).2
            = (s.onSharedMemoryDestroy id).2)
    ∧ (s.onSharedMemoryCreate id).1 =
        { s with
            outgoing_message_ :=
              { SessionToService.cleared with
                  create_shared_buffer := some { shared_buffer_id := id } } }
    ∧ (s.onSharedMemoryDestroy id).1 =
        { s with
            outgoing_message_ :=
              { SessionToService.cleared with
                  release_shared_buffer := some { shared_buffer_id := id } } }
    ∧ (s.onSharedMemoryCreate id).1.isIdle = s.isIdle
    ∧ (s.onSharedMemoryCreate id).1.isActive = s.isActive
    ∧ (s.onSharedMemoryDestroy id).1.isIdle = s.isIdle
    ∧ (s.onSharedMemoryDestroy id).1.isActive = s.isActive := by
  simp [DesktopSessionAgent.onSharedMemoryCreate, DesktopSessionAgent.onSharedMemoryDestroy,
    SessionToService.cleared, DesktopSessionAgent.isIdle, DesktopSessionAgent.isActive]

end host

namespace aspia

set_option maxHeartbeats 4000000 in
/-- Token and command line of the process the As-System launch creates. -/
theorem asSystem_command_line (os : Os) (session_type : List Char) (session_id : Nat)
    (channel_id : List Char) (P : Outcome Bool × Thread → Prop)
    (hP : (fun r : Outcome Bool × Thread =>
      (∀ q ∈ r.2.calls, ∀ token command_line,
        q.call = OsCall.CreateProcessAsUserW token command_line →
          token = Token.duplicate sessionTokenAccess
          ∧ ∃ folder, currentFolderOf os.moduleFileName = some folder
              ∧ command_line =
                  { program := folder ++ [Char.ofNat 92] ++ kProcessNameHost,
                    switches := [(kSessionTypeSwitch, session_type),
                                 (kChannelIdSwitch, channel_id)] })
      ∧ (∀ q ∈ r.2.calls, q.call.isUserTokenQuery = false)) = P) :
    P (LaunchSessionProcessAsSystem os session_type session_id channel_id Thread.initial) := by
  rcases moduleFileName_cases os with ⟨hf, hm⟩ | ⟨hf, hm⟩ | ⟨folder, hf, hm⟩ <;>
  simp [LaunchSessionProcessAsSystem, GetCurrentFolder, CreateSessionToken,
    CreatePrivilegedToken, CopyProcessToken, CreateProcessWithToken, osCall, recordCall, bind,
    Launch.bind, pure, Launch.pure, qFatal, Thread.initial, hf, hm, impersonatingAfter] <;>
  repeat' (split_ifs <;>
    simp [impersonatingAfter, Launch.bind, Launch.pure, recordCall, qFatal, hf, hm])
  all_goals subst hP
  all_goals
    simp_all [OsCall.isUserTokenQuery, sessionTokenAccess, hostCommandLine,
      CommandLine.AppendSwitch, CommandLine.ofProgram]

set_option maxHeartbeats 4000000 in
/-- Token and command line of the process the As-User launch creates. -/
theorem asUser_command_line (os : Os) (session_type : List Char) (session_id : Nat)
    (channel_id : List Char) (P : Outcome Bool × Thread → Prop)
    (hP : (fun r : Outcome Bool × Thread =>
      (∀ q ∈ r.2.calls, ∀ token command_line,
        q.call = OsCall.CreateProcessAsUserW token command_line →
          token = Token.user session_id
          ∧ ∃ folder, currentFolderOf os.moduleFileName = some folder
              ∧ command_line =
                  { program := folder ++ [Char.ofNat 92] ++ kProcessNameHost,
                    switches := [(kSessionTypeSwitch, session_type),
                                 (kChannelIdSwitch, channel_id)] })
      ∧ (∀ q ∈ r.2.calls, q.call.isSetTokenInformation = false)) = P) :
    P (LaunchSessionProcessAsUser os session_type session_id channel_id Thread.initial) := by
  rcases moduleFileName_cases os with ⟨hf, hm⟩ | ⟨hf, hm⟩ | ⟨folder, hf, hm⟩ <;>
  simp [LaunchSessionProcessAsUser, GetCurrentFolder, CreatePrivilegedToken, CopyProcessToken,
    CreateProcessWithToken, osCall, recordCall, bind, Launch.bind, pure, Launch.pure, qFatal,
    Thread.initial, hf, hm, impersonatingAfter] <;>
  repeat' (split_ifs <;>
    simp [impersonatingAfter, Launch.bind, Launch.pure, recordCall, qFatal, hf, hm])
  all_goals subst hP
  all_goals
    simp_all [OsCall.isSetTokenInformation, hostCommandLine, CommandLine.AppendSwitch,
      CommandLine.ofProgram]

/-- C16: `LaunchSessionProcess` selects the strategy by the session type.
`DESKTOP_MANAGE` and `DESKTOP_VIEW` run the As-System launch with the
session-type value `desktop`: a process is only ever created with the
retargeted duplicate of the process token, and the user token is never queried.
`FILE_TRANSFER` runs the As-User launch with the value `file-transfer`: a
process is only ever created with the token of the user of the session, and no
token information is set. Every other session type returns false without any
call at all. On both paths the command line of the created process is
`aspia_host.exe` in the folder of the current module, with exactly the two
switches `session-type` (the value of the path) and `channel-id` (the
`channel_id` argument), in this order. -/
theorem launch_strategy_by_session_type (os : Os) (session_id : Nat)
    (channel_id : List Char) :
    (∀ session_type : SessionType,
      session_type = .SESSION_TYPE_DESKTOP_MANAGE ∨ session_type = .SESSION_TYPE_DESKTOP_VIEW →
      LaunchSessionProcess os session_type session_id channel_id
          = LaunchSessionProcessAsSystem os kSessionTypeDesktop session_id channel_id
      ∧ (∀ q ∈ (LaunchSessionProcess os session_type session_id channel_id
            Thread.initial).2.calls,
          ∀ token command_line, q.call = OsCall.CreateProcessAsUserW token command_line →
            token = Token.duplicate sessionTokenAccess
            ∧ ∃ folder, currentFolderOf os.moduleFileName = some folder
                ∧ command_line =
                    { program := folder ++ [Char.ofNat 92] ++ kProcessNameHost,
                      switches := [(kSessionTypeSwitch, kSessionTypeDesktop),
                                   (kChannelIdSwitch, channel_id)] })
      ∧ (∀ q ∈ (LaunchSessionProcess os session_type session_id channel_id
            Thread.initial).2.calls, q.call.isUserTokenQuery = false))
    ∧ (LaunchSessionProcess os .SESSION_TYPE_FILE_TRANSFER session_id channel_id
          = LaunchSessionProcessAsUser os kSessionTypeFileTransfer session_id channel_id
      ∧ (∀ q ∈ (LaunchSessionProcess os .SESSION_TYPE_FILE_TRANSFER session_id channel_id
            Thread.initial).2.calls,
          ∀ token command_line, q.call = OsCall.CreateProcessAsUserW token command_line →
            token = Token.user session_id
            ∧ ∃ folder, currentFolderOf os.moduleFileName = some folder
                ∧ command_line =
                    { program := folder ++ [Char.ofNat 92] ++ kProcessNameHost,
                      switches := [(kSessionTypeSwitch, kSessionTypeFileTransfer),
                                   (kChannelIdSwitch, channel_id)] })
      ∧ (∀ q ∈ (LaunchSessionProcess os .SESSION_TYPE_FILE_TRANSFER session_id channel_id
            Thread.initial).2.calls, q.call.isSetTokenInformation = false))
    ∧ (∀ (value : Nat) (t : Thread),
        LaunchSessionProcess os (.other value) session_id channel_id t
          = (Outcome.returned false, t))
    ∧ kSessionTypeDesktop = "desktop".toList
    ∧ kSessionTypeFileTransfer = "file-transfer".toList
    ∧ kSessionTypeSwitch = "session-type".toList
    ∧ kChannelIdSwitch = "channel-id".toList
    ∧ kProcessNameHost = "aspia_host.exe".toList := by
  refine ⟨?_, ⟨rfl, ?_⟩, fun _ _ => rfl, rfl, rfl, rfl, rfl, rfl⟩
  · intro session_type ht
    have hsys : LaunchSessionProcess os session_type session_id channel_id
        = LaunchSessionProcessAsSystem os kSessionTypeDesktop session_id channel_id := by
      rcases ht with ht | ht <;> subst ht <;> rfl
    rw [hsys]
    exact ⟨rfl, asSystem_command_line os kSessionTypeDesktop session_id channel_id _ rfl⟩
  · exact asUser_command_line os kSessionTypeFileTransfer session_id channel_id _ rfl

/-- C16, at concrete inputs: the desktop-view launch is the As-System launch
with `desktop`, and when every call succeeds its calls include the creation of
`C:\aspia_host.exe --session-type=desktop --channel-id=c` with the duplicated
token. -/
theorem launch_strategy_by_session_type_witness :
    LaunchSessionProcess exampleOs .SESSION_TYPE_DESKTOP_VIEW 2 [Char.ofNat 99]
        = LaunchSessionProcessAsSystem exampleOs kSessionTypeDesktop 2 [Char.ofNat 99]
    ∧ ({ call := OsCall.CreateProcessAsUserW (Token.duplicate sessionTokenAccess)
            { program := [Char.ofNat 67, Char.ofNat 58, Char.ofNat 92] ++ kProcessNameHost,
              switches := [(kSessionTypeSwitch, kSessionTypeDesktop),
                           (kChannelIdSwitch, [Char.ofNat 99])] },
         ok := true, impersonating := false } : Record)
        ∈ (LaunchSessionProcess exampleOs .SESSION_TYPE_DESKTOP_VIEW 2 [Char.ofNat 99]
            Thread.initial).2.calls :=
  ⟨((launch_strategy_by_session_type exampleOs 2 [Char.ofNat 99]).1
      .SESSION_TYPE_DESKTOP_VIEW (Or.inr rfl)).1, by decide⟩

end aspia

namespace ipc

/-- Draining a queue with enough fuel yields its container, front first. -/
theorem WriteQueue.drain_eq (q : WriteQueue) :
    ∀ fuel : Nat, q.c.length ≤ fuel → WriteQueue.drain fuel q = q.c := by
  obtain ⟨c⟩ := q
  induction c with
  | nil =>
    intro fuel _
    cases fuel <;> simp [WriteQueue.drain, WriteQueue.empty]
  | cons x xs ih =>
    intro fuel hfuel
    cases fuel with
    | zero => simp at hfuel
    | succ n =>
      simp only [List.length_cons, Nat.add_le_add_iff_right] at hfuel
      simp [WriteQueue.drain, WriteQueue.empty, WriteQueue.front, WriteQueue.pop, ih n hfuel]

/-- C17: `fastSwap` is a pure exchange. For all queues `a` and `b`, after
`a.fastSwap(b)` the queue `a` holds exactly the former sequence of `b` and `b`
holds exactly the former sequence of `a`, so draining each yields the other's
former elements in their original FIFO order, each element once; a second
`fastSwap` restores both queues; and with an empty work queue the whole
incoming sequence moves to the work queue and the incoming queue is left
empty. -/
theorem fastSwap_exchanges (a b : WriteQueue) :
    (a.fastSwap b).1 = b
    ∧ (a.fastSwap b).2 = a
    ∧ WriteQueue.drain b.c.length (a.fastSwap b).1 = b.c
    ∧ WriteQueue.drain a.c.length (a.fastSwap b).2 = a.c
    ∧ ((a.fastSwap b).1.c ++ (a.fastSwap b).2.c).Perm (a.c ++ b.c)
    ∧ (a.fastSwap b).1.fastSwap (a.fastSwap b).2 = (a, b)
    ∧ (∀ work incoming : WriteQueue, work.empty = true →
        (work.fastSwap incoming).1.c = incoming.c
        ∧ (work.fastSwap incoming).2.empty = true) := by
  refine ⟨rfl, rfl, ?_, ?_, ?_, rfl, ?_⟩
  · exact WriteQueue.drain_eq _ _ (Nat.le_refl _)
  · exact WriteQueue.drain_eq _ _ (Nat.le_refl _)
  · exact List.perm_append_comm
  · intro work incoming h
    exact ⟨rfl, h⟩

/-- C17, at a concrete input: the I/O loop swaps its empty work queue with an
incoming queue of two messages. -/
theorem fastSwap_exchanges_witness :
    ((WriteQueue.mk []).fastSwap (WriteQueue.mk [[1, 2], [3]])).1.c = [[1, 2], [3]]
    ∧ ((WriteQueue.mk []).fastSwap (WriteQueue.mk [[1, 2], [3]])).2.empty = true :=
  (fastSwap_exchanges (WriteQueue.mk []) (WriteQueue.mk [[1, 2], [3]])).2.2.2.2.2.2
    (WriteQueue.mk []) (WriteQueue.mk [[1, 2], [3]]) (by decide)

end ipc

namespace aspia

/-- `find_last_of` finds nothing exactly when no character of the text is in
the set. -/
theorem find_last_of_none (chars : List Char) :
    ∀ s : List Char, find_last_of s chars = none ↔ ∀ c ∈ s, chars.contains c = false := by
  intro s
  induction s with
  | nil => simp [find_last_of]
  | cons c cs ih =>
    simp only [find_last_of, List.mem_cons, forall_eq_or_imp]
    cases h : find_last_of cs chars with
    | none =>
      have hcs := ih.1 h
      cases hc : chars.contains c <;> simp_all
    | some pos =>
      simp only [false_iff, not_and, reduceCtorEq]
      intro _ hall
      have := ih.2 hall
      rw [h] at this
      exact Option.noConfusion this

/-- The position `find_last_of` returns splits the text into the part before
it, a character of the set, and a remainder without any character of the set. -/
theorem find_last_of_some (chars : List Char) :
    ∀ (s : List Char) (pos : Nat), find_last_of s chars = some pos →
      ∃ (sep : Char) (remainder : List Char),
        s = s.take pos ++ sep :: remainder ∧ chars.contains sep = true
          ∧ ∀ c ∈ remainder, chars.contains c = false := by
  intro s
  induction s with
  | nil => intro pos h; simp [find_last_of] at h
  | cons c cs ih =>
    intro pos h
    simp only [find_last_of] at h
    cases hcs : find_last_of cs chars with
    | some p =>
      rw [hcs] at h
      simp only [Option.some.injEq] at h
      subst h
      obtain ⟨sep, remainder, hsplit, hsep, hrem⟩ := ih p hcs
      refine ⟨sep, remainder, ?_, hsep, hrem⟩
      simp only [List.take_succ_cons, List.cons_append]
      rw [← hsplit]
    | none =>
      rw [hcs] at h
      cases hc : chars.contains c with
      | false => simp_all
      | true =>
        simp only [hc, if_true, Option.some.injEq] at h
        subst h
        exact ⟨c, cs, by simp, hc, (find_last_of_none chars cs).1 hcs⟩

/-- The launcher's `GetCurrentFolder` is `GetCurrentFolderInto` with the output
parameter read only on success. -/
theorem GetCurrentFolder_eq_into (os : Os) (path : List Char) (t : Thread) :
    (GetCurrentFolder os t).2 = (GetCurrentFolderInto os path t).2
    ∧ ∀ r, (GetCurrentFolderInto os path t).1 = Outcome.returned r →
        (GetCurrentFolder os t).1 = Outcome.returned (if r.1 then some r.2 else none) := by
  cases hm : os.moduleFileName.isEmpty <;>
  cases hf : find_last_of os.moduleFileName kPathSeparators <;>
  simp [GetCurrentFolder, GetCurrentFolderInto, currentFolderOf, recordCall, bind, Launch.bind,
    pure, Launch.pure, hm, hf]

/-- C18: `GetCurrentFolder` yields the text of the module path before its last
separator. When the module path contains a backslash or a slash, the function
returns true and `*path` becomes the part of the module path before the last
such character: the module path is that part, the separator, and a remainder
without separator. When the module path contains no separator (in particular
when `GetModuleFileNameW` failed), the function returns false and `*path` keeps
its value. When the only separator is the first character, `*path` becomes the
empty string. The only call made is `GetModuleFileNameW`. -/
theorem GetCurrentFolder_parent_folder (os : Os) (path : List Char) (t : Thread) :
    ((∃ c ∈ os.moduleFileName, isPathSeparator c = true) →
      ∃ (folder : List Char) (sep : Char) (remainder : List Char),
        (GetCurrentFolderInto os path t).1 = Outcome.returned (true, folder)
        ∧ os.moduleFileName = folder ++ sep :: remainder
        ∧ isPathSeparator sep = true
        ∧ ∀ c ∈ remainder, isPathSeparator c = false)
    ∧ ((∀ c ∈ os.moduleFileName, isPathSeparator c = false) →
        (GetCurrentFolderInto os path t).1 = Outcome.returned (false, path))
    ∧ (∀ (sep : Char) (rest : List Char), os.moduleFileName = sep :: rest →
        isPathSeparator sep = true → (∀ c ∈ rest, isPathSeparator c = false) →
        (GetCurrentFolderInto os path t).1 = Outcome.returned (true, []))
    ∧ (GetCurrentFolderInto os path t).2 =
        { impersonating := t.impersonating,
          calls := t.calls ++ [{ call := OsCall.GetModuleFileNameW,
                                 ok := !os.moduleFileName.isEmpty,
                                 impersonating := t.impersonating }] }
    ∧ (isPathSeparator (Char.ofNat 92) = true ∧ isPathSeparator (Char.ofNat 47) = true
        ∧ ∀ c : Char, isPathSeparator c = true → c = Char.ofNat 92 ∨ c = Char.ofNat 47) := by
  have hsome : (∃ c ∈ os.moduleFileName, isPathSeparator c = true) →
      ∃ (folder : List Char) (sep : Char) (remainder : List Char),
        (GetCurrentFolderInto os path t).1 = Outcome.returned (true, folder)
        ∧ os.moduleFileName = folder ++ sep :: remainder
        ∧ isPathSeparator sep = true
        ∧ ∀ c ∈ remainder, isPathSeparator c = false := by
    rintro ⟨c, hc, hsep⟩
    have hne : os.moduleFileName.isEmpty = false := by
      cases hm : os.moduleFileName with
      | nil => rw [hm] at hc; simp at hc
      | cons x xs => rfl
    cases hf : find_last_of os.moduleFileName kPathSeparators with
    | none =>
      have := (find_last_of_none kPathSeparators os.moduleFileName).1 hf c hc
      simp only [isPathSeparator] at hsep
      rw [this] at hsep
      exact absurd hsep (by simp)
    | some pos =>
      obtain ⟨sep, remainder, hsplit, hs, hrem⟩ :=
        find_last_of_some kPathSeparators os.moduleFileName pos hf
      refine ⟨os.moduleFileName.take pos, sep, remainder, ?_, hsplit, hs, hrem⟩
      simp [GetCurrentFolderInto, recordCall, bind, Launch.bind, pure, Launch.pure, hne, hf]
  refine ⟨hsome, ?_, ?_, ?_, ?_⟩
  · intro hall
    have hf := (find_last_of_none kPathSeparators os.moduleFileName).2 hall
    cases hm : os.moduleFileName.isEmpty <;>
    simp [GetCurrentFolderInto, recordCall, bind, Launch.bind, pure, Launch.pure, hm, hf]
  · intro sep rest hpath hsep hrest
    have hnone := (find_last_of_none kPathSeparators rest).2 hrest
    have hmem : sep ∈ kPathSeparators := by simpa [isPathSeparator] using hsep
    simp [GetCurrentFolderInto, recordCall, bind, Launch.bind, pure, Launch.pure, hpath,
      find_last_of, hnone, hmem]
  · cases hm : os.moduleFileName.isEmpty <;>
    cases hf : find_last_of os.moduleFileName kPathSeparators <;>
    simp [GetCurrentFolderInto, recordCall, bind, Launch.bind, pure, Launch.pure, hm, hf,
      impersonatingAfter]
  · refine ⟨by decide, by decide, ?_⟩
    intro c hc
    simpa [isPathSeparator, kPathSeparators] using hc

/-- C18, at a concrete input: for the module path `C:\a/b.exe` the folder is
`C:\a`, the text before the slash. -/
theorem GetCurrentFolder_parent_folder_witness :
    ∃ (folder : List Char) (sep : Char) (remainder : List Char),
      (GetCurrentFolderInto exampleOsMixedPath [] Thread.initial).1
          = Outcome.returned (true, folder)
      ∧ exampleOsMixedPath.moduleFileName = folder ++ sep :: remainder
      ∧ isPathSeparator sep = true
      ∧ ∀ c ∈ remainder, isPathSeparator c = false :=
  (GetCurrentFolder_parent_folder exampleOsMixedPath [] Thread.initial).1
    ⟨Char.ofNat 47, by decide, by decide⟩

/-- C19: when `IsActive()` is true, `Start(delta, callback)` changes nothing:
it returns with the same handle and the same stored callback and makes no call
on the operating system, for every delta and callback (the assertion at its
head only looks at the delta). `TimerProc` calls the stored callback and writes
no member, so the timer is still active after it fired and `Start` still
changes nothing, until `Stop()`. After `Stop()` `IsActive()` is false, and a
second `Stop()` makes no call and changes nothing. -/
theorem start_is_noop_while_active (os : TimerOs) (self : WaitableTimer) (time_delta : Int)
    (signal_callback : TimeoutCallback) :
    (self.IsActive = true →
      (self.Start os time_delta signal_callback).outcome = Outcome.returned self
      ∧ (self.Start os time_delta signal_callback).effects = []
      ∧ (self.Start os time_delta signal_callback).assertion
          = decide (time_delta < DWORD_MAX))
    ∧ (self.TimerProc.1 = self
      ∧ self.TimerProc.2 = [TimerEffect.signal_callback self.signal_callback_])
    ∧ (self.IsActive = true →
      self.TimerProc.1.IsActive = true
      ∧ (self.TimerProc.1.Start os time_delta signal_callback).outcome
          = Outcome.returned self
      ∧ (self.TimerProc.1.Start os time_delta signal_callback).effects = [])
    ∧ (self.Stop.1.IsActive = false
      ∧ self.Stop.1.signal_callback_ = self.signal_callback_
      ∧ self.Stop.1.Stop = (self.Stop.1, [])
      ∧ (∀ handle, self.timer_handle_ = some handle →
          self.Stop.2 = [TimerEffect.DeleteTimerQueueTimer handle])) := by
  refine ⟨?_, ⟨rfl, rfl⟩, ?_, ?_⟩
  · intro h
    simp only [WaitableTimer.IsActive] at h
    simp [WaitableTimer.Start, h]
  · intro h
    simp only [WaitableTimer.IsActive] at h
    simp [WaitableTimer.Start, WaitableTimer.TimerProc, WaitableTimer.IsActive, h]
  · cases hh : self.timer_handle_ <;>
    simp [WaitableTimer.Stop, WaitableTimer.IsActive, hh]

/-- C19, at a concrete run: the example timer is started with callback 1 and
fires; a second `Start` with callback 2 then returns the timer as it is, with
callback 1 still stored, and calls nothing. -/
theorem start_is_noop_while_active_witness :
    ∃ started : WaitableTimer,
      (exampleTimer.Start exampleTimerOs 33 ⟨1⟩).outcome = Outcome.returned started
      ∧ started.signal_callback_ = some ⟨1⟩
      ∧ (started.TimerProc.1.Start exampleTimerOs 50 ⟨2⟩).outcome = Outcome.returned started
      ∧ (started.TimerProc.1.Start exampleTimerOs 50 ⟨2⟩).effects = [] :=
  ⟨{ timer_handle_ := some ⟨34⟩, signal_callback_ := some ⟨1⟩ }, by decide, rfl,
    ((start_is_noop_while_active exampleTimerOs
      { timer_handle_ := some ⟨34⟩, signal_callback_ := some ⟨1⟩ } 50 ⟨2⟩).2.2.1 rfl).2⟩

/-- C20: `IsLeakableVarType` returns true for every type with the `VT_ARRAY`
flag, and false for every type without it whose base type (under
`VT_TYPEMASK`) is `VT_EMPTY` or one of the scalar types `VT_I1`, `VT_UI1`,
`VT_I2`, `VT_UI2`, `VT_I4`, `VT_UI4`, `VT_I8`, `VT_UI8`, `VT_R4`, `VT_R8`,
`VT_DATE`, `VT_BOOL`. Hence the assertion `!IsLeakableVarType(var_.vt)` at the
head of every setter holds when the variant was last written by `Release()` or
by a scalar setter, and fails when it was last written by `Set(const
wchar_t*)`, `Set(IDispatch*)` or `Set(IUnknown*)`, whatever the variant held
before and whatever is set next. -/
theorem leakable_var_types (os : VariantOs) (self : ScopedVariant) (vt : Nat) :
    ((vt &&& VT_ARRAY) ≠ 0 → IsLeakableVarType vt = true)
    ∧ ((vt &&& VT_ARRAY) = 0 → (vt &&& VT_TYPEMASK) ∈ scalarTypes →
        IsLeakableVarType vt = false)
    ∧ (∀ next : Setter, (self.Release.1.Set os next).assertion = true)
    ∧ (∀ last next : Setter, last.isScalar = true →
        ((self.Set os last).variant.Set os next).assertion = true)
    ∧ (∀ last next : Setter, last.isOwning = true →
        ((self.Set os last).variant.Set os next).assertion = false) := by
  refine ⟨?_, ?_, ?_, ?_, ?_⟩
  · intro h
    unfold IsLeakableVarType
    simp only []
    split_ifs with hc
    · rfl
    · simp only [Bool.and_eq_true, Bool.not_eq_true', bne_iff_ne, ne_eq, not_and,
        Decidable.not_not] at hc
      cases hl : (vt &&& VT_TYPEMASK == VT_BSTR || vt &&& VT_TYPEMASK == VT_DISPATCH
          || vt &&& VT_TYPEMASK == VT_VARIANT || vt &&& VT_TYPEMASK == VT_UNKNOWN
          || vt &&& VT_TYPEMASK == VT_SAFEARRAY || vt &&& VT_TYPEMASK == VT_VOID
          || vt &&& VT_TYPEMASK == VT_PTR || vt &&& VT_TYPEMASK == VT_CARRAY
          || vt &&& VT_TYPEMASK == VT_USERDEFINED || vt &&& VT_TYPEMASK == VT_LPSTR
          || vt &&& VT_TYPEMASK == VT_LPWSTR || vt &&& VT_TYPEMASK == VT_RECORD
          || vt &&& VT_TYPEMASK == VT_INT_PTR || vt &&& VT_TYPEMASK == VT_UINT_PTR
          || vt &&& VT_TYPEMASK == VT_FILETIME || vt &&& VT_TYPEMASK == VT_BLOB
          || vt &&& VT_TYPEMASK == VT_STREAM || vt &&& VT_TYPEMASK == VT_STORAGE
          || vt &&& VT_TYPEMASK == VT_STREAMED_OBJECT || vt &&& VT_TYPEMASK == VT_STORED_OBJECT
          || vt &&& VT_TYPEMASK == VT_BLOB_OBJECT || vt &&& VT_TYPEMASK == VT_VERSIONED_STREAM
          || vt &&& VT_TYPEMASK == VT_BSTR_BLOB)
      · exact absurd (hc hl) h
      · rfl
  · intro h hm
    unfold IsLeakableVarType
    simp only [h]
    simp only [scalarTypes, List.mem_cons, List.mem_singleton, List.not_mem_nil, or_false] at hm
    rcases hm with hm | hm | hm | hm | hm | hm | hm | hm | hm | hm | hm | hm | hm <;>
    rw [hm] <;> decide
  · intro next
    cases next <;> simp [ScopedVariant.Set, ScopedVariant.Release] <;> decide
  · intro last next hlast
    cases last <;> simp [Setter.isScalar] at hlast <;>
    simp [ScopedVariant.Set, ScopedVariant.written] <;> decide
  · intro last next hlast
    cases last <;> simp [Setter.isOwning] at hlast <;>
    simp [ScopedVariant.Set, ScopedVariant.written] <;> decide

/-- C20, at concrete inputs: an array of `VT_I4` is leakable, `VT_I4` by
reference is not, and a variant that holds a string fails the assertion of the
next setter. -/
theorem leakable_var_types_witness :
    IsLeakableVarType (VT_I4 ||| VT_ARRAY) = true
    ∧ IsLeakableVarType (VT_I4 ||| 0x4000) = false
    ∧ (((ScopedVariant.mk ⟨VT_EMPTY, .unset⟩).Set exampleVariantOs (.wchar_t none)).variant.Set
        exampleVariantOs (.qint32 5)).assertion = false :=
  ⟨(leakable_var_types exampleVariantOs ⟨⟨VT_EMPTY, .unset⟩⟩ (VT_I4 ||| VT_ARRAY)).1 (by decide),
    (leakable_var_types exampleVariantOs ⟨⟨VT_EMPTY, .unset⟩⟩ (VT_I4 ||| 0x4000)).2.1 (by decide)
      (by decide),
    (leakable_var_types exampleVariantOs ⟨⟨VT_EMPTY, .unset⟩⟩ 0).2.2.2.2 (.wchar_t none)
      (.qint32 5) rfl⟩

end aspia
